import Mathlib

/-!
# SMTP client base: a shallow embedding of `src/smtpclientbase.cpp`

C strings (`const char *`) are modelled as `List Char`, one `Char` per byte.
Wherever the C++ code reads a raw buffer as a C string (`strlen`,
`std::string(const char *)`), only the bytes before the first NUL count:
that is `cstr`.
-/

namespace SMTP

/-! ## C strings -/

/-- The NUL byte that terminates a C string. -/
def NUL : Char := Char.ofNat 0

/-- The C string stored in a buffer: the bytes before the first NUL
(what `strlen`, `std::string(const char *)` and `strncat` see). -/
def cstr (buf : List Char) : List Char :=
  buf.takeWhile (fun c => c != NUL)

/-- The C function `strlen`. -/
def strlen (buf : List Char) : Nat :=
  (cstr buf).length

/-- A byte string without NUL: the content of a well-formed C string. -/
def NulFree (s : List Char) : Prop :=
  ∀ c ∈ s, c ≠ NUL

instance (s : List Char) : Decidable (NulFree s) := by
  unfold NulFree; infer_instance

/-! ## `std::stoi` and `extractReturnCode` (smtpclientbase.cpp:884-895) -/

/-- The C function `isspace` in the "C" locale. -/
def isspace (c : Char) : Bool :=
  c == ' ' || c == '\t' || c == '\n' || c == Char.ofNat 11 || c == Char.ofNat 12 || c == '\r'

/-- The C function `isdigit`. -/
def isdigit (c : Char) : Bool :=
  decide ('0'.toNat ≤ c.toNat ∧ c.toNat ≤ '9'.toNat)

/-- Value of a run of decimal digits, most significant first. -/
def digitsValue (ds : List Char) : Nat :=
  ds.foldl (fun acc c => 10 * acc + (c.toNat - '0'.toNat)) 0

/-- The sign and the rest after an optional leading `+` or `-`. -/
def splitSign (s : List Char) : Bool × List Char :=
  match s with
  | '-' :: r => (true, r)
  | '+' :: r => (false, r)
  | _ => (false, s)

/-- The library function `std::stoi(str)` (base 10): skip leading white space,
read an optional sign and then the longest run of decimal digits. `none`
stands for a thrown exception: `std::invalid_argument` when there is no digit
to convert, `std::out_of_range` when the value does not fit an `int`. -/
def stoi (str : List Char) : Option Int :=
  let body := splitSign (str.dropWhile isspace)
  let ds := body.2.takeWhile isdigit
  if ds.isEmpty then none
  else
    let v : Int := if body.1 then -(digitsValue ds : Int) else (digitsValue ds : Int)
    if -(2 : Int) ^ 31 ≤ v ∧ v ≤ (2 : Int) ^ 31 - 1 then some v else none

/-- `SMTPClientBase::extractReturnCode`. The argument is the reply buffer,
`none` for a null pointer. -/
def extractReturnCode (pOutput : Option (List Char)) : Int :=
  match pOutput with
  | none => -1
  | some buf =>
    if strlen buf ≥ 3 then
      let code_str := cstr buf
      match stoi (code_str.take 3) with
      | some v => v
      | none => -1
    else -1

/-- `ForcedSecureSMTPClient::extractReturnCode` and
`OpportunisticSecureSMTPClient::extractReturnCode`: forward
`pOutput.c_str()`, never null, to the base function. -/
def cppExtractReturnCode (pOutput : List Char) : Int :=
  extractReturnCode (some pOutput)

/-! ## Base64 (`base64.h`, not among the source files) -/

/-- Modelled from the spec: the alphabet of the Base64 codec of `base64.h`,
which is not among the source files; section 6: standard RFC 4648 alphabet. -/
def b64Alphabet : List Char :=
  "ABCDEFGHIJKLMNOPQRSTUVWXYZabcdefghijklmnopqrstuvwxyz0123456789+/".toList

/-- Modelled from the spec: the character of a 6-bit value in the RFC 4648
alphabet of section 6 (`base64.h` is not among the source files). -/
def b64Char (i : Nat) : Char :=
  b64Alphabet.getD i '='

/-- Modelled from the spec: the 6-bit value of a character of the RFC 4648
alphabet of section 6, `none` outside the alphabet (`base64.h` is not among
the source files). -/
def b64Index (c : Char) : Option Nat :=
  let i := b64Alphabet.indexOf c
  if i < 64 then some i else none

/-- Modelled from the spec: the encoder of `base64.h` on byte values; section
6: RFC 4648, no line wrapping: three bytes to four characters, the last group
padded with `=`. -/
def b64EncodeBytes : List Nat → List Char
  | [] => []
  | [a] => [b64Char (a / 4), b64Char (a % 4 * 16), '=', '=']
  | [a, b] => [b64Char (a / 4), b64Char (a % 4 * 16 + b / 16), b64Char (b % 16 * 4), '=']
  | a :: b :: c :: rest =>
    b64Char (a / 4) :: b64Char (a % 4 * 16 + b / 16) :: b64Char (b % 16 * 4 + c / 64)
      :: b64Char (c % 64) :: b64EncodeBytes rest

/-- Modelled from the spec: the decoder that section 8 (property 6) applies to
the AUTH PLAIN argument, RFC 4648 decoding to byte values; `none` on
malformed input (`base64.h` is not among the source files). -/
def b64DecodeBytes : List Char → Option (List Nat)
  | [] => some []
  | c0 :: c1 :: c2 :: c3 :: rest =>
    if c3 = '=' then
      if rest.isEmpty then
        if c2 = '=' then
          match b64Index c0, b64Index c1 with
          | some i0, some i1 => some [i0 * 4 + i1 / 16]
          | _, _ => none
        else
          match b64Index c0, b64Index c1, b64Index c2 with
          | some i0, some i1, some i2 => some [i0 * 4 + i1 / 16, i1 % 16 * 16 + i2 / 4]
          | _, _, _ => none
      else none
    else
      match b64Index c0, b64Index c1, b64Index c2, b64Index c3, b64DecodeBytes rest with
      | some i0, some i1, some i2, some i3, some tl =>
        some ((i0 * 4 + i1 / 16) :: (i1 % 16 * 16 + i2 / 4) :: (i2 % 4 * 64 + i3) :: tl)
      | _, _, _, _, _ => none
  | _ => none

/-- The value of a byte held in a `Char` (an `unsigned char`). -/
def byteVal (c : Char) : Nat :=
  c.toNat % 256

/-- Modelled from the spec: `Base64::Encode(src, len)` of `base64.h`, which is
not among the source files; section 6 gives its contract: standard RFC 4648
alphabet, no line wrapping. It encodes the first `len` bytes at `src`. -/
def Base64.Encode (src : List Char) (len : Nat) : List Char :=
  b64EncodeBytes ((src.take len).map byteVal)

/-- Modelled from the spec: base64 decoding of a text to the bytes it stands
for, the inverse that section 8 (property 6) speaks of (`base64.h` is not
among the source files). -/
def Base64.Decode (text : List Char) : Option (List Char) :=
  (b64DecodeBytes text).map (fun bs => bs.map Char.ofNat)

/-! ## Value types read by the client (`credential.h`, `messageaddress.h`,
`attachment.h`, `message.h`, `serverauthoptions.h`)

Each field is the buffer behind a `const char *` getter; the getter yields the
C string in it. -/

/-- Modelled from the spec: the class `Credential` of `credential.h`, which is
not among the source files; section 3: username and password, both opaque
byte strings. -/
structure Credential where
  mUsername : List Char
  mPassword : List Char

/-- Modelled from the spec: `Credential::getUsername` (`credential.h` is not
among the source files), the username of section 3 as a C string. -/
def Credential.getUsername (c : Credential) : List Char := cstr c.mUsername

/-- Modelled from the spec: `Credential::getPassword` (`credential.h` is not
among the source files), the password of section 3 as a C string. -/
def Credential.getPassword (c : Credential) : List Char := cstr c.mPassword

/-- Modelled from the spec: the class `MessageAddress` of `messageaddress.h`,
which is not among the source files; section 3: email address and optional
display name. -/
structure MessageAddress where
  mEmailAddress : List Char
  mDisplayName : List Char

/-- Modelled from the spec: `MessageAddress::getEmailAddress`
(`messageaddress.h` is not among the source files), the email address of
section 3 as a C string. -/
def MessageAddress.getEmailAddress (a : MessageAddress) : List Char := cstr a.mEmailAddress

/-- Modelled from the spec: `MessageAddress::getDisplayName`
(`messageaddress.h` is not among the source files), the display name of
section 3 as a C string. -/
def MessageAddress.getDisplayName (a : MessageAddress) : List Char := cstr a.mDisplayName

/-- Modelled from the spec: the class `Attachment` of `attachment.h`, which is
not among the source files; section 3: name, MIME type, pre-base64-encoded
payload. `mBase64EncodedFile` is `none` when `getBase64EncodedFile()` is
null. -/
structure Attachment where
  mName : List Char
  mMimeType : List Char
  mBase64EncodedFile : Option (List Char)

/-- Modelled from the spec: `Attachment::getName` (`attachment.h` is not among
the source files), the name of section 3 as a C string. -/
def Attachment.getName (a : Attachment) : List Char := cstr a.mName

/-- Modelled from the spec: `Attachment::getMimeType` (`attachment.h` is not
among the source files), the MIME type of section 3 as a C string. -/
def Attachment.getMimeType (a : Attachment) : List Char := cstr a.mMimeType

/-- Modelled from the spec: `Attachment::getBase64EncodedFile` (`attachment.h`
is not among the source files), the encoded payload of section 3 as a C
string, or null. -/
def Attachment.getBase64EncodedFile (a : Attachment) : Option (List Char) :=
  a.mBase64EncodedFile.map cstr

/-- Modelled from the spec: the class `Message` of `message.h`, which is not
among the source files; section 3: `from`, the ordered sequences `to`, `cc`
and `bcc`, subject, MIME type of the body, body bytes and the ordered
attachments. An address array (`MessageAddress **` with its count) is `none`
when the pointer is null. -/
structure Message where
  mFrom : MessageAddress
  mTo : Option (List MessageAddress)
  mCc : Option (List MessageAddress)
  mBcc : Option (List MessageAddress)
  mSubject : List Char
  mBody : List Char
  mMimeType : List Char
  mAttachments : List Attachment

/-- Modelled from the spec: `Message::getFrom` (`message.h` is not among the
source files), the sender of section 3. -/
def Message.getFrom (m : Message) : MessageAddress := m.mFrom

/-- Modelled from the spec: `Message::getTo` with `getToCount` (`message.h` is
not among the source files), the To addresses of section 3. -/
def Message.getTo (m : Message) : Option (List MessageAddress) := m.mTo

/-- Modelled from the spec: `Message::getCc` with `getCcCount` (`message.h` is
not among the source files), the Cc addresses of section 3. -/
def Message.getCc (m : Message) : Option (List MessageAddress) := m.mCc

/-- Modelled from the spec: `Message::getBcc` with `getBccCount` (`message.h`
is not among the source files), the Bcc addresses of section 3. -/
def Message.getBcc (m : Message) : Option (List MessageAddress) := m.mBcc

/-- Modelled from the spec: `Message::getSubject` (`message.h` is not among the
source files), the subject of section 3 as a C string. -/
def Message.getSubject (m : Message) : List Char := cstr m.mSubject

/-- Modelled from the spec: `Message::getBody` (`message.h` is not among the
source files), the body of section 3 as a C string. -/
def Message.getBody (m : Message) : List Char := cstr m.mBody

/-- Modelled from the spec: `Message::getMimeType` (`message.h` is not among
the source files), the MIME type of the body of section 3 as a C string. -/
def Message.getMimeType (m : Message) : List Char := cstr m.mMimeType

/-- Modelled from the spec: `Message::getAttachments` with
`getAttachmentsCount` (`message.h` is not among the source files), the
attachments of section 3. -/
def Message.getAttachments (m : Message) : List Attachment := m.mAttachments

/-- Modelled from the spec: the struct `ServerAuthOptions` of
`serverauthoptions.h`, which is not among the source files; section 3: the
booleans Plain, Login, XOAuth2, PlainClientToken, OAuthBearer, XOAuth (field
names as `extractAuthenticationOptions` writes them). -/
structure ServerAuthOptions where
  Plain : Bool
  Login : Bool
  XOAuth2 : Bool
  Plain_ClientToken : Bool
  OAuthBearer : Bool
  XOAuth : Bool
deriving DecidableEq

/-! ## Constants of headers that are not among the source files -/

/-- The client error codes of `smtpclienterrors.h` that the modelled functions
use. The header is not among the source files, so the values are a parameter
of the model. -/
structure ErrorCodes where
  SOCKET_INIT_SESSION_CONNECT_TIMEOUT : Int
  SOCKET_INIT_CLIENT_SEND_EHLO_ERROR : Int
  SOCKET_INIT_CLIENT_SEND_EHLO_TIMEOUT : Int
  CLIENT_AUTHENTICATE_ERROR : Int
  CLIENT_AUTHENTICATE_TIMEOUT : Int
  CLIENT_AUTHENTICATE_NONEED : Int
  CLIENT_AUTHENTICATION_METHOD_NOTSUPPORTED : Int
  CLIENT_SENDMAIL_MAILFROM_ERROR : Int
  CLIENT_SENDMAIL_MAILFROM_TIMEOUT : Int
  CLIENT_SENDMAIL_RCPTTO_ERROR : Int
  CLIENT_SENDMAIL_RCPTTO_TIMEOUT : Int
  CLIENT_SENDMAIL_DATA_ERROR : Int
  CLIENT_SENDMAIL_DATA_TIMEOUT : Int
  CLIENT_SENDMAIL_HEADERFROM_ERROR : Int
  CLIENT_SENDMAIL_HEADERTOANDCC_ERROR : Int
  CLIENT_SENDMAIL_HEADERSUBJECT_ERROR : Int
  CLIENT_SENDMAIL_HEADERCONTENTTYPE_ERROR : Int
  CLIENT_SENDMAIL_BODYPART_ERROR : Int
  CLIENT_SENDMAIL_BODY_ERROR : Int
  CLIENT_SENDMAIL_END_DATA_ERROR : Int
  CLIENT_SENDMAIL_END_DATA_TIMEOUT : Int
  CLIENT_SENDMAIL_QUIT_ERROR : Int

/-- Modelled from the spec: `STATUS_CODE_SERVICE_READY` of
`smtpserverstatuscodes.h` (not among the source files); section 4.2: `220`
service ready. -/
def STATUS_CODE_SERVICE_READY : Int := 220

/-- Modelled from the spec: `STATUS_CODE_REQUESTED_MAIL_ACTION_OK_OR_COMPLETED`
of `smtpserverstatuscodes.h`; section 4.2: `250` requested action OK. -/
def STATUS_CODE_REQUESTED_MAIL_ACTION_OK_OR_COMPLETED : Int := 250

/-- Modelled from the spec: `STATUS_CODE_SERVER_CHALLENGE` of
`smtpserverstatuscodes.h`; section 4.2: `334` server challenge. -/
def STATUS_CODE_SERVER_CHALLENGE : Int := 334

/-- Modelled from the spec: `STATUS_CODE_START_MAIL_INPUT` of
`smtpserverstatuscodes.h`; section 4.2: `354` start mail input. -/
def STATUS_CODE_START_MAIL_INPUT : Int := 354

/-- Modelled from the spec: `INITIAL_COMM_LOG_LENGTH` of `smtpclientbase.h`
(not among the source files); section 4.7: the log buffer is initially
4 KiB. -/
def INITIAL_COMM_LOG_LENGTH : Nat := 4096

/-! ## The client object and its socket -/

/-- Target of the member pointer `sendCommandPtr`. -/
inductive SendCommandTarget where
  | sendCommand
  | sendRawCommand
deriving DecidableEq

/-- Target of the member pointer `sendCommandWithFeedbackPtr`; its type has
three parameters, so `&SMTPClientBase::sendRawCommand` selects the overload
with the timeout code. -/
inductive SendCommandWithFeedbackTarget where
  | sendCommandWithFeedback
  | sendRawCommand
deriving DecidableEq

/-- The object `SMTPClientBase` during a session, together with the socket it
talks to.

* `mServerName` is the C string held in the server-name buffer and `mPort`
  the port.
* `mCommunicationLog` is the C string held in the log buffer and
  `mCommunicationLogSize` the size of that buffer.
* `mSock` is the socket handle; `0` is the cleared handle.
* `sendResult i` is the outcome of the `i`-th call of `send` on the socket:
  `none` when it does not return `-1`, `some e` when it returns `-1` with
  `errno = e`. `recvResult i` is what the `i`-th call of `recv` stores in the
  buffer: the empty list when `recv` returns a value `<= 0`, else the bytes
  received. `sendCalls` and `recvCalls` count the calls made so far and `sent`
  lists the bytes handed to each call of `send`, in order. -/
structure SMTPClientBase where
  mServerName : List Char
  mPort : Nat
  mCommunicationLog : List Char
  mCommunicationLogSize : Nat
  mLastServerResponse : Option (List Char)
  mCommandTimeOut : Nat
  mLastSocketErrNo : Int
  mAuthOptions : Option ServerAuthOptions
  mCredential : Option Credential
  mSock : Int
  mKeepUsingBaseSendCommands : Bool
  sendCommandPtr : SendCommandTarget
  sendCommandWithFeedbackPtr : SendCommandWithFeedbackTarget
  sendResult : Nat → Option Int
  recvResult : Nat → List Char
  sendCalls : Nat
  recvCalls : Nat
  sent : List (List Char)

/-- `SMTPClientBase::setKeepUsingBaseSendCommands`. -/
def setKeepUsingBaseSendCommands (pValue : Bool) (s : SMTPClientBase) : SMTPClientBase :=
  if pValue then
    { s with mKeepUsingBaseSendCommands := pValue,
             sendCommandPtr := SendCommandTarget.sendRawCommand,
             sendCommandWithFeedbackPtr := SendCommandWithFeedbackTarget.sendRawCommand }
  else
    { s with mKeepUsingBaseSendCommands := pValue,
             sendCommandPtr := SendCommandTarget.sendCommand,
             sendCommandWithFeedbackPtr := SendCommandWithFeedbackTarget.sendCommandWithFeedback }

/-- `SMTPClientBase::clearSocketFileDescriptor`. -/
def clearSocketFileDescriptor (s : SMTPClientBase) : SMTPClientBase :=
  { s with mSock := 0 }

/-- `SMTPClientBase::setLastSocketErrNo`. -/
def setLastSocketErrNo (lastError : Int) (s : SMTPClientBase) : SMTPClientBase :=
  { s with mLastSocketErrNo := lastError }

/-- Modelled from the spec: the pure virtual `cleanup`, whose overrides are
not among the source files. Sections 4.1 and 4.6: cleanup closes the transport
and zeroes the socket handle, and is idempotent; section 8 calls the zeroed
handle the sentinel "closed" value. -/
def cleanup (s : SMTPClientBase) : SMTPClientBase :=
  clearSocketFileDescriptor s

/-- `SMTPClientBase::setLastServerResponse`. -/
def setLastServerResponse (pResponse : List Char) (s : SMTPClientBase) : SMTPClientBase :=
  { s with mLastServerResponse := some (cstr pResponse) }

/-- The loop of `addCommunicationLogItem` that rewrites every `"\r\n"` of a
client item into the four characters backslash, `r`, backslash, `n`,
searching on from behind each replacement, as one scan from left to right;
`replaceCRLFLoop` follows the loop pass by pass and gives the same text. -/
def replaceCRLF : List Char → List Char
  | [] => []
  | [c] => [c]
  | c :: d :: rest =>
    if c = '\r' ∧ d = '\n' then '\\' :: 'r' :: '\\' :: 'n' :: replaceCRLF rest
    else c :: replaceCRLF (d :: rest)

/-- The C function `strncat(dest, src, n)` on the C string `dest`. -/
def strncat (dest src : List Char) (n : Nat) : List Char :=
  dest ++ (cstr src).take n

/-- `SMTPClientBase::addCommunicationLogItem(pItem, pPrefix)`; the default
value of `pPrefix` is `"c"`. The buffer always holds a terminated string, so
`mCommunicationLogSize - currentLogSize` does not wrap. The last line of the
function stores a NUL at index `mCommunicationLogSize - 1`, which cuts the
string there. -/
def addCommunicationLogItem (pItem pPrefix : List Char) (s : SMTPClientBase) : SMTPClientBase :=
  let item := if cstr pPrefix = "c".toList then replaceCRLF (cstr pItem) else cstr pItem
  let ENDOFLINE := "\n".toList
  let SEPARATOR := ": ".toList
  let currentLogSize := s.mCommunicationLog.length
  let appendSize := ENDOFLINE.length + strlen pPrefix + SEPARATOR.length + item.length + 1
  let size :=
    if s.mCommunicationLogSize - currentLogSize ≤ appendSize then
      currentLogSize + appendSize + INITIAL_COMM_LOG_LENGTH
    else s.mCommunicationLogSize
  let log1 := strncat s.mCommunicationLog ENDOFLINE (size - 1)
  let log2 := strncat log1 pPrefix (size - 1)
  let log3 := strncat log2 SEPARATOR (size - 1)
  let log4 := strncat log3 item (size - 1)
  { s with mCommunicationLog := log4.take (size - 1), mCommunicationLogSize := size }

/-- `SMTPClientBase::sendRawCommand(pCommand, pErrorCode)` (POSIX build): one
call of `send` with the first `strlen(pCommand)` bytes. -/
def sendRawCommand (pCommand : List Char) (pErrorCode : Int) (s : SMTPClientBase) :
    Int × SMTPClientBase :=
  let commandSize := strlen pCommand
  let s1 := { s with sendCalls := s.sendCalls + 1, sent := s.sent ++ [pCommand.take commandSize] }
  match s.sendResult s.sendCalls with
  | some e => (pErrorCode, cleanup (setLastSocketErrNo e s1))
  | none => (0, s1)

/-- The `recv` polling loop of `sendRawCommand` and `checkServerGreetings`:
`while (recv(...) <= 0 && waitTime < mCommandTimeOut) { sleep(1); waitTime += 1; }`
followed by the test `waitTime < mCommandTimeOut`. The first argument is
`mCommandTimeOut - waitTime`, the second the number of `recv` calls made so
far. The result is the received bytes when the test after the loop holds,
else `none`, and the new number of `recv` calls. -/
def recvLoop (recvResult : Nat → List Char) : Nat → Nat → Option (List Char) × Nat
  | 0, n => (none, n + 1)
  | r + 1, n =>
    if (recvResult n).length = 0 then recvLoop recvResult r (n + 1)
    else (some (recvResult n), n + 1)

/-- `SMTPClientBase::sendRawCommand(pCommand, pErrorCode, pTimeoutCode)`: send,
then poll for the reply; `outbuf[bytes_received-1] = 0` overwrites the last
received byte. -/
def sendRawCommandTimeout (pCommand : List Char) (pErrorCode pTimeoutCode : Int)
    (s : SMTPClientBase) : Int × SMTPClientBase :=
  let r := sendRawCommand pCommand pErrorCode s
  if r.1 ≠ 0 then (pErrorCode, r.2)
  else
    let p := recvLoop r.2.recvResult r.2.mCommandTimeOut r.2.recvCalls
    let s1 := { r.2 with recvCalls := p.2 }
    match p.1 with
    | some bytes =>
      let outbuf := bytes.set (bytes.length - 1) NUL
      let s2 := setLastServerResponse outbuf s1
      let s3 := addCommunicationLogItem outbuf "s".toList s2
      (extractReturnCode (some outbuf), s3)
    | none => (pTimeoutCode, cleanup s1)

/-- Modelled from the spec: the pure virtual `sendCommand`, whose overrides are
not among the source files. Section 4.1 (Send): write the buffer; on failure
capture the socket errno and clean up the session; for the cleartext transport
that is the raw send of the base class. -/
def sendCommand (pCommand : List Char) (pErrorCode : Int) (s : SMTPClientBase) :
    Int × SMTPClientBase :=
  sendRawCommand pCommand pErrorCode s

/-- Modelled from the spec: the pure virtual `sendCommandWithFeedback`, whose
overrides are not among the source files. Sections 4.1 (Send, RecvWithTimeout)
and 4.6: send, then await the reply within the command timeout; for the
cleartext transport that is the raw send-and-receive of the base class. -/
def sendCommandWithFeedback (pCommand : List Char) (pErrorCode pTimeoutCode : Int)
    (s : SMTPClientBase) : Int × SMTPClientBase :=
  sendRawCommandTimeout pCommand pErrorCode pTimeoutCode s

/-- The call `(*this.*sendCommandPtr)(pCommand, pErrorCode)`. -/
def callSendCommandPtr (pCommand : List Char) (pErrorCode : Int) (s : SMTPClientBase) :
    Int × SMTPClientBase :=
  match s.sendCommandPtr with
  | SendCommandTarget.sendCommand => sendCommand pCommand pErrorCode s
  | SendCommandTarget.sendRawCommand => sendRawCommand pCommand pErrorCode s

/-- The call `(*this.*sendCommandWithFeedbackPtr)(pCommand, pErrorCode, pTimeoutCode)`. -/
def callSendCommandWithFeedbackPtr (pCommand : List Char) (pErrorCode pTimeoutCode : Int)
    (s : SMTPClientBase) : Int × SMTPClientBase :=
  match s.sendCommandWithFeedbackPtr with
  | SendCommandWithFeedbackTarget.sendCommandWithFeedback =>
    sendCommandWithFeedback pCommand pErrorCode pTimeoutCode s
  | SendCommandWithFeedbackTarget.sendRawCommand =>
    sendRawCommandTimeout pCommand pErrorCode pTimeoutCode s

/-! ## Authentication (smtpclientbase.cpp:626-677) -/

/-- `SMTPClientBase::authenticateWithMethodPlain`; `none` stands for the
dereference of a null `mCredential`. -/
def authenticateWithMethodPlain (E : ErrorCodes) (s : SMTPClientBase) :
    Option (Int × SMTPClientBase) :=
  let s1 := addCommunicationLogItem "AUTH PLAIN ***************\r\n".toList "c".toList s
  match s1.mCredential with
  | none => none
  | some cred =>
    let str_credentials := [NUL] ++ cred.getUsername ++ [NUL] ++ cred.getPassword
    let ss := "AUTH PLAIN ".toList
      ++ Base64.Encode str_credentials (strlen cred.getUsername + strlen cred.getPassword + 2)
      ++ "\r\n".toList
    some (callSendCommandWithFeedbackPtr ss E.CLIENT_AUTHENTICATE_ERROR
      E.CLIENT_AUTHENTICATE_TIMEOUT s1)

/-- `SMTPClientBase::authenticateWithMethodLogin`; `none` stands for the
dereference of a null `mCredential`. -/
def authenticateWithMethodLogin (E : ErrorCodes) (s : SMTPClientBase) :
    Option (Int × SMTPClientBase) :=
  let s1 := addCommunicationLogItem "AUTH LOGIN ***************\r\n".toList "c".toList s
  let login := callSendCommandWithFeedbackPtr "AUTH LOGIN\r\n".toList
    E.CLIENT_AUTHENTICATE_ERROR E.CLIENT_AUTHENTICATE_TIMEOUT s1
  if login.1 ≠ STATUS_CODE_SERVER_CHALLENGE then some (E.CLIENT_AUTHENTICATE_ERROR, login.2)
  else
    match login.2.mCredential with
    | none => none
    | some cred =>
      let encoded_username := Base64.Encode cred.getUsername (strlen cred.getUsername)
      let username := callSendCommandWithFeedbackPtr (encoded_username ++ "\r\n".toList)
        E.CLIENT_AUTHENTICATE_ERROR E.CLIENT_AUTHENTICATE_TIMEOUT login.2
      if username.1 ≠ STATUS_CODE_SERVER_CHALLENGE then
        some (E.CLIENT_AUTHENTICATE_ERROR, username.2)
      else
        match username.2.mCredential with
        | none => none
        | some cred2 =>
          let encoded_password := Base64.Encode cred2.getPassword (strlen cred2.getPassword)
          some (callSendCommandWithFeedbackPtr (encoded_password ++ "\r\n".toList)
            E.CLIENT_AUTHENTICATE_ERROR E.CLIENT_AUTHENTICATE_TIMEOUT username.2)

/-- `SMTPClientBase::authenticateClient`; `none` stands for the dereference of
a null `mAuthOptions` (or, further down, of a null `mCredential`). -/
def authenticateClient (E : ErrorCodes) (s : SMTPClientBase) : Option (Int × SMTPClientBase) :=
  match s.mCredential with
  | some _ =>
    match s.mAuthOptions with
    | none => none
    | some opts =>
      if opts.Plain then authenticateWithMethodPlain E s
      else if opts.Login then authenticateWithMethodLogin E s
      else some (E.CLIENT_AUTHENTICATION_METHOD_NOTSUPPORTED, s)
  | none => some (E.CLIENT_AUTHENTICATE_NONEED, s)

/-! ## Envelope, headers and body (smtpclientbase.cpp:679-882) -/

/-- One step of the `std::for_each` of `addMailRecipients`: the lambda applied
to one address; the first component is `rcpt_to_ret_code`. -/
def addMailRecipientsStep (E : ErrorCodes) (RECIPIENT_OK : Int) (acc : Int × SMTPClientBase)
    (address : MessageAddress) : Int × SMTPClientBase :=
  let ss_rcpt_to := "RCPT TO: <".toList ++ address.getEmailAddress ++ ">\r\n".toList
  let s1 := addCommunicationLogItem ss_rcpt_to "c".toList acc.2
  let r := callSendCommandWithFeedbackPtr ss_rcpt_to E.CLIENT_SENDMAIL_RCPTTO_ERROR
    E.CLIENT_SENDMAIL_RCPTTO_TIMEOUT s1
  (if r.1 ≠ RECIPIENT_OK then r.1 else acc.1, r.2)

/-- `SMTPClientBase::addMailRecipients(list, count, RECIPIENT_OK)`; `list`
holds the `count` addresses of the array. -/
def addMailRecipients (E : ErrorCodes) (list : List MessageAddress) (RECIPIENT_OK : Int)
    (s : SMTPClientBase) : Int × SMTPClientBase :=
  list.foldl (addMailRecipientsStep E RECIPIENT_OK) (RECIPIENT_OK, s)

/-- The loop `for (const auto &item : recipients)` of `setMailRecipients`,
followed by its `return 0`. -/
def setMailRecipientsLoop (E : ErrorCodes) (RECIPIENT_OK : Int) :
    List (Option (List MessageAddress)) → SMTPClientBase → Int × SMTPClientBase
  | [], s => (0, s)
  | none :: rest, s => setMailRecipientsLoop E RECIPIENT_OK rest s
  | some list :: rest, s =>
    let r := addMailRecipients E list RECIPIENT_OK s
    if r.1 ≠ RECIPIENT_OK then r else setMailRecipientsLoop E RECIPIENT_OK rest r.2

/-- `SMTPClientBase::setMailRecipients`. -/
def setMailRecipients (E : ErrorCodes) (pMsg : Message) (s : SMTPClientBase) :
    Int × SMTPClientBase :=
  let SENDER_OK : Int := 250
  let RECIPIENT_OK : Int := 250
  let mailFormat := "MAIL FROM: <".toList ++ pMsg.getFrom.getEmailAddress ++ ">\r\n".toList
  let s1 := addCommunicationLogItem mailFormat "c".toList s
  let r := callSendCommandWithFeedbackPtr mailFormat E.CLIENT_SENDMAIL_MAILFROM_ERROR
    E.CLIENT_SENDMAIL_MAILFROM_TIMEOUT s1
  if r.1 ≠ SENDER_OK then r
  else setMailRecipientsLoop E RECIPIENT_OK [pMsg.getTo, pMsg.getCc, pMsg.getBcc] r.2

/-- `SMTPClientBase::addMailHeader`. -/
def addMailHeader (field value : List Char) (pErrorCode : Int) (s : SMTPClientBase) :
    Int × SMTPClientBase :=
  let ss_header_item := cstr field ++ ": ".toList ++ cstr value ++ "\r\n".toList
  let s1 := addCommunicationLogItem ss_header_item "c".toList s
  callSendCommandPtr ss_header_item pErrorCode s1

/-- The `std::for_each` over one address array in `setMailHeaders`: the value
the lambda returns is discarded by `std::for_each`. -/
def setMailHeadersForEach (E : ErrorCodes) (field : List Char) (list : List MessageAddress)
    (s : SMTPClientBase) : SMTPClientBase :=
  list.foldl (fun st address =>
    (addMailHeader field address.getEmailAddress E.CLIENT_SENDMAIL_HEADERTOANDCC_ERROR st).2) s

/-- The loop `for (const auto &item : recipients)` of `setMailHeaders`. -/
def setMailHeadersLoop (E : ErrorCodes) :
    List (Option (List MessageAddress) × List Char) → SMTPClientBase → SMTPClientBase
  | [], s => s
  | (none, _) :: rest, s => setMailHeadersLoop E rest s
  | (some list, field) :: rest, s =>
    setMailHeadersLoop E rest (setMailHeadersForEach E field list s)

/-- `SMTPClientBase::setMailHeaders`. -/
def setMailHeaders (E : ErrorCodes) (pMsg : Message) (s : SMTPClientBase) :
    Int × SMTPClientBase :=
  let data_cmd := "DATA\r\n".toList
  let s1 := addCommunicationLogItem data_cmd "c".toList s
  let data := callSendCommandWithFeedbackPtr data_cmd E.CLIENT_SENDMAIL_DATA_ERROR
    E.CLIENT_SENDMAIL_DATA_TIMEOUT s1
  if data.1 ≠ STATUS_CODE_START_MAIL_INPUT then data
  else
    let from_header := "\"".toList ++ pMsg.getFrom.getDisplayName ++ "\" <".toList
      ++ pMsg.getFrom.getEmailAddress ++ ">".toList
    let header_from := addMailHeader "From".toList from_header
      E.CLIENT_SENDMAIL_HEADERFROM_ERROR data.2
    if header_from.1 ≠ 0 then header_from
    else
      let s2 := setMailHeadersLoop E [(pMsg.getTo, "To".toList), (pMsg.getCc, "Cc".toList)]
        header_from.2
      let ss_header_subject := "Subject: ".toList ++ pMsg.getSubject ++ "\r\n".toList
      let s3 := addCommunicationLogItem ss_header_subject "c".toList s2
      let header_subject := callSendCommandPtr ss_header_subject
        E.CLIENT_SENDMAIL_HEADERSUBJECT_ERROR s3
      if header_subject.1 ≠ 0 then header_subject
      else
        let content_type := "Content-Type: multipart/mixed; boundary=sep\r\n\r\n".toList
        let s4 := addCommunicationLogItem content_type "c".toList header_subject.2
        let header_content_type := callSendCommandPtr content_type
          E.CLIENT_SENDMAIL_HEADERCONTENTTYPE_ERROR s4
        if header_content_type.1 ≠ 0 then header_content_type
        else (0, header_content_type.2)

/-- The text `createAttachmentsText` adds for one attachment. -/
def attachmentText (item : Attachment) : List Char :=
  "\r\n--sep\r\n".toList
    ++ ("Content-Type: ".toList ++ item.getMimeType ++ "; file=\"".toList ++ item.getName
        ++ "\"\r\n".toList)
    ++ ("Content-Disposition: Inline; filename=\"".toList ++ item.getName ++ "\"\r\n".toList)
    ++ "Content-Transfer-Encoding: base64\r\n\r\n".toList
    ++ (match item.getBase64EncodedFile with
        | some f => f
        | none => [])

/-- `SMTPClientBase::createAttachmentsText`. -/
def createAttachmentsText (pAttachments : List Attachment) : List Char :=
  pAttachments.foldl (fun retval item => retval ++ attachmentText item) []
    ++ "\r\n--sep--".toList

/-- `std::string::substr(pos, n)` for `pos` within the string. -/
def substr (str : List Char) (pos n : Nat) : List Char :=
  (str.drop pos).take n

/-- The chunk size `CHUNK_MAXLENGTH` of `setMailBody`. -/
def CHUNK_MAXLENGTH : Nat := 512

/-- The values `index_start` takes in the loop
`for (index_start = 0; index_start < body_real.length(); index_start += CHUNK_MAXLENGTH)`. -/
def chunkStarts (len : Nat) : List Nat :=
  (List.range ((len + (CHUNK_MAXLENGTH - 1)) / CHUNK_MAXLENGTH)).map (fun k => k * CHUNK_MAXLENGTH)

/-- The body of the chunk loop of `setMailBody`, run over the remaining values
of `index_start`; it leaves at the first send with a nonzero result. -/
def setMailBodyChunks (E : ErrorCodes) (body_real : List Char) :
    List Nat → SMTPClientBase → Int × SMTPClientBase
  | [], s => (0, s)
  | index_start :: rest, s =>
    let length :=
      if index_start + CHUNK_MAXLENGTH > body_real.length - 1 then body_real.length - index_start
      else CHUNK_MAXLENGTH
    let body_part := callSendCommandPtr (substr body_real index_start length)
      E.CLIENT_SENDMAIL_BODYPART_ERROR s
    if body_part.1 ≠ 0 then body_part else setMailBodyChunks E body_real rest body_part.2

/-- The text `body_real` that `setMailBody` builds: the body part, then the
attachments text when there is an attachment. -/
def bodyReal (pMsg : Message) : List Char :=
  let body_real := "--sep\r\nContent-Type: ".toList ++ pMsg.getMimeType
    ++ "; charset=UTF-8\r\n\r\n".toList ++ pMsg.getBody ++ "\r\n".toList
  if pMsg.getAttachments.length > 0 then body_real ++ createAttachmentsText pMsg.getAttachments
  else body_real

/-- `SMTPClientBase::setMailBody`. -/
def setMailBody (E : ErrorCodes) (pMsg : Message) (s : SMTPClientBase) :
    Int × SMTPClientBase :=
  let body_part := "--sep\r\nContent-Type: ".toList ++ pMsg.getMimeType
    ++ "; charset=UTF-8\r\n\r\n".toList ++ pMsg.getBody ++ "\r\n".toList
  let s1 := addCommunicationLogItem body_part "c".toList s
  let body_real := bodyReal pMsg
  let sent :=
    if body_real.length > CHUNK_MAXLENGTH then
      setMailBodyChunks E body_real (chunkStarts body_real.length) s1
    else callSendCommandPtr body_real E.CLIENT_SENDMAIL_BODY_ERROR s1
  if sent.1 ≠ 0 then sent
  else
    let end_data_command := "\r\n.\r\n".toList
    let s2 := addCommunicationLogItem end_data_command "c".toList sent.2
    let end_data := callSendCommandWithFeedbackPtr end_data_command
      E.CLIENT_SENDMAIL_END_DATA_ERROR E.CLIENT_SENDMAIL_END_DATA_TIMEOUT s2
    if end_data.1 ≠ STATUS_CODE_REQUESTED_MAIL_ACTION_OK_OR_COMPLETED then end_data
    else
      let quit_command := "QUIT\r\n".toList
      let s3 := addCommunicationLogItem quit_command "c".toList end_data.2
      let quit := callSendCommandPtr quit_command E.CLIENT_SENDMAIL_QUIT_ERROR s3
      if quit.1 ≠ 0 then quit else (0, quit.2)

/-- `SMTPClientBase::sendMail`. The pure virtual `establishConnectionWithServer`
has no override among the source files and is a parameter. -/
def sendMail (E : ErrorCodes)
    (establishConnectionWithServer : SMTPClientBase → Int × SMTPClientBase)
    (pMsg : Message) (s : SMTPClientBase) : Int × SMTPClientBase :=
  let client_connect := establishConnectionWithServer s
  if client_connect.1 ≠ 0 then client_connect
  else
    let set_mail_recipients := setMailRecipients E pMsg client_connect.2
    if set_mail_recipients.1 ≠ 0 then set_mail_recipients
    else
      let set_mail_headers := setMailHeaders E pMsg set_mail_recipients.2
      if set_mail_headers.1 ≠ 0 then set_mail_headers
      else
        let set_mail_body := setMailBody E pMsg set_mail_headers.2
        if set_mail_body.1 ≠ 0 then set_mail_body
        else (0, cleanup set_mail_body.2)

/-! ## Greeting and identification (smtpclientbase.cpp:548-575) -/

/-- `SMTPClientBase::sendServerIdentification`. -/
def sendServerIdentification (E : ErrorCodes) (s : SMTPClientBase) : Int × SMTPClientBase :=
  let ehlo := "ehlo localhost\r\n".toList
  let s1 := addCommunicationLogItem ehlo "c".toList s
  sendRawCommandTimeout ehlo E.SOCKET_INIT_CLIENT_SEND_EHLO_ERROR
    E.SOCKET_INIT_CLIENT_SEND_EHLO_TIMEOUT s1

/-- `SMTPClientBase::checkServerGreetings`. -/
def checkServerGreetings (E : ErrorCodes) (s : SMTPClientBase) : Int × SMTPClientBase :=
  let p := recvLoop s.recvResult s.mCommandTimeOut s.recvCalls
  let s1 := { s with recvCalls := p.2 }
  match p.1 with
  | some bytes =>
    let outbuf := bytes.set (bytes.length - 1) NUL
    let s2 := addCommunicationLogItem outbuf "s".toList s1
    let status_code := extractReturnCode (some outbuf)
    if status_code = STATUS_CODE_SERVICE_READY then
      (status_code, addCommunicationLogItem "Connected!".toList "c".toList s2)
    else (status_code, s2)
  | none => (E.SOCKET_INIT_SESSION_CONNECT_TIMEOUT, s1)

/-! ## Concrete runs -/

/-- Error codes for concrete runs: distinct negative values. -/
def sampleCodes : ErrorCodes :=
  { SOCKET_INIT_SESSION_CONNECT_TIMEOUT := -3
    SOCKET_INIT_CLIENT_SEND_EHLO_ERROR := -5
    SOCKET_INIT_CLIENT_SEND_EHLO_TIMEOUT := -6
    CLIENT_AUTHENTICATE_ERROR := -7
    CLIENT_AUTHENTICATE_TIMEOUT := -8
    CLIENT_AUTHENTICATE_NONEED := -9
    CLIENT_AUTHENTICATION_METHOD_NOTSUPPORTED := -10
    CLIENT_SENDMAIL_MAILFROM_ERROR := -11
    CLIENT_SENDMAIL_MAILFROM_TIMEOUT := -12
    CLIENT_SENDMAIL_RCPTTO_ERROR := -13
    CLIENT_SENDMAIL_RCPTTO_TIMEOUT := -14
    CLIENT_SENDMAIL_DATA_ERROR := -15
    CLIENT_SENDMAIL_DATA_TIMEOUT := -16
    CLIENT_SENDMAIL_HEADERFROM_ERROR := -17
    CLIENT_SENDMAIL_HEADERTOANDCC_ERROR := -18
    CLIENT_SENDMAIL_HEADERSUBJECT_ERROR := -19
    CLIENT_SENDMAIL_HEADERCONTENTTYPE_ERROR := -20
    CLIENT_SENDMAIL_BODYPART_ERROR := -21
    CLIENT_SENDMAIL_BODY_ERROR := -22
    CLIENT_SENDMAIL_END_DATA_ERROR := -23
    CLIENT_SENDMAIL_END_DATA_TIMEOUT := -24
    CLIENT_SENDMAIL_QUIT_ERROR := -25 }

/-- A client for the server `localhost:25` as `initializeSession` and a
successful connect leave it: empty log in a buffer of `INITIAL_COMM_LOG_LENGTH` bytes, the default command
timeout of 5 seconds, the default send pointers, an open socket with handle 3.
Every `send` succeeds and the `i`-th `recv` yields the `i`-th entry of
`replies` (no data once the list is used up). -/
def connectedClient (mCredential : Option Credential) (mAuthOptions : Option ServerAuthOptions)
    (replies : List (List Char)) : SMTPClientBase :=
  { mServerName := "localhost".toList
    mPort := 25
    mCommunicationLog := []
    mCommunicationLogSize := INITIAL_COMM_LOG_LENGTH
    mLastServerResponse := none
    mCommandTimeOut := 5
    mLastSocketErrNo := 0
    mAuthOptions := mAuthOptions
    mCredential := mCredential
    mSock := 3
    mKeepUsingBaseSendCommands := false
    sendCommandPtr := SendCommandTarget.sendCommand
    sendCommandWithFeedbackPtr := SendCommandWithFeedbackTarget.sendCommandWithFeedback
    sendResult := fun _ => none
    recvResult := fun i => replies.getD i []
    sendCalls := 0
    recvCalls := 0
    sent := [] }

/-- An `establishConnectionWithServer` that succeeds and leaves the client
unchanged, for runs that start on a connected client. -/
def alreadyConnected (s : SMTPClientBase) : Int × SMTPClientBase :=
  (0, s)

/-- An address without display name. -/
def addr (email : String) : MessageAddress :=
  { mEmailAddress := email.toList, mDisplayName := [] }

/-- A plain-text message from `a@x.org` with subject `Hi` and body `Hello`,
without attachments. -/
def plainMessage (mTo mCc mBcc : Option (List MessageAddress)) : Message :=
  { mFrom := addr "a@x.org"
    mTo := mTo
    mCc := mCc
    mBcc := mBcc
    mSubject := "Hi".toList
    mBody := "Hello".toList
    mMimeType := "text/plain".toList
    mAttachments := [] }

/-! ## Notions used to state the properties -/

/-- The log buffer holds a terminated string: its text is shorter than the
buffer. `initializeSession` establishes this. -/
def LogOk (s : SMTPClientBase) : Prop :=
  s.mCommunicationLog.length < s.mCommunicationLogSize

instance (s : SMTPClientBase) : Decidable (LogOk s) := by
  unfold LogOk; infer_instance

/-- A log entry as section 4.7 words it: a newline, the channel, `": "`, the
payload. -/
def logEntry (channel payload : List Char) : List Char :=
  "\n".toList ++ channel ++ ": ".toList ++ payload

/-- The outcome of the poll for one reply when `n` calls of `recv` have been
made: the reply buffer as the code reads it and the new number of `recv`
calls; `none` when the poll ends in the timeout branch. -/
def nextReply (recvResult : Nat → List Char) (mCommandTimeOut n : Nat) :
    Option (List Char × Nat) :=
  match recvLoop recvResult mCommandTimeOut n with
  | (some bytes, m) => some (bytes.set (bytes.length - 1) NUL, m)
  | (none, _) => none

/-- The successive polls, starting when `n` calls of `recv` have been made,
each obtain a reply, and the status codes of these replies are `codes`. -/
def repliesAre (recvResult : Nat → List Char) (mCommandTimeOut : Nat) : Nat → List Int → Bool
  | _, [] => true
  | n, c :: cs =>
    match nextReply recvResult mCommandTimeOut n with
    | some (outbuf, m) =>
      extractReturnCode (some outbuf) == c && repliesAre recvResult mCommandTimeOut m cs
    | none => false

/-- The addresses of an address array, none for a null array. -/
def addresses (list : Option (List MessageAddress)) : List MessageAddress :=
  list.getD []

/-- The command `MAIL FROM: <from>\r\n`. -/
def mailFromCommand (pMsg : Message) : List Char :=
  "MAIL FROM: <".toList ++ pMsg.getFrom.getEmailAddress ++ ">\r\n".toList

/-- The command `RCPT TO: <addr>\r\n`. -/
def rcptToCommand (a : MessageAddress) : List Char :=
  "RCPT TO: <".toList ++ a.getEmailAddress ++ ">\r\n".toList

/-- The commands of the envelope in the order the specification gives:
`MAIL FROM`, then one `RCPT TO` per address, all To, then all Cc, then all
Bcc. -/
def envelopeCommands (pMsg : Message) : List (List Char) :=
  [mailFromCommand pMsg]
    ++ (addresses pMsg.getTo ++ addresses pMsg.getCc ++ addresses pMsg.getBcc).map rcptToCommand

/-- The socket script, the command timeout and the send pointers of `t` are
those of `s`. -/
structure SameSession (s t : SMTPClientBase) : Prop where
  sendResult : t.sendResult = s.sendResult
  recvResult : t.recvResult = s.recvResult
  mCommandTimeOut : t.mCommandTimeOut = s.mCommandTimeOut
  sendCommandPtr : t.sendCommandPtr = s.sendCommandPtr
  sendCommandWithFeedbackPtr : t.sendCommandWithFeedbackPtr = s.sendCommandWithFeedbackPtr

/-- A message to `b@y.org` with blind copy to `c@z.org`. -/
def sampleMessage : Message :=
  plainMessage (some [addr "b@y.org"]) none (some [addr "c@z.org"])

/-- A connected client without credentials whose server answers 250 to
`MAIL FROM` and to two `RCPT TO`, 354 to `DATA` and 250 to the end of data. -/
def acceptingClient : SMTPClientBase :=
  connectedClient none none
    ["250 ok\r\n".toList, "250 ok\r\n".toList, "250 ok\r\n".toList, "354 go\r\n".toList,
     "250 queued\r\n".toList]

/-- The client with the credentials and the record of the bytes sent blanked:
what is left is everything else a run can depend on or change, the
communication log included. -/
def withoutSecrets (s : SMTPClientBase) : SMTPClientBase :=
  { s with mCredential := none, sent := [] }

/-- The text that server replies add to the log: one server-channel entry per
reply. -/
def serverEntries (replies : List (List Char)) : List Char :=
  (replies.map (logEntry "s".toList)).flatten

/-- The part of `sendRawCommand(pCommand, pErrorCode, pTimeoutCode)` that
follows a successful send: the polling loop and what is done with its
outcome. -/
def awaitReply (pTimeoutCode : Int) (s : SMTPClientBase) : Int × SMTPClientBase :=
  let p := recvLoop s.recvResult s.mCommandTimeOut s.recvCalls
  let s1 := { s with recvCalls := p.2 }
  match p.1 with
  | some bytes =>
    let outbuf := bytes.set (bytes.length - 1) NUL
    let s2 := setLastServerResponse outbuf s1
    let s3 := addCommunicationLogItem outbuf "s".toList s2
    (extractReturnCode (some outbuf), s3)
  | none => (pTimeoutCode, cleanup s1)

/-- A connected client whose server offers `PLAIN` and `LOGIN` and answers
`235 ok` to the first command that awaits a reply. -/
def authOfferingClient : SMTPClientBase :=
  connectedClient none (some ⟨true, true, false, false, false, false⟩) ["235 ok\r\n".toList]

/-- The credentials `alice` / `s3cret`. -/
def aliceCredential : Credential :=
  { mUsername := "alice".toList, mPassword := "s3cret".toList }

/-- The credentials `bob` / `hunter2`. -/
def bobCredential : Credential :=
  { mUsername := "bob".toList, mPassword := "hunter2".toList }

/-- A string of bytes: every character is a byte value. -/
def IsByteString (s : List Char) : Prop :=
  ∀ c ∈ s, c.toNat < 256

instance (s : List Char) : Decidable (IsByteString s) := by
  unfold IsByteString; infer_instance

/-- A connected client with the credentials `alice` / `s3cret` whose server
offers `PLAIN` only and answers `235 ok`. -/
def aliceClient : SMTPClientBase :=
  connectedClient (some aliceCredential) (some ⟨true, false, false, false, false, false⟩)
    ["235 ok\r\n".toList]

/-- The command `AUTH PLAIN <b64(\0user\0pass)>\r\n` for a credential. -/
def authPlainCommand (c : Credential) : List Char :=
  "AUTH PLAIN ".toList
    ++ Base64.Encode ([NUL] ++ c.getUsername ++ [NUL] ++ c.getPassword)
        (strlen c.getUsername + strlen c.getPassword + 2)
    ++ "\r\n".toList

/-- A connected client whose server answers `000 ?` to `MAIL FROM`, then 354
to `DATA` and 250 to the end of data. -/
def zeroStatusClient : SMTPClientBase :=
  connectedClient none none ["000 ?\r\n".toList, "354 go\r\n".toList, "250 queued\r\n".toList]

/-- A message to the two To recipients `b@y.org` and `c@y.org`. -/
def twoRecipientsMessage : Message :=
  plainMessage (some [addr "b@y.org", addr "c@y.org"]) none none

/-- A connected client whose server accepts `MAIL FROM`, rejects the first
`RCPT TO` with 550 and accepts the second. -/
def rejectingFirstClient : SMTPClientBase :=
  connectedClient none none ["250 ok\r\n".toList, "550 no such user\r\n".toList, "250 ok\r\n".toList]

/-- A connected client whose server accepts `MAIL FROM` and rejects the first
`RCPT TO` with 550 and the second with 551. -/
def rejectingBothClient : SMTPClientBase :=
  connectedClient none none
    ["250 ok\r\n".toList, "550 no such user\r\n".toList, "551 not local\r\n".toList]

/-- A connected client whose server rejects `MAIL FROM` with 550. -/
def rejectingSenderClient : SMTPClientBase :=
  connectedClient none none ["550 denied\r\n".toList]

/-- A connected client whose server never replies. -/
def silentClient : SMTPClientBase :=
  connectedClient none none []

/-- From here on the socket treats the two clients alike, and they have the
same command timeout: the next `send` calls have the same outcomes and the
next `recv` calls yield the same bytes. -/
def SameReplies (s1 s2 : SMTPClientBase) : Prop :=
  s1.mCommandTimeOut = s2.mCommandTimeOut
    ∧ (∀ i, s1.sendResult (s1.sendCalls + i) = s2.sendResult (s2.sendCalls + i))
    ∧ (∀ i, s1.recvResult (s1.recvCalls + i) = s2.recvResult (s2.recvCalls + i))

/-- Two runs, from `s1` to `t1` and from `s2` to `t2`, send the same bytes in
the same order and leave clients that the socket again treats alike. -/
def SameSends (s1 s2 t1 t2 : SMTPClientBase) : Prop :=
  SameReplies t1 t2 ∧ ∃ cmds, t1.sent = s1.sent ++ cmds ∧ t2.sent = s2.sent ++ cmds

/-- The message `sampleMessage` without its blind copy. -/
def sampleMessageNoBcc : Message :=
  { sampleMessage with mBcc := none }

/-- A connected client without credentials whose server answers 250 to
`MAIL FROM` and to one `RCPT TO`, 354 to `DATA` and 250 to the end of data. -/
def acceptingClientOneRecipient : SMTPClientBase :=
  connectedClient none none
    ["250 ok\r\n".toList, "250 ok\r\n".toList, "354 go\r\n".toList, "250 queued\r\n".toList]

/-! ## The authentication options of an EHLO reply (smtpclientbase.cpp:897-941) -/

/-- `std::string::find(str)` from position 0: the index of the first
occurrence of `str` in `s`, `none` for `npos`. -/
def find : List Char → List Char → Option Nat
  | [], str => if str.isPrefixOf [] then some 0 else none
  | c :: rest, str =>
    if str.isPrefixOf (c :: rest) then some 0 else (find rest str).map (· + 1)

/-- `std::string::erase(0, n)`. -/
def erase (str : List Char) (n : Nat) : List Char :=
  str.drop n

/-- The loop of `extractAuthenticationOptions` that cuts the line at its
spaces: while the line has a space, the text before it is pushed to `options`
and erased from the line together with the space; what is left of the line is
pushed last. Each pass erases at least one character; `fuel` bounds the number
of passes and `none` says that the bound was too small. -/
def splitOptions : Nat → List Char → List (List Char) → Option (List (List Char))
  | 0, _, _ => none
  | fuel + 1, line, options =>
    match find line [' '] with
    | some line_character_index =>
      splitOptions fuel (erase line (line_character_index + 1))
        (options ++ [substr line 0 line_character_index])
    | none => some (options ++ [line])

/-- Modelled from the spec: `new ServerAuthOptions()`, the struct being
declared in `serverauthoptions.h`, which is not among the source files;
section 4.3: the flags are set by the matching mechanisms, so none is set in a
fresh object. -/
def ServerAuthOptions.new : ServerAuthOptions :=
  { Plain := false, Login := false, XOAuth2 := false, Plain_ClientToken := false,
    OAuthBearer := false, XOAuth := false }

/-- The lambda that `extractAuthenticationOptions` applies to each option. -/
def matchOption (retVal : ServerAuthOptions) (option : List Char) : ServerAuthOptions :=
  if option = "PLAIN".toList then { retVal with Plain := true }
  else if option = "LOGIN".toList then { retVal with Login := true }
  else if option = "XOAUTH2".toList then { retVal with XOAuth2 := true }
  else if option = "PLAIN-CLIENTTOKEN".toList then { retVal with Plain_ClientToken := true }
  else if option = "OAUTHBEARER".toList then { retVal with OAuthBearer := true }
  else if option = "XOAUTH".toList then { retVal with XOAuth := true }
  else retVal

/-- The prefix `AUTH_LINE_PREFIX` of `extractAuthenticationOptions`. -/
def AUTH_LINE_PREFIX : List Char := "250-AUTH".toList

/-- The outer loop of `extractAuthenticationOptions` on what is left of
`ehlo_output`: while the text has a CRLF, the line before it is examined; a
line that begins with `AUTH_LINE_PREFIX` is split into options, the options
set the flags of a new object and the loop is left; any other line is erased
together with its CRLF. The result is the value of `retVal` after the loop.
Each pass erases at least two characters; `fuel` bounds the number of passes
and the outer `none` says that the bound was too small. -/
def extractAuthenticationOptionsLoop :
    Nat → List Char → Option (Option ServerAuthOptions)
  | 0, _ => none
  | fuel + 1, ehlo_output =>
    match find ehlo_output "\r\n".toList with
    | some ehlo_character_index =>
      let line := substr ehlo_output 0 ehlo_character_index
      if substr line 0 AUTH_LINE_PREFIX.length = AUTH_LINE_PREFIX then
        match splitOptions (line.length + 1) line [] with
        | some options => some (some (options.foldl matchOption ServerAuthOptions.new))
        | none => none
      else
        extractAuthenticationOptionsLoop fuel
          (erase ehlo_output (ehlo_character_index + "\r\n".toList.length))
    | none => some none

/-- `SMTPClientBase::extractAuthenticationOptions(pEhloOutput)`; `none` is the
null pointer, as argument and as result. The loops are given as many passes as
the text has characters, plus one, which is more than they make. -/
def extractAuthenticationOptions (pEhloOutput : Option (List Char)) : Option ServerAuthOptions :=
  match pEhloOutput with
  | none => none
  | some p =>
    let ehlo_output := cstr p
    match extractAuthenticationOptionsLoop (ehlo_output.length + 1) ehlo_output with
    | some retVal => retVal
    | none => none

/-- `OpportunisticSecureSMTPClient::extractAuthenticationOptions` and
`ForcedSecureSMTPClient::extractAuthenticationOptions`, which pass the
`c_str()` of a `std::string`. -/
def cppExtractAuthenticationOptions (pEhloOutput : List Char) : Option ServerAuthOptions :=
  extractAuthenticationOptions (some pEhloOutput)

/-! ## The escaping loop of `addCommunicationLogItem`, pass by pass
(smtpclientbase.cpp:840-849) -/

/-- `std::string::find(str, pos)`: the index of the first occurrence of `str`
in `s` at or after `pos`, `none` for `npos`. -/
def findFrom (s str : List Char) (pos : Nat) : Option Nat :=
  if pos ≤ s.length then (find (s.drop pos) str).map (· + pos) else none

/-- `std::string::replace(pos, len, str)` for `pos + len` within the string. -/
def replace (s : List Char) (pos len : Nat) (str : List Char) : List Char :=
  s.take pos ++ str ++ s.drop (pos + len)

/-- The loop `while ((start_pos = item.find(FROM, start_pos)) != npos)` of
`addCommunicationLogItem`, whose body is
`item.replace(start_pos, FROM.length(), TO); start_pos += TO.length();`, from
the values of `item` and `start_pos` before a pass to the final `item`. Each pass moves `start_pos` past one CRLF; `fuel`
bounds the number of passes and `none` says that the bound was too small. -/
def replaceCRLFLoop : Nat → List Char → Nat → Option (List Char)
  | 0, _, _ => none
  | fuel + 1, item, start_pos =>
    match findFrom item "\r\n".toList start_pos with
    | some pos =>
      replaceCRLFLoop fuel (replace item pos "\r\n".toList.length "\\r\\n".toList)
        (pos + "\\r\\n".toList.length)
    | none => some item

/-! ## Lines and tokens of a text -/

/-- The pieces into which the occurrences of CRLF cut a text, from left to
right; the last piece is what follows the last CRLF. -/
def splitCRLF : List Char → List (List Char)
  | [] => [[]]
  | [c] => [[c]]
  | c :: d :: rest =>
    if c = '\r' ∧ d = '\n' then [] :: splitCRLF rest
    else
      match splitCRLF (d :: rest) with
      | [] => [[c]]
      | l :: ls => (c :: l) :: ls

/-- The CRLF-terminated lines of a text, without their CRLF. -/
def crlfLines (text : List Char) : List (List Char) :=
  (splitCRLF text).dropLast

/-- The space-separated tokens of a line. -/
def spaceTokens : List Char → List (List Char)
  | [] => [[]]
  | c :: rest =>
    if c = ' ' then [] :: spaceTokens rest
    else
      match spaceTokens rest with
      | [] => [[c]]
      | l :: ls => (c :: l) :: ls

/-- The first CRLF-terminated line of a text that begins with `250-AUTH`. -/
def firstAuthLine (text : List Char) : Option (List Char) :=
  (crlfLines text).find? (fun line => "250-AUTH".toList.isPrefixOf line)

/-- The capability set in which each flag is true exactly when the name of its
mechanism is one of the space-separated tokens of `line`. -/
def offeredBy (line : List Char) : ServerAuthOptions :=
  { Plain := decide ("PLAIN".toList ∈ spaceTokens line)
    Login := decide ("LOGIN".toList ∈ spaceTokens line)
    XOAuth2 := decide ("XOAUTH2".toList ∈ spaceTokens line)
    Plain_ClientToken := decide ("PLAIN-CLIENTTOKEN".toList ∈ spaceTokens line)
    OAuthBearer := decide ("OAUTHBEARER".toList ∈ spaceTokens line)
    XOAuth := decide ("XOAUTH".toList ∈ spaceTokens line) }

/-! ## Error messages (smtpclientbase.cpp:299-316) -/

/-- The C function `strncpy(dest, src, n)` on a buffer `dest` of at least `n`
bytes: its first `n` bytes become the C string `src`, cut after `n` bytes or
padded with NUL up to `n` bytes. -/
def strncpy (dest src : List Char) (n : Nat) : List Char :=
  (cstr src).take n ++ List.replicate (n - strlen src) NUL ++ dest.drop n

/-- The conversion `static_cast<int>` of a `size_t`, for an `int` of 32 bits. -/
def toInt (n : Nat) : Int :=
  if n % 2 ^ 32 < 2 ^ 31 then ((n % 2 ^ 32 : Nat) : Int) else ((n % 2 ^ 32 : Nat) : Int) - 2 ^ 32

/-- `SMTPClientBase::getErrorMessage_r(errorCode, errorMessagePtr, maxLength)`.
The class `ErrorResolver` is not among the source files; the message it gives
for each code is the parameter `getErrorMessage`. `errorMessagePtr` is the
content of the caller's buffer, which holds at least `maxLength` bytes, `none`
for the null pointer; the result is the return value and the content of the
buffer after the call. -/
def getErrorMessage_r (getErrorMessage : Int → List Char) (errorCode : Int)
    (errorMessagePtr : Option (List Char)) (maxLength : Nat) : Int × Option (List Char) :=
  let errorMessageStr := getErrorMessage errorCode
  match errorMessagePtr with
  | none => (-1, none)
  | some buffer =>
    if maxLength = 0 then (-1, some buffer)
    else if strlen errorMessageStr > maxLength - 1 then
      (toInt (maxLength - 1),
       some ((strncpy buffer errorMessageStr (maxLength - 1)).set (maxLength - 1) NUL))
    else
      let error_message_len := strlen errorMessageStr
      (0, some ((strncpy buffer errorMessageStr error_message_len).set error_message_len NUL))

/-- `OpportunisticSecureSMTPClient::getErrorMessage_r(errorCode, errorMessage)`
and `ForcedSecureSMTPClient::getErrorMessage_r`: `errorMsg` is the content of
the fresh array of `MAXSIZE = 1024` bytes; the result is the return value and
the string assigned to `errorMessage`. -/
def cppGetErrorMessage_r (getErrorMessage : Int → List Char) (errorCode : Int)
    (errorMsg : List Char) : Int × List Char :=
  let MAXSIZE := 1024
  let result := getErrorMessage_r getErrorMessage errorCode (some errorMsg) MAXSIZE
  (result.1, cstr (result.2.getD []))

/-! ## The server name (smtpclientbase.cpp:40-60, 236-246) -/

/-- Modelled from the spec: `StringUtils::trim` of `stringutils.h`, which is
not among the source files; sections 3 and 8: the host is trimmed and a host
with `trim(h) = ""` is whitespace-only, so `trim` removes the whitespace at
both ends of the string. -/
def trim (s : List Char) : List Char :=
  ((s.dropWhile isspace).reverse.dropWhile isspace).reverse

/-- The exceptions that the modelled functions throw; `what_arg` is the
message. -/
inductive Exception where
  | invalid_argument (what_arg : List Char)
deriving DecidableEq

set_option linter.dupNamespace false in
/-- The constructor `SMTPClientBase::SMTPClientBase(pServerName, pPort)`;
`none` is the null pointer. `storage` gives the members that the initialiser
list leaves out (`mCommunicationLogSize`, `mSock`) and the socket; the null
log is the empty text. -/
def SMTPClientBase.SMTPClientBase (pServerName : Option (List Char)) (pPort : Nat)
    (storage : SMTPClientBase) : Except Exception SMTPClientBase :=
  match pServerName with
  | none => Except.error (Exception.invalid_argument "Server name cannot be null or empty".toList)
  | some p =>
    let servername_str := cstr p
    if cstr p = [] ∨ (trim servername_str).isEmpty = true then
      Except.error (Exception.invalid_argument "Server name cannot be null or empty".toList)
    else
      Except.ok
        { storage with
          mServerName := p.take (strlen p)
          mPort := pPort
          mCommunicationLog := []
          mLastServerResponse := none
          mCommandTimeOut := 5
          mLastSocketErrNo := 0
          mAuthOptions := none
          mCredential := none
          mKeepUsingBaseSendCommands := false
          sendCommandPtr := SendCommandTarget.sendCommand
          sendCommandWithFeedbackPtr := SendCommandWithFeedbackTarget.sendCommandWithFeedback }

/-- `SMTPClientBase::setServerName(pServerName)`; `none` is the null pointer.
The exception is thrown before the object is touched. -/
def setServerName (pServerName : Option (List Char)) (s : SMTPClientBase) :
    Except Exception SMTPClientBase :=
  match pServerName with
  | none => Except.error (Exception.invalid_argument "Server name cannot be null or empty".toList)
  | some p =>
    let servername_str := cstr p
    if cstr p = [] ∨ (trim servername_str).isEmpty = true then
      Except.error (Exception.invalid_argument "Server name cannot be null or empty".toList)
    else
      Except.ok { s with mServerName := p.take (strlen p) }

/-- A sequence of calls of `setServerName` on one object, the caller catching
each exception: a call that throws leaves the object as it was. -/
def setServerNames (names : List (Option (List Char))) (s : SMTPClientBase) : SMTPClientBase :=
  names.foldl
    (fun s pServerName =>
      match setServerName pServerName s with
      | Except.ok s1 => s1
      | Except.error _ => s)
    s

/-- A host is null, empty or whitespace-only. -/
def blankHost (h : Option (List Char)) : Prop :=
  match h with
  | none => True
  | some p => ∀ c ∈ cstr p, isspace c = true

instance (h : Option (List Char)) : Decidable (blankHost h) := by
  unfold blankHost; cases h <;> infer_instance

/-! ## Further concrete runs and notions -/

/-- A connected client whose log buffer holds `old` and has room for four
bytes, so that the next entry does not fit. -/
def fullLogClient : SMTPClientBase :=
  { connectedClient none none [] with
    mCommunicationLog := "old".toList
    mCommunicationLogSize := 4 }

/-- The second command of `authenticateWithMethodLogin`: the base64 text of
the username, then CRLF. -/
def loginUsernameCommand (c : Credential) : List Char :=
  Base64.Encode c.getUsername (strlen c.getUsername) ++ "\r\n".toList

/-- The third command of `authenticateWithMethodLogin`: the base64 text of
the password, then CRLF. -/
def loginPasswordCommand (c : Credential) : List Char :=
  Base64.Encode c.getPassword (strlen c.getPassword) ++ "\r\n".toList

/-- The first exchange of `authenticateWithMethodLogin`: the log entry, then
`AUTH LOGIN` sent with the primitive that awaits a reply. -/
def loginExchange (E : ErrorCodes) (s : SMTPClientBase) : Int × SMTPClientBase :=
  callSendCommandWithFeedbackPtr "AUTH LOGIN\r\n".toList
    E.CLIENT_AUTHENTICATE_ERROR E.CLIENT_AUTHENTICATE_TIMEOUT
    (addCommunicationLogItem "AUTH LOGIN ***************\r\n".toList "c".toList s)

/-- The second exchange of `authenticateWithMethodLogin`, made after the
first: the username command sent with the primitive that awaits a reply. -/
def usernameExchange (E : ErrorCodes) (c : Credential) (s : SMTPClientBase) :
    Int × SMTPClientBase :=
  callSendCommandWithFeedbackPtr (loginUsernameCommand c)
    E.CLIENT_AUTHENTICATE_ERROR E.CLIENT_AUTHENTICATE_TIMEOUT (loginExchange E s).2

/-- The third exchange of `authenticateWithMethodLogin`, made after the
second: the password command sent with the primitive that awaits a reply. -/
def passwordExchange (E : ErrorCodes) (c : Credential) (s : SMTPClientBase) :
    Int × SMTPClientBase :=
  callSendCommandWithFeedbackPtr (loginPasswordCommand c)
    E.CLIENT_AUTHENTICATE_ERROR E.CLIENT_AUTHENTICATE_TIMEOUT (usernameExchange E c s).2

/-- A connected client with the credentials `alice` / `s3cret` whose server
offers `LOGIN` only and answers 334, 334 and 235. -/
def aliceLoginClient : SMTPClientBase :=
  connectedClient (some aliceCredential) (some ⟨false, true, false, false, false, false⟩)
    ["334 VXNlcm5hbWU6\r\n".toList, "334 UGFzc3dvcmQ6\r\n".toList, "235 ok\r\n".toList]

/-- As `aliceLoginClient`, but the server answers 535 to the username. -/
def aliceLoginRefusedClient : SMTPClientBase :=
  connectedClient (some aliceCredential) (some ⟨false, true, false, false, false, false⟩)
    ["334 VXNlcm5hbWU6\r\n".toList, "535 no\r\n".toList, "235 ok\r\n".toList]

/-- The message `sampleMessage` with one attachment `a.txt`. -/
def attachedMessage : Message :=
  { sampleMessage with
    mAttachments :=
      [{ mName := "a.txt".toList, mMimeType := "text/plain".toList,
         mBase64EncodedFile := some "SGk=".toList }] }

/-- A connected client whose server answers 250 to the first command that
awaits a reply. -/
def bodyAcceptingClient : SMTPClientBase :=
  connectedClient none none ["250 queued\r\n".toList]

/-- A connected client with command timeout 0 whose server has answered
`250 ok` when `recv` is first called. -/
def zeroTimeoutClient : SMTPClientBase :=
  { connectedClient none none ["250 ok\r\n".toList] with mCommandTimeOut := 0 }

/-- A connected client with the default command timeout of 5 seconds whose
server answers `250 ok` on the sixth call of `recv`, five seconds after the
first. -/
def lateReplyClient : SMTPClientBase :=
  connectedClient none none [[], [], [], [], [], "250 ok\r\n".toList]

/-- A client with command timeout 0 on whose socket the greeting `220 ready`
has arrived when `recv` is first called. -/
def zeroTimeoutGreetedClient : SMTPClientBase :=
  { connectedClient none none ["220 ready\r\n".toList] with mCommandTimeOut := 0 }

/-- A connected client whose server answers 250 to `MAIL FROM` and to two
`RCPT TO`, 354 to `DATA` and 250 to the end of data. On its socket the sixth
call of `send`, which carries the first To header (after `MAIL FROM`, two
`RCPT TO`, `DATA` and the From header), fails with `errno` 32; every other
call succeeds. -/
def toHeaderFailingClient : SMTPClientBase :=
  { connectedClient none none
      ["250 ok\r\n".toList, "250 ok\r\n".toList, "250 ok\r\n".toList, "354 go\r\n".toList,
       "250 queued\r\n".toList] with
    sendResult := fun i => if i = 5 then some 32 else none }

/-- As `toHeaderFailingClient`, but every call of `send` from the sixth on
fails with `errno` 32. -/
def brokenAtToHeaderClient : SMTPClientBase :=
  { connectedClient none none
      ["250 ok\r\n".toList, "250 ok\r\n".toList, "250 ok\r\n".toList, "354 go\r\n".toList,
       "250 queued\r\n".toList] with
    sendResult := fun i => if 5 ≤ i then some 32 else none }

/-- The client `rejectingSenderClient`, whose server answers `550 denied` to
the first command that awaits a reply, after
`setKeepUsingBaseSendCommands(true)`. -/
def rawRejectingClient : SMTPClientBase :=
  setKeepUsingBaseSendCommands true rejectingSenderClient

/-- The client `silentClient`, whose server never replies, after
`setKeepUsingBaseSendCommands(true)`. -/
def rawSilentClient : SMTPClientBase :=
  setKeepUsingBaseSendCommands true silentClient

/-! ## Properties -/

theorem NUL_toNat : NUL.toNat = 0 := by decide

theorem cstr_cons_ne (c : Char) (r : List Char) (h : c ≠ NUL) : cstr (c :: r) = c :: cstr r := by
  simp [cstr, List.takeWhile_cons, h]

theorem isdigit_iff (c : Char) : isdigit c = true ↔ 48 ≤ c.toNat ∧ c.toNat ≤ 57 := by
  simp [isdigit]

theorem char_ne_of_toNat_ne {c d : Char} (h : c.toNat ≠ d.toNat) : c ≠ d := by
  intro e; exact h (by rw [e])

theorem isdigit_ne_NUL {c : Char} (h : isdigit c = true) : c ≠ NUL := by
  rw [isdigit_iff] at h
  apply char_ne_of_toNat_ne
  rw [NUL_toNat]; omega

theorem isdigit_not_isspace {c : Char} (h : isdigit c = true) : isspace c = false := by
  rw [isdigit_iff] at h
  have h1 : c ≠ ' ' := char_ne_of_toNat_ne (by have : (' ' : Char).toNat = 32 := by decide
                                               omega)
  have h2 : c ≠ '\t' := char_ne_of_toNat_ne (by have : ('\t' : Char).toNat = 9 := by decide
                                                omega)
  have h3 : c ≠ '\n' := char_ne_of_toNat_ne (by have : ('\n' : Char).toNat = 10 := by decide
                                                omega)
  have h4 : c ≠ Char.ofNat 11 := char_ne_of_toNat_ne (by have : (Char.ofNat 11).toNat = 11 := by decide
                                                         omega)
  have h5 : c ≠ Char.ofNat 12 := char_ne_of_toNat_ne (by have : (Char.ofNat 12).toNat = 12 := by decide
                                                         omega)
  have h6 : c ≠ '\r' := char_ne_of_toNat_ne (by have : ('\r' : Char).toNat = 13 := by decide
                                                omega)
  simp [isspace, h1, h2, h3, h4, h5, h6]

theorem splitSign_digit {c : Char} (r : List Char) (h : isdigit c = true) :
    splitSign (c :: r) = (false, c :: r) := by
  rw [isdigit_iff] at h
  have h1 : c ≠ '-' := char_ne_of_toNat_ne (by have : ('-' : Char).toNat = 45 := by decide
                                               omega)
  have h2 : c ≠ '+' := char_ne_of_toNat_ne (by have : ('+' : Char).toNat = 43 := by decide
                                               omega)
  unfold splitSign
  split
  · rename_i heq; cases heq; exact absurd rfl h1
  · rename_i heq; cases heq; exact absurd rfl h2
  · rfl

theorem stoi_three_digits {c1 c2 c3 : Char} (h1 : isdigit c1 = true) (h2 : isdigit c2 = true)
    (h3 : isdigit c3 = true) :
    stoi [c1, c2, c3]
      = some (100 * ((c1.toNat : Int) - 48) + 10 * ((c2.toNat : Int) - 48) + ((c3.toNat : Int) - 48)) := by
  have e1 := (isdigit_iff c1).1 h1
  have e2 := (isdigit_iff c2).1 h2
  have e3 := (isdigit_iff c3).1 h3
  have hz : ('0' : Char).toNat = 48 := by decide
  have hd : [c1, c2, c3].dropWhile isspace = [c1, c2, c3] := by
    simp [List.dropWhile_cons, isdigit_not_isspace h1]
  have ht : [c1, c2, c3].takeWhile isdigit = [c1, c2, c3] := by
    simp [List.takeWhile_cons, h1, h2, h3]
  have hv : digitsValue [c1, c2, c3]
      = 100 * (c1.toNat - 48) + 10 * (c2.toNat - 48) + (c3.toNat - 48) := by
    simp only [digitsValue, List.foldl_cons, List.foldl_nil, hz]
    omega
  unfold stoi
  rw [hd, splitSign_digit _ h1]
  simp only [ht, hv]
  simp
  constructor
  · constructor <;> omega
  · omega
theorem b64Index_b64Char : ∀ i, i < 64 → b64Index (b64Char i) = some i := by
  decide

theorem b64Char_ne_pad : ∀ i, i < 64 → b64Char i ≠ '=' := by
  decide

theorem b64Char_ne_NUL (i : Nat) : b64Char i ≠ NUL := by
  by_cases h : i < 64
  · have : ∀ j, j < 64 → b64Char j ≠ NUL := by decide
    exact this i h
  · have hl : b64Alphabet.length = 64 := by decide
    have : b64Char i = '=' := by
      unfold b64Char
      rw [List.getD_eq_default]
      omega
    rw [this]; decide

theorem b64DecodeBytes_encode (bs : List Nat) (h : ∀ b ∈ bs, b < 256) :
    b64DecodeBytes (b64EncodeBytes bs) = some bs := by
  induction bs using b64EncodeBytes.induct with
  | case1 => rfl
  | case2 a =>
    have ha : a < 256 := h a (by simp)
    have i0 : a / 4 < 64 := by omega
    have i1 : a % 4 * 16 < 64 := by omega
    simp only [b64EncodeBytes, b64DecodeBytes, if_true, List.isEmpty_nil,
      b64Index_b64Char _ i0, b64Index_b64Char _ i1]
    simp
    omega
  | case3 a b =>
    have ha : a < 256 := h a (by simp)
    have hb : b < 256 := h b (by simp)
    have i0 : a / 4 < 64 := by omega
    have i1 : a % 4 * 16 + b / 16 < 64 := by omega
    have i2 : b % 16 * 4 < 64 := by omega
    simp only [b64EncodeBytes, b64DecodeBytes, if_true, List.isEmpty_nil,
      b64Index_b64Char _ i0, b64Index_b64Char _ i1, b64Index_b64Char _ i2,
      if_neg (b64Char_ne_pad _ i2)]
    simp
    omega
  | case4 a b c rest ih =>
    have ha : a < 256 := h a (by simp)
    have hb : b < 256 := h b (by simp)
    have hc : c < 256 := h c (by simp)
    have hr : ∀ x ∈ rest, x < 256 := fun x hx => h x (by simp [hx])
    have i0 : a / 4 < 64 := by omega
    have i1 : a % 4 * 16 + b / 16 < 64 := by omega
    have i2 : b % 16 * 4 + c / 64 < 64 := by omega
    have i3 : c % 64 < 64 := by omega
    simp only [b64EncodeBytes, b64DecodeBytes, b64Index_b64Char _ i0, b64Index_b64Char _ i1,
      b64Index_b64Char _ i2, b64Index_b64Char _ i3, if_neg (b64Char_ne_pad _ i3), ih hr]
    simp
    omega
/-! ### C strings -/

theorem take_strlen (buf : List Char) : buf.take (strlen buf) = cstr buf := by
  unfold strlen cstr
  induction buf with
  | nil => rfl
  | cons c r ih =>
    by_cases h : (c != NUL) = true
    · simp [List.takeWhile_cons, h, ih]
    · simp [List.takeWhile_cons, h]

theorem NulFree_nil : NulFree [] := by
  intro c hc; cases hc

theorem NulFree_append {a b : List Char} (ha : NulFree a) (hb : NulFree b) : NulFree (a ++ b) := by
  intro c hc
  rcases List.mem_append.1 hc with h | h
  · exact ha c h
  · exact hb c h

theorem NulFree_cstr (buf : List Char) : NulFree (cstr buf) := by
  intro c hc
  have := List.mem_takeWhile_imp hc
  simpa using this

theorem cstr_of_NulFree {s : List Char} (h : NulFree s) : cstr s = s := by
  unfold cstr
  rw [List.takeWhile_eq_self_iff]
  intro c hc
  simpa using h c hc

theorem strlen_of_NulFree {s : List Char} (h : NulFree s) : strlen s = s.length := by
  unfold strlen; rw [cstr_of_NulFree h]

theorem NulFree_sublist {a b : List Char} (h : a.Sublist b) (hb : NulFree b) : NulFree a :=
  fun c hc => hb c (h.subset hc)

theorem callSendCommandPtr_eq (cmd : List Char) (e : Int) (s : SMTPClientBase) :
    callSendCommandPtr cmd e s = sendRawCommand cmd e s := by
  unfold callSendCommandPtr sendCommand
  cases s.sendCommandPtr <;> rfl

theorem callSendCommandWithFeedbackPtr_eq (cmd : List Char) (e t : Int) (s : SMTPClientBase) :
    callSendCommandWithFeedbackPtr cmd e t s = sendRawCommandTimeout cmd e t s := by
  unfold callSendCommandWithFeedbackPtr sendCommandWithFeedback
  cases s.sendCommandWithFeedbackPtr <;> rfl

theorem sendRawCommand_ok (cmd : List Char) (e : Int) (s : SMTPClientBase)
    (h : s.sendResult s.sendCalls = none) :
    sendRawCommand cmd e s
      = (0, { s with sendCalls := s.sendCalls + 1, sent := s.sent ++ [cstr cmd] }) := by
  unfold sendRawCommand
  simp only [h, take_strlen]

theorem sendRawCommand_sent (cmd : List Char) (e : Int) (s : SMTPClientBase) :
    (sendRawCommand cmd e s).2.sent = s.sent ++ [cstr cmd] := by
  unfold sendRawCommand
  cases s.sendResult s.sendCalls <;>
    simp [take_strlen, cleanup, clearSocketFileDescriptor, setLastSocketErrNo]

theorem sendRawCommandTimeout_ok (cmd : List Char) (e t : Int) (s : SMTPClientBase)
    (outbuf : List Char) (m : Nat)
    (h : s.sendResult s.sendCalls = none)
    (hr : nextReply s.recvResult s.mCommandTimeOut s.recvCalls = some (outbuf, m)) :
    sendRawCommandTimeout cmd e t s
      = (extractReturnCode (some outbuf),
         addCommunicationLogItem outbuf "s".toList
           (setLastServerResponse outbuf
             { s with sendCalls := s.sendCalls + 1, sent := s.sent ++ [cstr cmd], recvCalls := m })) := by
  unfold sendRawCommandTimeout
  rw [sendRawCommand_ok cmd e s h]
  unfold nextReply at hr
  simp only [ne_eq, not_true_eq_false, if_false]
  split at hr
  · rename_i bytes m2 heq
    simp only [Option.some.injEq, Prod.mk.injEq] at hr
    obtain ⟨h1, h2⟩ := hr
    subst h1 h2
    simp [heq]
  · cases hr
/-! ### Fields that `addCommunicationLogItem` and `setLastServerResponse` keep -/

@[simp] theorem addCommunicationLogItem_sent (i p : List Char) (s : SMTPClientBase) :
    (addCommunicationLogItem i p s).sent = s.sent := rfl
@[simp] theorem addCommunicationLogItem_sendCalls (i p : List Char) (s : SMTPClientBase) :
    (addCommunicationLogItem i p s).sendCalls = s.sendCalls := rfl
@[simp] theorem addCommunicationLogItem_sendResult (i p : List Char) (s : SMTPClientBase) :
    (addCommunicationLogItem i p s).sendResult = s.sendResult := rfl
@[simp] theorem addCommunicationLogItem_recvResult (i p : List Char) (s : SMTPClientBase) :
    (addCommunicationLogItem i p s).recvResult = s.recvResult := rfl
@[simp] theorem addCommunicationLogItem_mCommandTimeOut (i p : List Char) (s : SMTPClientBase) :
    (addCommunicationLogItem i p s).mCommandTimeOut = s.mCommandTimeOut := rfl
@[simp] theorem addCommunicationLogItem_mCredential (i p : List Char) (s : SMTPClientBase) :
    (addCommunicationLogItem i p s).mCredential = s.mCredential := rfl
@[simp] theorem addCommunicationLogItem_mSock (i p : List Char) (s : SMTPClientBase) :
    (addCommunicationLogItem i p s).mSock = s.mSock := rfl

theorem SameSession.same (s : SMTPClientBase) : SameSession s s :=
  ⟨rfl, rfl, rfl, rfl, rfl⟩

theorem SameSession.andThen {a b c : SMTPClientBase} (h1 : SameSession a b) (h2 : SameSession b c) :
    SameSession a c :=
  ⟨h2.sendResult.trans h1.sendResult, h2.recvResult.trans h1.recvResult,
   h2.mCommandTimeOut.trans h1.mCommandTimeOut, h2.sendCommandPtr.trans h1.sendCommandPtr,
   h2.sendCommandWithFeedbackPtr.trans h1.sendCommandWithFeedbackPtr⟩

theorem addCommunicationLogItem_same (i p : List Char) (s : SMTPClientBase) :
    SameSession s (addCommunicationLogItem i p s) :=
  ⟨rfl, rfl, rfl, rfl, rfl⟩

/-! ### One command on a socket that accepts it -/

theorem feedback_good (cmd : List Char) (e t : Int) (s : SMTPClientBase)
    (outbuf : List Char) (m : Nat)
    (h : s.sendResult s.sendCalls = none)
    (hr : nextReply s.recvResult s.mCommandTimeOut s.recvCalls = some (outbuf, m)) :
    (callSendCommandWithFeedbackPtr cmd e t s).1 = extractReturnCode (some outbuf)
      ∧ SameSession s (callSendCommandWithFeedbackPtr cmd e t s).2
      ∧ (callSendCommandWithFeedbackPtr cmd e t s).2.sent = s.sent ++ [cstr cmd]
      ∧ (callSendCommandWithFeedbackPtr cmd e t s).2.sendCalls = s.sendCalls + 1
      ∧ (callSendCommandWithFeedbackPtr cmd e t s).2.recvCalls = m := by
  rw [callSendCommandWithFeedbackPtr_eq, sendRawCommandTimeout_ok cmd e t s outbuf m h hr]
  exact ⟨rfl, ⟨rfl, rfl, rfl, rfl, rfl⟩, rfl, rfl, rfl⟩

theorem repliesAre_cons {recvResult : Nat → List Char} {T n : Nat} {c : Int} {cs : List Int}
    (h : repliesAre recvResult T n (c :: cs) = true) :
    ∃ outbuf m, nextReply recvResult T n = some (outbuf, m)
      ∧ extractReturnCode (some outbuf) = c ∧ repliesAre recvResult T m cs = true := by
  unfold repliesAre at h
  split at h
  · rename_i outbuf m heq
    simp only [Bool.and_eq_true, beq_iff_eq] at h
    exact ⟨outbuf, m, heq, h.1, h.2⟩
  · cases h

/-- A command that awaits a reply, when the send succeeds and the next reply
has status `c`. -/
theorem feedback_step (cmd : List Char) (e t : Int) (s : SMTPClientBase) (c : Int) (cs : List Int)
    (h : s.sendResult s.sendCalls = none)
    (hr : repliesAre s.recvResult s.mCommandTimeOut s.recvCalls (c :: cs) = true) :
    (callSendCommandWithFeedbackPtr cmd e t s).1 = c
      ∧ SameSession s (callSendCommandWithFeedbackPtr cmd e t s).2
      ∧ (callSendCommandWithFeedbackPtr cmd e t s).2.sent = s.sent ++ [cstr cmd]
      ∧ (callSendCommandWithFeedbackPtr cmd e t s).2.sendCalls = s.sendCalls + 1
      ∧ repliesAre s.recvResult s.mCommandTimeOut
          (callSendCommandWithFeedbackPtr cmd e t s).2.recvCalls cs = true := by
  obtain ⟨outbuf, m, h1, h2, h3⟩ := repliesAre_cons hr
  obtain ⟨g1, g2, g3, g4, g5⟩ := feedback_good cmd e t s outbuf m h h1
  exact ⟨g1.trans h2, g2, g3, g4, by rw [g5]; exact h3⟩
/-! ### The envelope on a run whose replies are all 250 -/

theorem rcptToCommand_NulFree (a : MessageAddress) : NulFree (rcptToCommand a) :=
  NulFree_append (NulFree_append (by decide) (NulFree_cstr _)) (by decide)

theorem mailFromCommand_NulFree (pMsg : Message) : NulFree (mailFromCommand pMsg) :=
  NulFree_append (NulFree_append (by decide) (NulFree_cstr _)) (by decide)

theorem addMailRecipients_fold_good (E : ErrorCodes) (list : List MessageAddress) :
    ∀ (c0 : Int) (s : SMTPClientBase) (cs : List Int),
      (∀ i, i < list.length → s.sendResult (s.sendCalls + i) = none) →
      repliesAre s.recvResult s.mCommandTimeOut s.recvCalls
        (List.replicate list.length 250 ++ cs) = true →
      (list.foldl (addMailRecipientsStep E 250) (c0, s)).1 = c0
        ∧ SameSession s (list.foldl (addMailRecipientsStep E 250) (c0, s)).2
        ∧ (list.foldl (addMailRecipientsStep E 250) (c0, s)).2.sent
            = s.sent ++ list.map rcptToCommand
        ∧ (list.foldl (addMailRecipientsStep E 250) (c0, s)).2.sendCalls
            = s.sendCalls + list.length
        ∧ repliesAre s.recvResult s.mCommandTimeOut
            (list.foldl (addMailRecipientsStep E 250) (c0, s)).2.recvCalls cs = true := by
  induction list with
  | nil =>
    intro c0 s cs _ hr
    exact ⟨rfl, SameSession.same s, by simp, rfl, by simpa using hr⟩
  | cons a l ih =>
    intro c0 s cs hs hr
    have hs0 : s.sendResult s.sendCalls = none := by
      have := hs 0 (by simp)
      simpa using this
    have hr1 : repliesAre s.recvResult s.mCommandTimeOut s.recvCalls
        (250 :: (List.replicate l.length 250 ++ cs)) = true := by
      simpa [List.replicate_succ] using hr
    obtain ⟨g1, g2, g3, g4, g5⟩ := feedback_step (rcptToCommand a)
      E.CLIENT_SENDMAIL_RCPTTO_ERROR E.CLIENT_SENDMAIL_RCPTTO_TIMEOUT
      (addCommunicationLogItem (rcptToCommand a) "c".toList s) 250 _ hs0 hr1
    have hstep : addMailRecipientsStep E 250 (c0, s) a
        = (c0, (callSendCommandWithFeedbackPtr (rcptToCommand a)
            E.CLIENT_SENDMAIL_RCPTTO_ERROR E.CLIENT_SENDMAIL_RCPTTO_TIMEOUT
            (addCommunicationLogItem (rcptToCommand a) "c".toList s)).2) := by
      show ((if (callSendCommandWithFeedbackPtr (rcptToCommand a)
            E.CLIENT_SENDMAIL_RCPTTO_ERROR E.CLIENT_SENDMAIL_RCPTTO_TIMEOUT
            (addCommunicationLogItem (rcptToCommand a) "c".toList s)).1 ≠ 250 then _ else c0), _)
          = _
      rw [if_neg (by rw [g1]; exact fun h => h rfl)]
      rfl
    rw [List.foldl_cons, hstep]
    generalize (callSendCommandWithFeedbackPtr (rcptToCommand a)
            E.CLIENT_SENDMAIL_RCPTTO_ERROR E.CLIENT_SENDMAIL_RCPTTO_TIMEOUT
            (addCommunicationLogItem (rcptToCommand a) "c".toList s)).2 = s1 at g2 g3 g4 g5 ⊢
    have g2s : SameSession s s1 := (addCommunicationLogItem_same _ _ s).andThen g2
    simp only [addCommunicationLogItem_sent, addCommunicationLogItem_sendCalls,
      addCommunicationLogItem_recvResult, addCommunicationLogItem_mCommandTimeOut] at g3 g4 g5
    have hs1 : ∀ i, i < l.length → s1.sendResult (s1.sendCalls + i) = none := by
      intro i hi
      rw [g2s.sendResult, g4]
      have := hs (i + 1) (by simp; omega)
      rw [show s.sendCalls + 1 + i = s.sendCalls + (i + 1) by omega]
      exact this
    have hr2 : repliesAre s1.recvResult s1.mCommandTimeOut s1.recvCalls
        (List.replicate l.length 250 ++ cs) = true := by
      rw [g2s.recvResult, g2s.mCommandTimeOut]; exact g5
    obtain ⟨k1, k2, k3, k4, k5⟩ := ih c0 s1 cs hs1 hr2
    refine ⟨k1, g2s.andThen k2, ?_, ?_, ?_⟩
    · rw [k3, g3, cstr_of_NulFree (rcptToCommand_NulFree a)]; simp
    · rw [k4, g4]; simp; omega
    · rw [g2s.recvResult, g2s.mCommandTimeOut] at k5; exact k5

theorem addMailRecipients_good (E : ErrorCodes) (list : List MessageAddress)
    (s : SMTPClientBase) (cs : List Int)
    (hs : ∀ i, i < list.length → s.sendResult (s.sendCalls + i) = none)
    (hr : repliesAre s.recvResult s.mCommandTimeOut s.recvCalls
        (List.replicate list.length 250 ++ cs) = true) :
    (addMailRecipients E list 250 s).1 = 250
      ∧ SameSession s (addMailRecipients E list 250 s).2
      ∧ (addMailRecipients E list 250 s).2.sent = s.sent ++ list.map rcptToCommand
      ∧ (addMailRecipients E list 250 s).2.sendCalls = s.sendCalls + list.length
      ∧ repliesAre s.recvResult s.mCommandTimeOut
          (addMailRecipients E list 250 s).2.recvCalls cs = true :=
  addMailRecipients_fold_good E list 250 s cs hs hr
theorem sendRawCommandTimeout_sent (cmd : List Char) (e t : Int) (s : SMTPClientBase) :
    (sendRawCommandTimeout cmd e t s).2.sent = s.sent ++ [cstr cmd] := by
  have h0 := sendRawCommand_sent cmd e s
  unfold sendRawCommandTimeout
  simp only []
  split
  · exact h0
  · split
    · simpa [setLastServerResponse] using h0
    · simpa [cleanup, clearSocketFileDescriptor] using h0

theorem addMailRecipients_sent (E : ErrorCodes) (ok : Int) (list : List MessageAddress) :
    ∀ (c0 : Int) (s : SMTPClientBase),
      (list.foldl (addMailRecipientsStep E ok) (c0, s)).2.sent
        = s.sent ++ list.map rcptToCommand := by
  induction list with
  | nil => intro c0 s; simp
  | cons a l ih =>
    intro c0 s
    rw [List.foldl_cons]
    have hstep : (addMailRecipientsStep E ok (c0, s) a).2.sent = s.sent ++ [rcptToCommand a] := by
      show (callSendCommandWithFeedbackPtr (rcptToCommand a) _ _
        (addCommunicationLogItem (rcptToCommand a) "c".toList s)).2.sent = _
      rw [callSendCommandWithFeedbackPtr_eq, sendRawCommandTimeout_sent,
        cstr_of_NulFree (rcptToCommand_NulFree a)]
      rfl
    have := ih (addMailRecipientsStep E ok (c0, s) a).1 (addMailRecipientsStep E ok (c0, s) a).2
    rw [Prod.mk.eta] at this
    rw [this, hstep]
    simp

theorem setMailRecipientsLoop_good (E : ErrorCodes) (items : List (Option (List MessageAddress))) :
    ∀ (rest : List (Option (List MessageAddress))) (s : SMTPClientBase) (cs : List Int),
      (∀ i, i < (items.flatMap addresses).length → s.sendResult (s.sendCalls + i) = none) →
      repliesAre s.recvResult s.mCommandTimeOut s.recvCalls
        (List.replicate (items.flatMap addresses).length 250 ++ cs) = true →
      ∃ t, setMailRecipientsLoop E 250 (items ++ rest) s = setMailRecipientsLoop E 250 rest t
        ∧ SameSession s t
        ∧ t.sent = s.sent ++ (items.flatMap addresses).map rcptToCommand
        ∧ t.sendCalls = s.sendCalls + (items.flatMap addresses).length
        ∧ repliesAre s.recvResult s.mCommandTimeOut t.recvCalls cs = true := by
  induction items with
  | nil =>
    intro rest s cs _ hr
    exact ⟨s, rfl, SameSession.same s, by simp, by simp, by simpa using hr⟩
  | cons item more ih =>
    intro rest s cs hs hr
    cases item with
    | none =>
      have e : (none :: more).flatMap addresses = more.flatMap addresses := by
        simp [List.flatMap_cons, addresses]
      rw [e] at hs hr ⊢
      obtain ⟨t, h1, h2⟩ := ih rest s cs hs hr
      exact ⟨t, by rw [← h1]; rfl, h2⟩
    | some list =>
      have e : (some list :: more).flatMap addresses = list ++ more.flatMap addresses := by
        simp [List.flatMap_cons, addresses]
      rw [e] at hs hr ⊢
      have hs1 : ∀ i, i < list.length → s.sendResult (s.sendCalls + i) = none :=
        fun i hi => hs i (by rw [List.length_append]; omega)
      have hr1 : repliesAre s.recvResult s.mCommandTimeOut s.recvCalls
          (List.replicate list.length 250
            ++ (List.replicate (more.flatMap addresses).length 250 ++ cs)) = true := by
        rw [← List.append_assoc, ← List.replicate_add, ← List.length_append]; exact hr
      obtain ⟨g1, g2, g3, g4, g5⟩ := addMailRecipients_good E list s _ hs1 hr1
      have hloop : setMailRecipientsLoop E 250 (some list :: more ++ rest) s
          = setMailRecipientsLoop E 250 (more ++ rest) (addMailRecipients E list 250 s).2 := by
        show (if (addMailRecipients E list 250 s).1 ≠ 250 then _ else _) = _
        rw [if_neg (by rw [g1]; exact fun h => h rfl)]
        rfl
      generalize (addMailRecipients E list 250 s).2 = s1 at g2 g3 g4 g5 hloop
      have hs2 : ∀ i, i < (more.flatMap addresses).length → s1.sendResult (s1.sendCalls + i) = none := by
        intro i hi
        rw [g2.sendResult, g4, Nat.add_assoc]
        exact hs _ (by rw [List.length_append]; omega)
      have hr2 : repliesAre s1.recvResult s1.mCommandTimeOut s1.recvCalls
          (List.replicate (more.flatMap addresses).length 250 ++ cs) = true := by
        rw [g2.recvResult, g2.mCommandTimeOut]; exact g5
      obtain ⟨t, k1, k2, k3, k4, k5⟩ := ih rest s1 cs hs2 hr2
      refine ⟨t, ?_, g2.andThen k2, ?_, ?_, ?_⟩
      · rw [← k1]; exact hloop
      · rw [k3, g3]; simp
      · rw [k4, g4, List.length_append]; omega
      · rw [g2.recvResult, g2.mCommandTimeOut] at k5; exact k5
/-- The state after `MAIL FROM` and the address arrays `items`, when the
replies to all of them are 250; `rest` are the arrays still to come. -/
theorem setMailRecipients_prefix (E : ErrorCodes) (pMsg : Message) (s : SMTPClientBase)
    (items rest : List (Option (List MessageAddress))) (cs : List Int)
    (hsplit : items ++ rest = [pMsg.getTo, pMsg.getCc, pMsg.getBcc])
    (hs : ∀ i, i < 1 + (items.flatMap addresses).length → s.sendResult (s.sendCalls + i) = none)
    (hr : repliesAre s.recvResult s.mCommandTimeOut s.recvCalls
        (250 :: List.replicate (items.flatMap addresses).length 250 ++ cs) = true) :
    ∃ t, setMailRecipients E pMsg s = setMailRecipientsLoop E 250 rest t
      ∧ SameSession s t
      ∧ t.sent = s.sent ++ [mailFromCommand pMsg] ++ (items.flatMap addresses).map rcptToCommand
      ∧ t.sendCalls = s.sendCalls + 1 + (items.flatMap addresses).length
      ∧ repliesAre s.recvResult s.mCommandTimeOut t.recvCalls cs = true := by
  have hs0 : s.sendResult s.sendCalls = none := by
    have := hs 0 (by omega)
    simpa using this
  obtain ⟨g1, g2, g3, g4, g5⟩ := feedback_step (mailFromCommand pMsg)
    E.CLIENT_SENDMAIL_MAILFROM_ERROR E.CLIENT_SENDMAIL_MAILFROM_TIMEOUT
    (addCommunicationLogItem (mailFromCommand pMsg) "c".toList s) 250 _ hs0 hr
  have hstart : setMailRecipients E pMsg s
      = setMailRecipientsLoop E 250 (items ++ rest)
          (callSendCommandWithFeedbackPtr (mailFromCommand pMsg)
            E.CLIENT_SENDMAIL_MAILFROM_ERROR E.CLIENT_SENDMAIL_MAILFROM_TIMEOUT
            (addCommunicationLogItem (mailFromCommand pMsg) "c".toList s)).2 := by
    rw [hsplit]
    show (if (callSendCommandWithFeedbackPtr (mailFromCommand pMsg)
            E.CLIENT_SENDMAIL_MAILFROM_ERROR E.CLIENT_SENDMAIL_MAILFROM_TIMEOUT
            (addCommunicationLogItem (mailFromCommand pMsg) "c".toList s)).1 ≠ 250
          then _ else _) = _
    rw [if_neg (by rw [g1]; exact fun h => h rfl)]
    rfl
  generalize (callSendCommandWithFeedbackPtr (mailFromCommand pMsg)
            E.CLIENT_SENDMAIL_MAILFROM_ERROR E.CLIENT_SENDMAIL_MAILFROM_TIMEOUT
            (addCommunicationLogItem (mailFromCommand pMsg) "c".toList s)).2 = s1
    at g2 g3 g4 g5 hstart
  have g2s : SameSession s s1 := (addCommunicationLogItem_same _ _ s).andThen g2
  simp only [addCommunicationLogItem_sent, addCommunicationLogItem_sendCalls,
    addCommunicationLogItem_recvResult, addCommunicationLogItem_mCommandTimeOut] at g3 g4 g5
  have hs1 : ∀ i, i < (items.flatMap addresses).length → s1.sendResult (s1.sendCalls + i) = none := by
    intro i hi
    rw [g2s.sendResult, g4, Nat.add_assoc]
    exact hs _ (by omega)
  have hr1 : repliesAre s1.recvResult s1.mCommandTimeOut s1.recvCalls
      (List.replicate (items.flatMap addresses).length 250 ++ cs) = true := by
    rw [g2s.recvResult, g2s.mCommandTimeOut]; exact g5
  obtain ⟨t, k1, k2, k3, k4, k5⟩ := setMailRecipientsLoop_good E items rest s1 cs hs1 hr1
  refine ⟨t, hstart.trans k1, g2s.andThen k2, ?_, ?_, ?_⟩
  · rw [k3, g3, cstr_of_NulFree (mailFromCommand_NulFree pMsg)]
  · rw [k4, g4]
  · rw [g2s.recvResult, g2s.mCommandTimeOut] at k5; exact k5

theorem flatMap_three (a b c : Option (List MessageAddress)) :
    [a, b, c].flatMap addresses = addresses a ++ addresses b ++ addresses c := by
  simp [List.flatMap_cons]

theorem flatMap_two (a b : Option (List MessageAddress)) :
    [a, b].flatMap addresses = addresses a ++ addresses b := by
  simp [List.flatMap_cons]

/-- The envelope when every send succeeds and every reply is 250. -/
theorem setMailRecipients_good (E : ErrorCodes) (pMsg : Message) (s : SMTPClientBase)
    (cs : List Int)
    (hs : ∀ i, s.sendResult i = none)
    (hr : repliesAre s.recvResult s.mCommandTimeOut s.recvCalls
        (250 :: List.replicate
          (addresses pMsg.getTo ++ addresses pMsg.getCc ++ addresses pMsg.getBcc).length 250
          ++ cs) = true) :
    (setMailRecipients E pMsg s).1 = 0
      ∧ SameSession s (setMailRecipients E pMsg s).2
      ∧ (setMailRecipients E pMsg s).2.sent = s.sent ++ envelopeCommands pMsg
      ∧ repliesAre s.recvResult s.mCommandTimeOut (setMailRecipients E pMsg s).2.recvCalls cs
          = true := by
  rw [← flatMap_three] at hr
  obtain ⟨t, k1, k2, k3, _, k5⟩ := setMailRecipients_prefix E pMsg s
    [pMsg.getTo, pMsg.getCc, pMsg.getBcc] [] cs rfl (fun i _ => hs _) hr
  rw [k1]
  refine ⟨rfl, k2, ?_, k5⟩
  show t.sent = _
  rw [k3, flatMap_three, List.append_assoc]
  rfl
/-! ### The headers and the body on a run whose sends all succeed -/

theorem SameSession.sends_ok {s t : SMTPClientBase} (h : SameSession s t)
    (hs : ∀ i, s.sendResult i = none) : ∀ i, t.sendResult i = none := by
  intro i; rw [h.sendResult]; exact hs i

theorem replaceCRLF_NulFree : ∀ (s : List Char), NulFree s → NulFree (replaceCRLF s) := by
  intro s
  induction s using replaceCRLF.induct with
  | case1 => intro h; exact h
  | case2 c => intro h; exact h
  | case3 c d rest hcd ih =>
    intro h
    rw [replaceCRLF, if_pos hcd]
    have hr : NulFree rest := fun x hx => h x (by simp [hx])
    have := ih hr
    intro x hx
    simp only [List.mem_cons] at hx
    rcases hx with rfl | rfl | rfl | rfl | hx
    · decide
    · decide
    · decide
    · decide
    · exact this x hx
  | case4 c d rest hcd ih =>
    intro h
    rw [replaceCRLF, if_neg hcd]
    have hr : NulFree (d :: rest) := fun x hx => h x (by simp only [List.mem_cons] at hx ⊢; tauto)
    have := ih hr
    intro x hx
    simp only [List.mem_cons] at hx
    rcases hx with rfl | hx
    · exact h x (by simp)
    · exact this x (by simpa using hx)

/-- On an initialised log, `addCommunicationLogItem` appends one entry and
cuts nothing, with or without reallocation: CRLF pairs are escaped on the
client channel `c`, other payloads are written verbatim. -/
theorem addCommunicationLogItem_log (pItem pPrefix : List Char) (s : SMTPClientBase)
    (h : LogOk s) :
    (addCommunicationLogItem pItem pPrefix s).mCommunicationLog
        = s.mCommunicationLog
          ++ logEntry (cstr pPrefix)
              (if cstr pPrefix = "c".toList then replaceCRLF (cstr pItem) else cstr pItem)
      ∧ LogOk (addCommunicationLogItem pItem pPrefix s) := by
  unfold LogOk at h ⊢
  have hitem : NulFree (if cstr pPrefix = "c".toList then replaceCRLF (cstr pItem)
      else cstr pItem) := by
    split
    · exact replaceCRLF_NulFree _ (NulFree_cstr _)
    · exact NulFree_cstr _
  generalize hi : (if cstr pPrefix = "c".toList then replaceCRLF (cstr pItem) else cstr pItem)
    = item at hitem
  have hnl : cstr "\n".toList = "\n".toList := by decide
  have hsep : cstr ": ".toList = ": ".toList := by decide
  have hnl1 : "\n".toList.length = 1 := by decide
  have hsep2 : ": ".toList.length = 2 := by decide
  unfold addCommunicationLogItem
  simp only [hi, strncat, hnl, hsep, cstr_of_NulFree hitem, strlen, hnl1, hsep2]
  generalize hsize : (if s.mCommunicationLogSize - s.mCommunicationLog.length
        ≤ 1 + (cstr pPrefix).length + 2 + item.length + 1
      then s.mCommunicationLog.length + (1 + (cstr pPrefix).length + 2 + item.length + 1)
        + INITIAL_COMM_LOG_LENGTH
      else s.mCommunicationLogSize) = size
  have hbig : s.mCommunicationLog.length + (1 + (cstr pPrefix).length + 2 + item.length + 1)
      < size := by
    rw [← hsize]
    unfold INITIAL_COMM_LOG_LENGTH
    split <;> omega
  rw [List.take_of_length_le (l := "\n".toList) (by rw [hnl1]; omega),
    List.take_of_length_le (l := cstr pPrefix) (by omega),
    List.take_of_length_le (l := ": ".toList) (by rw [hsep2]; omega),
    List.take_of_length_le (l := item) (by omega)]
  constructor
  · rw [List.take_of_length_le (by simp only [List.length_append, hnl1, hsep2]; omega)]
    simp [logEntry]
  · simp only [List.length_take, List.length_append, hnl1, hsep2]
    omega
/-! ### Runs that differ only in the credentials -/

theorem sendRawCommandTimeout_eq (cmd : List Char) (e t : Int) (s : SMTPClientBase) :
    sendRawCommandTimeout cmd e t s
      = if (sendRawCommand cmd e s).1 ≠ 0 then (e, (sendRawCommand cmd e s).2)
        else awaitReply t (sendRawCommand cmd e s).2 := rfl

theorem withoutSecrets_sendResult (s : SMTPClientBase) :
    (withoutSecrets s).sendResult (withoutSecrets s).sendCalls = s.sendResult s.sendCalls := rfl

theorem sendRawCommand_core (cmd : List Char) (e : Int) (s : SMTPClientBase) :
    (sendRawCommand cmd e s).1 = (sendRawCommand [] e (withoutSecrets s)).1
      ∧ withoutSecrets (sendRawCommand cmd e s).2
          = withoutSecrets (sendRawCommand [] e (withoutSecrets s)).2 := by
  unfold sendRawCommand
  rw [withoutSecrets_sendResult]
  cases s.sendResult s.sendCalls <;> exact ⟨rfl, rfl⟩

theorem recvLoop_withoutSecrets (s : SMTPClientBase) :
    recvLoop (withoutSecrets s).recvResult (withoutSecrets s).mCommandTimeOut
        (withoutSecrets s).recvCalls
      = recvLoop s.recvResult s.mCommandTimeOut s.recvCalls := rfl

theorem awaitReply_core (t : Int) (s : SMTPClientBase) :
    (awaitReply t s).1 = (awaitReply t (withoutSecrets s)).1
      ∧ withoutSecrets (awaitReply t s).2 = withoutSecrets (awaitReply t (withoutSecrets s)).2 := by
  unfold awaitReply
  rw [recvLoop_withoutSecrets]
  generalize recvLoop s.recvResult s.mCommandTimeOut s.recvCalls = p
  obtain ⟨p1, p2⟩ := p
  cases p1 <;> exact ⟨rfl, rfl⟩

theorem sendRawCommand_withoutSecrets (cmd1 cmd2 : List Char) (e : Int) (s1 s2 : SMTPClientBase)
    (h : withoutSecrets s1 = withoutSecrets s2) :
    (sendRawCommand cmd1 e s1).1 = (sendRawCommand cmd2 e s2).1
      ∧ withoutSecrets (sendRawCommand cmd1 e s1).2
          = withoutSecrets (sendRawCommand cmd2 e s2).2 := by
  obtain ⟨a1, a2⟩ := sendRawCommand_core cmd1 e s1
  obtain ⟨b1, b2⟩ := sendRawCommand_core cmd2 e s2
  rw [a1, a2, b1, b2, h]
  exact ⟨rfl, rfl⟩

theorem awaitReply_withoutSecrets (t : Int) (s1 s2 : SMTPClientBase)
    (h : withoutSecrets s1 = withoutSecrets s2) :
    (awaitReply t s1).1 = (awaitReply t s2).1
      ∧ withoutSecrets (awaitReply t s1).2 = withoutSecrets (awaitReply t s2).2 := by
  obtain ⟨a1, a2⟩ := awaitReply_core t s1
  obtain ⟨b1, b2⟩ := awaitReply_core t s2
  rw [a1, a2, b1, b2, h]
  exact ⟨rfl, rfl⟩

theorem feedback_withoutSecrets (cmd1 cmd2 : List Char) (e t : Int)
    (s1 s2 : SMTPClientBase) (h : withoutSecrets s1 = withoutSecrets s2) :
    (callSendCommandWithFeedbackPtr cmd1 e t s1).1 = (callSendCommandWithFeedbackPtr cmd2 e t s2).1
      ∧ withoutSecrets (callSendCommandWithFeedbackPtr cmd1 e t s1).2
          = withoutSecrets (callSendCommandWithFeedbackPtr cmd2 e t s2).2 := by
  rw [callSendCommandWithFeedbackPtr_eq, callSendCommandWithFeedbackPtr_eq,
    sendRawCommandTimeout_eq, sendRawCommandTimeout_eq]
  obtain ⟨g1, g2⟩ := sendRawCommand_withoutSecrets cmd1 cmd2 e s1 s2 h
  rw [g1]
  split
  · exact ⟨rfl, g2⟩
  · exact awaitReply_withoutSecrets t _ _ g2

theorem addCommunicationLogItem_withoutSecrets (i p : List Char) (s1 s2 : SMTPClientBase)
    (h : withoutSecrets s1 = withoutSecrets s2) :
    withoutSecrets (addCommunicationLogItem i p s1)
      = withoutSecrets (addCommunicationLogItem i p s2) := by
  show addCommunicationLogItem i p (withoutSecrets s1)
    = addCommunicationLogItem i p (withoutSecrets s2)
  rw [h]
theorem sendRawCommand_keeps (cmd : List Char) (e : Int) (s : SMTPClientBase) :
    (sendRawCommand cmd e s).2.mCommunicationLog = s.mCommunicationLog
      ∧ (sendRawCommand cmd e s).2.mCommunicationLogSize = s.mCommunicationLogSize
      ∧ (sendRawCommand cmd e s).2.mCredential = s.mCredential := by
  unfold sendRawCommand
  cases s.sendResult s.sendCalls <;> exact ⟨rfl, rfl, rfl⟩

theorem awaitReply_log (t : Int) (s : SMTPClientBase) (h : LogOk s) :
    ∃ replies : List (List Char),
      (awaitReply t s).2.mCommunicationLog = s.mCommunicationLog ++ serverEntries replies
        ∧ LogOk (awaitReply t s).2
        ∧ (awaitReply t s).2.mCredential = s.mCredential := by
  unfold awaitReply
  generalize recvLoop s.recvResult s.mCommandTimeOut s.recvCalls = p
  obtain ⟨p1, p2⟩ := p
  cases p1 with
  | none => exact ⟨[], by simp [serverEntries, cleanup, clearSocketFileDescriptor], h, rfl⟩
  | some bytes =>
    have hl : LogOk (setLastServerResponse (bytes.set (bytes.length - 1) NUL)
        { s with recvCalls := p2 }) := h
    obtain ⟨g1, g2⟩ := addCommunicationLogItem_log (bytes.set (bytes.length - 1) NUL)
      "s".toList _ hl
    refine ⟨[cstr (bytes.set (bytes.length - 1) NUL)], ?_, g2, rfl⟩
    show (addCommunicationLogItem (bytes.set (bytes.length - 1) NUL) "s".toList
        (setLastServerResponse (bytes.set (bytes.length - 1) NUL)
          { s with recvCalls := p2 })).mCommunicationLog = _
    rw [g1]
    have hsc : cstr "s".toList = "s".toList := by decide
    have hne : ¬ ("s".toList = "c".toList) := by decide
    rw [hsc, if_neg hne]
    simp [serverEntries, setLastServerResponse]

theorem feedback_log (cmd : List Char) (e t : Int) (s : SMTPClientBase) (h : LogOk s) :
    ∃ replies : List (List Char),
      (callSendCommandWithFeedbackPtr cmd e t s).2.mCommunicationLog
          = s.mCommunicationLog ++ serverEntries replies
        ∧ LogOk (callSendCommandWithFeedbackPtr cmd e t s).2
        ∧ (callSendCommandWithFeedbackPtr cmd e t s).2.mCredential = s.mCredential := by
  rw [callSendCommandWithFeedbackPtr_eq, sendRawCommandTimeout_eq]
  obtain ⟨k1, k2, k3⟩ := sendRawCommand_keeps cmd e s
  have hl : LogOk (sendRawCommand cmd e s).2 := by
    unfold LogOk at h ⊢; rw [k1, k2]; exact h
  split
  · exact ⟨[], by simp [serverEntries, k1], hl, k3⟩
  · obtain ⟨replies, g1, g2, g3⟩ := awaitReply_log t _ hl
    exact ⟨replies, by rw [g1, k1], g2, by rw [g3, k3]⟩

theorem serverEntries_append (a b : List (List Char)) :
    serverEntries (a ++ b) = serverEntries a ++ serverEntries b := by
  simp [serverEntries]
theorem authLine_log (line : List Char) (s : SMTPClientBase) (h : LogOk s)
    (hline : NulFree line) :
    (addCommunicationLogItem line "c".toList s).mCommunicationLog
        = s.mCommunicationLog ++ logEntry "c".toList (replaceCRLF line)
      ∧ LogOk (addCommunicationLogItem line "c".toList s) := by
  obtain ⟨g1, g2⟩ := addCommunicationLogItem_log line "c".toList s h
  have hc : cstr "c".toList = "c".toList := by decide
  rw [hc, if_pos rfl, cstr_of_NulFree hline] at g1
  exact ⟨g1, g2⟩

theorem authenticateWithMethodPlain_pair (E : ErrorCodes) (s1 s2 : SMTPClientBase)
    (c1 c2 : Credential) (hc : withoutSecrets s1 = withoutSecrets s2)
    (h1 : s1.mCredential = some c1) (h2 : s2.mCredential = some c2) (hl : LogOk s1) :
    ∃ r1 r2 replies,
      authenticateWithMethodPlain E s1 = some r1 ∧ authenticateWithMethodPlain E s2 = some r2
        ∧ r1.1 = r2.1 ∧ withoutSecrets r1.2 = withoutSecrets r2.2
        ∧ r1.2.mCommunicationLog
            = s1.mCommunicationLog
              ++ logEntry "c".toList "AUTH PLAIN ***************\\r\\n".toList
              ++ serverEntries replies := by
  have e1 : (addCommunicationLogItem "AUTH PLAIN ***************\r\n".toList "c".toList
      s1).mCredential = some c1 := h1
  have e2 : (addCommunicationLogItem "AUTH PLAIN ***************\r\n".toList "c".toList
      s2).mCredential = some c2 := h2
  unfold authenticateWithMethodPlain
  simp only [e1, e2]
  obtain ⟨a1, a2⟩ := authLine_log "AUTH PLAIN ***************\r\n".toList s1 hl (by decide)
  have hesc : replaceCRLF "AUTH PLAIN ***************\r\n".toList
      = "AUTH PLAIN ***************\\r\\n".toList := by decide
  rw [hesc] at a1
  have hcore := addCommunicationLogItem_withoutSecrets
    "AUTH PLAIN ***************\r\n".toList "c".toList s1 s2 hc
  obtain ⟨replies, l1, _, _⟩ := feedback_log ("AUTH PLAIN ".toList
      ++ Base64.Encode ([NUL] ++ c1.getUsername ++ [NUL] ++ c1.getPassword)
          (strlen c1.getUsername + strlen c1.getPassword + 2) ++ "\r\n".toList)
    E.CLIENT_AUTHENTICATE_ERROR E.CLIENT_AUTHENTICATE_TIMEOUT _ a2
  obtain ⟨g1, g2⟩ := feedback_withoutSecrets
    ("AUTH PLAIN ".toList
      ++ Base64.Encode ([NUL] ++ c1.getUsername ++ [NUL] ++ c1.getPassword)
          (strlen c1.getUsername + strlen c1.getPassword + 2) ++ "\r\n".toList)
    ("AUTH PLAIN ".toList
      ++ Base64.Encode ([NUL] ++ c2.getUsername ++ [NUL] ++ c2.getPassword)
          (strlen c2.getUsername + strlen c2.getPassword + 2) ++ "\r\n".toList)
    E.CLIENT_AUTHENTICATE_ERROR E.CLIENT_AUTHENTICATE_TIMEOUT _ _ hcore
  exact ⟨_, _, replies, rfl, rfl, g1, g2, by rw [l1, a1]⟩
theorem feedback_mCredential (cmd : List Char) (e t : Int) (s : SMTPClientBase) :
    (callSendCommandWithFeedbackPtr cmd e t s).2.mCredential = s.mCredential := by
  rw [callSendCommandWithFeedbackPtr_eq, sendRawCommandTimeout_eq]
  obtain ⟨_, _, k3⟩ := sendRawCommand_keeps cmd e s
  split
  · exact k3
  · rw [← k3]
    unfold awaitReply
    generalize recvLoop (sendRawCommand cmd e s).2.recvResult
      (sendRawCommand cmd e s).2.mCommandTimeOut (sendRawCommand cmd e s).2.recvCalls = p
    obtain ⟨p1, p2⟩ := p
    cases p1 <;> rfl

theorem authenticateWithMethodLogin_pair (E : ErrorCodes) (s1 s2 : SMTPClientBase)
    (c1 c2 : Credential) (hc : withoutSecrets s1 = withoutSecrets s2)
    (h1 : s1.mCredential = some c1) (h2 : s2.mCredential = some c2) (hl : LogOk s1) :
    ∃ r1 r2 replies,
      authenticateWithMethodLogin E s1 = some r1 ∧ authenticateWithMethodLogin E s2 = some r2
        ∧ r1.1 = r2.1 ∧ withoutSecrets r1.2 = withoutSecrets r2.2
        ∧ r1.2.mCommunicationLog
            = s1.mCommunicationLog
              ++ logEntry "c".toList "AUTH LOGIN ***************\\r\\n".toList
              ++ serverEntries replies := by
  obtain ⟨a1, a2⟩ := authLine_log "AUTH LOGIN ***************\r\n".toList s1 hl (by decide)
  have hesc : replaceCRLF "AUTH LOGIN ***************\r\n".toList
      = "AUTH LOGIN ***************\\r\\n".toList := by decide
  rw [hesc] at a1
  have hcore := addCommunicationLogItem_withoutSecrets
    "AUTH LOGIN ***************\r\n".toList "c".toList s1 s2 hc
  -- AUTH LOGIN
  obtain ⟨rep1, l1, l2, _⟩ := feedback_log "AUTH LOGIN\r\n".toList
    E.CLIENT_AUTHENTICATE_ERROR E.CLIENT_AUTHENTICATE_TIMEOUT _ a2
  obtain ⟨g1, g2⟩ := feedback_withoutSecrets "AUTH LOGIN\r\n".toList "AUTH LOGIN\r\n".toList
    E.CLIENT_AUTHENTICATE_ERROR E.CLIENT_AUTHENTICATE_TIMEOUT _ _ hcore
  have m1 := feedback_mCredential "AUTH LOGIN\r\n".toList
    E.CLIENT_AUTHENTICATE_ERROR E.CLIENT_AUTHENTICATE_TIMEOUT
    (addCommunicationLogItem "AUTH LOGIN ***************\r\n".toList "c".toList s1)
  have m2 := feedback_mCredential "AUTH LOGIN\r\n".toList
    E.CLIENT_AUTHENTICATE_ERROR E.CLIENT_AUTHENTICATE_TIMEOUT
    (addCommunicationLogItem "AUTH LOGIN ***************\r\n".toList "c".toList s2)
  rw [addCommunicationLogItem_mCredential, h1] at m1
  rw [addCommunicationLogItem_mCredential, h2] at m2
  rw [a1] at l1
  unfold authenticateWithMethodLogin
  simp only []
  generalize callSendCommandWithFeedbackPtr "AUTH LOGIN\r\n".toList
    E.CLIENT_AUTHENTICATE_ERROR E.CLIENT_AUTHENTICATE_TIMEOUT
    (addCommunicationLogItem "AUTH LOGIN ***************\r\n".toList "c".toList s1) = ra
    at l1 l2 g1 g2 m1
  generalize callSendCommandWithFeedbackPtr "AUTH LOGIN\r\n".toList
    E.CLIENT_AUTHENTICATE_ERROR E.CLIENT_AUTHENTICATE_TIMEOUT
    (addCommunicationLogItem "AUTH LOGIN ***************\r\n".toList "c".toList s2) = rb
    at g1 g2 m2
  rw [← g1]
  by_cases hA : ra.1 ≠ STATUS_CODE_SERVER_CHALLENGE
  · rw [if_pos hA, if_pos hA]
    exact ⟨_, _, rep1, rfl, rfl, rfl, g2, l1⟩
  · rw [if_neg hA, if_neg hA]
    simp only [m1, m2]
    -- the username
    obtain ⟨rep2, u1, u2, _⟩ := feedback_log
      (Base64.Encode c1.getUsername (strlen c1.getUsername) ++ "\r\n".toList)
      E.CLIENT_AUTHENTICATE_ERROR E.CLIENT_AUTHENTICATE_TIMEOUT ra.2 l2
    obtain ⟨v1, v2⟩ := feedback_withoutSecrets
      (Base64.Encode c1.getUsername (strlen c1.getUsername) ++ "\r\n".toList)
      (Base64.Encode c2.getUsername (strlen c2.getUsername) ++ "\r\n".toList)
      E.CLIENT_AUTHENTICATE_ERROR E.CLIENT_AUTHENTICATE_TIMEOUT ra.2 rb.2 g2
    have n1 := feedback_mCredential
      (Base64.Encode c1.getUsername (strlen c1.getUsername) ++ "\r\n".toList)
      E.CLIENT_AUTHENTICATE_ERROR E.CLIENT_AUTHENTICATE_TIMEOUT ra.2
    have n2 := feedback_mCredential
      (Base64.Encode c2.getUsername (strlen c2.getUsername) ++ "\r\n".toList)
      E.CLIENT_AUTHENTICATE_ERROR E.CLIENT_AUTHENTICATE_TIMEOUT rb.2
    rw [m1] at n1
    rw [m2] at n2
    rw [l1] at u1
    generalize callSendCommandWithFeedbackPtr
      (Base64.Encode c1.getUsername (strlen c1.getUsername) ++ "\r\n".toList)
      E.CLIENT_AUTHENTICATE_ERROR E.CLIENT_AUTHENTICATE_TIMEOUT ra.2 = rc at u1 u2 v1 v2 n1
    generalize callSendCommandWithFeedbackPtr
      (Base64.Encode c2.getUsername (strlen c2.getUsername) ++ "\r\n".toList)
      E.CLIENT_AUTHENTICATE_ERROR E.CLIENT_AUTHENTICATE_TIMEOUT rb.2 = rd at v1 v2 n2
    rw [← v1]
    by_cases hB : rc.1 ≠ STATUS_CODE_SERVER_CHALLENGE
    · rw [if_pos hB, if_pos hB]
      refine ⟨_, _, rep1 ++ rep2, rfl, rfl, rfl, v2, ?_⟩
      rw [serverEntries_append, ← List.append_assoc]; exact u1
    · rw [if_neg hB, if_neg hB]
      simp only [n1, n2]
      -- the password
      obtain ⟨rep3, w1, _, _⟩ := feedback_log
        (Base64.Encode c1.getPassword (strlen c1.getPassword) ++ "\r\n".toList)
        E.CLIENT_AUTHENTICATE_ERROR E.CLIENT_AUTHENTICATE_TIMEOUT rc.2 u2
      obtain ⟨x1, x2⟩ := feedback_withoutSecrets
        (Base64.Encode c1.getPassword (strlen c1.getPassword) ++ "\r\n".toList)
        (Base64.Encode c2.getPassword (strlen c2.getPassword) ++ "\r\n".toList)
        E.CLIENT_AUTHENTICATE_ERROR E.CLIENT_AUTHENTICATE_TIMEOUT rc.2 rd.2 v2
      refine ⟨_, _, rep1 ++ rep2 ++ rep3, rfl, rfl, x1, x2, ?_⟩
      rw [w1, u1, serverEntries_append, serverEntries_append]
      simp only [List.append_assoc]
theorem authenticateClient_with_credential (E : ErrorCodes) (s : SMTPClientBase)
    (c : Credential) (opts : ServerAuthOptions)
    (hcred : s.mCredential = some c) (ho : s.mAuthOptions = some opts) :
    authenticateClient E s
      = if opts.Plain then authenticateWithMethodPlain E s
        else if opts.Login then authenticateWithMethodLogin E s
        else some (E.CLIENT_AUTHENTICATION_METHOD_NOTSUPPORTED, s) := by
  unfold authenticateClient
  rw [hcred, ho]

/-- C5: for any two credential pairs, the same capability set offering Plain
or Login and the same server replies, `authenticateClient` returns the same
code and leaves the same communication log: the log it started from, then the
one client-channel entry `AUTH PLAIN ***************` (or `AUTH LOGIN
***************`) with its CRLF escaped, then server-channel entries only. -/
theorem authenticateClient_log_independent_of_credentials (E : ErrorCodes) (s : SMTPClientBase)
    (c1 c2 : Credential) (opts : ServerAuthOptions)
    (hl : LogOk s) (ho : s.mAuthOptions = some opts)
    (hm : opts.Plain = true ∨ opts.Login = true) :
    ∃ r1 r2 replies,
      authenticateClient E { s with mCredential := some c1 } = some r1
        ∧ authenticateClient E { s with mCredential := some c2 } = some r2
        ∧ r1.1 = r2.1
        ∧ r1.2.mCommunicationLog = r2.2.mCommunicationLog
        ∧ r1.2.mCommunicationLog
            = s.mCommunicationLog
              ++ logEntry "c".toList
                  (if opts.Plain then "AUTH PLAIN ***************\\r\\n".toList
                   else "AUTH LOGIN ***************\\r\\n".toList)
              ++ serverEntries replies := by
  have hcore : withoutSecrets { s with mCredential := some c1 }
      = withoutSecrets { s with mCredential := some c2 } := rfl
  have ho1 : ({ s with mCredential := some c1 } : SMTPClientBase).mAuthOptions = some opts := ho
  have ho2 : ({ s with mCredential := some c2 } : SMTPClientBase).mAuthOptions = some opts := ho
  have hl1 : LogOk { s with mCredential := some c1 } := hl
  rw [authenticateClient_with_credential E _ c1 opts rfl ho1,
    authenticateClient_with_credential E _ c2 opts rfl ho2]
  by_cases hp : opts.Plain = true
  · rw [if_pos hp, if_pos hp, if_pos hp]
    obtain ⟨r1, r2, replies, k1, k2, k3, k4, k5⟩ :=
      authenticateWithMethodPlain_pair E _ _ c1 c2 hcore rfl rfl hl1
    exact ⟨r1, r2, replies, k1, k2, k3, congrArg (fun x => x.mCommunicationLog) k4, k5⟩
  · have hlg : opts.Login = true := hm.resolve_left hp
    rw [if_neg hp, if_neg hp, if_neg hp, if_pos hlg, if_pos hlg]
    obtain ⟨r1, r2, replies, k1, k2, k3, k4, k5⟩ :=
      authenticateWithMethodLogin_pair E _ _ c1 c2 hcore rfl rfl hl1
    exact ⟨r1, r2, replies, k1, k2, k3, congrArg (fun x => x.mCommunicationLog) k4, k5⟩

theorem authenticateClient_log_independent_of_credentials_witness :
    LogOk authOfferingClient
      ∧ ∃ r1 r2 replies,
        authenticateClient sampleCodes
            { authOfferingClient with mCredential := some aliceCredential } = some r1
          ∧ authenticateClient sampleCodes
              { authOfferingClient with mCredential := some bobCredential } = some r2
          ∧ r1.1 = r2.1
          ∧ r1.2.mCommunicationLog = r2.2.mCommunicationLog
          ∧ r1.2.mCommunicationLog
              = authOfferingClient.mCommunicationLog
                ++ logEntry "c".toList
                    (if (⟨true, true, false, false, false, false⟩ : ServerAuthOptions).Plain
                     then "AUTH PLAIN ***************\\r\\n".toList
                     else "AUTH LOGIN ***************\\r\\n".toList)
                ++ serverEntries replies :=
  ⟨by decide,
   authenticateClient_log_independent_of_credentials sampleCodes authOfferingClient
     aliceCredential bobCredential ⟨true, true, false, false, false, false⟩ (by decide) rfl
     (Or.inl rfl)⟩
/-! ### AUTH PLAIN -/

theorem b64EncodeBytes_NulFree (bs : List Nat) : NulFree (b64EncodeBytes bs) := by
  have hpad : ('=' : Char) ≠ NUL := by decide
  induction bs using b64EncodeBytes.induct with
  | case1 => exact NulFree_nil
  | case2 a =>
    intro c hc
    simp only [b64EncodeBytes, List.mem_cons, List.mem_singleton, List.not_mem_nil, or_false] at hc
    rcases hc with rfl | rfl | rfl | rfl
    · exact b64Char_ne_NUL _
    · exact b64Char_ne_NUL _
    · exact hpad
    · exact hpad
  | case3 a b =>
    intro c hc
    simp only [b64EncodeBytes, List.mem_cons, List.mem_singleton, List.not_mem_nil, or_false] at hc
    rcases hc with rfl | rfl | rfl | rfl
    · exact b64Char_ne_NUL _
    · exact b64Char_ne_NUL _
    · exact b64Char_ne_NUL _
    · exact hpad
  | case4 a b c rest ih =>
    intro x hx
    simp only [b64EncodeBytes, List.mem_cons] at hx
    rcases hx with rfl | rfl | rfl | rfl | hx
    · exact b64Char_ne_NUL _
    · exact b64Char_ne_NUL _
    · exact b64Char_ne_NUL _
    · exact b64Char_ne_NUL _
    · exact ih x hx

theorem Base64_Decode_Encode (src : List Char) (len : Nat) (h : IsByteString src) :
    Base64.Decode (Base64.Encode src len) = some (src.take len) := by
  unfold Base64.Decode Base64.Encode
  have hb : ∀ b ∈ (src.take len).map byteVal, b < 256 := by
    intro b hb
    obtain ⟨c, _, rfl⟩ := List.mem_map.1 hb
    exact Nat.mod_lt _ (by decide)
  rw [b64DecodeBytes_encode _ hb]
  simp only [Option.map_some', List.map_map, Option.some.injEq]
  have : ∀ c ∈ src.take len, (Char.ofNat ∘ byteVal) c = c := by
    intro c hc
    have hlt := h c (List.mem_of_mem_take hc)
    simp only [Function.comp, byteVal, Nat.mod_eq_of_lt hlt, Char.ofNat_toNat]
  rw [List.map_congr_left this]
  simp

/-- C7 (amended): for NUL-free byte strings `u` and `p` as username and
password, `authenticateWithMethodPlain` sends exactly one command:
`AUTH PLAIN `, the base64 encoding of the `|u|+|p|+2` bytes `\0 u \0 p`, and
CRLF; decoding the argument gives back exactly `\0 u \0 p`. For `alice` and
`s3cret` that string has 13 bytes and the argument is `AGFsaWNlAHMzY3JldA==`. -/
theorem authenticateWithMethodPlain_sends_one_command (E : ErrorCodes) (s : SMTPClientBase)
    (u p : List Char) (hu : NulFree u) (hp : NulFree p)
    (hub : IsByteString u) (hpb : IsByteString p)
    (hc : s.mCredential = some { mUsername := u, mPassword := p }) :
    ∃ r, authenticateWithMethodPlain E s = some r
      ∧ r.2.sent = s.sent
          ++ ["AUTH PLAIN ".toList
                ++ Base64.Encode ([NUL] ++ u ++ [NUL] ++ p) (u.length + p.length + 2)
                ++ "\r\n".toList]
      ∧ ([NUL] ++ u ++ [NUL] ++ p).length = u.length + p.length + 2
      ∧ Base64.Decode (Base64.Encode ([NUL] ++ u ++ [NUL] ++ p) (u.length + p.length + 2))
          = some ([NUL] ++ u ++ [NUL] ++ p)
      ∧ (u = "alice".toList → p = "s3cret".toList →
          ([NUL] ++ u ++ [NUL] ++ p).length = 13
            ∧ Base64.Encode ([NUL] ++ u ++ [NUL] ++ p) (u.length + p.length + 2)
              = "AGFsaWNlAHMzY3JldA==".toList) := by
  have hlen : ([NUL] ++ u ++ [NUL] ++ p).length = u.length + p.length + 2 := by
    simp only [List.length_append, List.length_singleton]; omega
  have e1 : (addCommunicationLogItem "AUTH PLAIN ***************\r\n".toList "c".toList
      s).mCredential = some { mUsername := u, mPassword := p } := hc
  have hgu : ({ mUsername := u, mPassword := p } : Credential).getUsername = u :=
    cstr_of_NulFree hu
  have hgp : ({ mUsername := u, mPassword := p } : Credential).getPassword = p :=
    cstr_of_NulFree hp
  have hcmd : NulFree ("AUTH PLAIN ".toList
      ++ Base64.Encode ([NUL] ++ u ++ [NUL] ++ p) (u.length + p.length + 2) ++ "\r\n".toList) :=
    NulFree_append (NulFree_append (by decide) (b64EncodeBytes_NulFree _)) (by decide)
  have hauth : authenticateWithMethodPlain E s
      = some (callSendCommandWithFeedbackPtr ("AUTH PLAIN ".toList
          ++ Base64.Encode ([NUL] ++ u ++ [NUL] ++ p) (u.length + p.length + 2)
          ++ "\r\n".toList) E.CLIENT_AUTHENTICATE_ERROR E.CLIENT_AUTHENTICATE_TIMEOUT
          (addCommunicationLogItem "AUTH PLAIN ***************\r\n".toList "c".toList s)) := by
    unfold authenticateWithMethodPlain
    simp only [e1, hgu, hgp, strlen_of_NulFree hu, strlen_of_NulFree hp]
  refine ⟨_, hauth, ?_, hlen, ?_, ?_⟩
  · rw [callSendCommandWithFeedbackPtr_eq, sendRawCommandTimeout_sent, cstr_of_NulFree hcmd]
    rfl
  · have hbytes : IsByteString ([NUL] ++ u ++ [NUL] ++ p) := by
      intro c hc
      simp only [List.mem_append, List.mem_singleton] at hc
      rcases hc with ((rfl | h) | rfl) | h
      · decide
      · exact hub c h
      · decide
      · exact hpb c h
    rw [Base64_Decode_Encode _ _ hbytes, ← hlen, List.take_length]
  · intro h1 h2
    subst h1 h2
    exact ⟨by decide, by decide⟩

theorem authenticateWithMethodPlain_sends_one_command_witness :
    ∃ r, authenticateWithMethodPlain sampleCodes aliceClient = some r
      ∧ r.2.sent = aliceClient.sent ++ ["AUTH PLAIN AGFsaWNlAHMzY3JldA==\r\n".toList]
      ∧ ([NUL] ++ "alice".toList ++ [NUL] ++ "s3cret".toList).length = 13
      ∧ Base64.Decode "AGFsaWNlAHMzY3JldA==".toList
          = some ([NUL] ++ "alice".toList ++ [NUL] ++ "s3cret".toList) :=
  (authenticateWithMethodPlain_sends_one_command sampleCodes aliceClient
    "alice".toList "s3cret".toList (by decide) (by decide) (by decide) (by decide) rfl).imp
    (fun _ h => ⟨h.1, h.2.1, (h.2.2.2.2 rfl rfl).1, h.2.2.2.1⟩)

set_option maxRecDepth 100000 in
/-- C7 (the length in the example): for `alice` / `s3cret` the command that
`authenticateWithMethodPlain` sends is `AUTH PLAIN AGFsaWNlAHMzY3JldA==` and
CRLF; its argument decodes to `\0alice\0s3cret`, which has 13 bytes, the
length `strlen(u) + strlen(p) + 2` that the code passes to `Base64::Encode`,
and not 14. -/
theorem authenticateWithMethodPlain_alice_payload_has_13_bytes :
    (authenticateWithMethodPlain sampleCodes aliceClient).map (fun r => r.2.sent)
        = some [("AUTH PLAIN ".toList ++ "AGFsaWNlAHMzY3JldA==".toList) ++ "\r\n".toList]
      ∧ Base64.Decode "AGFsaWNlAHMzY3JldA==".toList
        = some ([NUL] ++ "alice".toList ++ [NUL] ++ "s3cret".toList)
      ∧ ([NUL] ++ "alice".toList ++ [NUL] ++ "s3cret".toList).length = 13
      ∧ ([NUL] ++ "alice".toList ++ [NUL] ++ "s3cret".toList).length ≠ 14
      ∧ strlen aliceCredential.getUsername + strlen aliceCredential.getPassword + 2 = 13 := by
  refine ⟨by decide, by decide, by decide, by decide, by decide⟩

/-! ### The choice of the authentication method -/

theorem feedback_sent (cmd : List Char) (e t : Int) (s : SMTPClientBase) :
    (callSendCommandWithFeedbackPtr cmd e t s).2.sent = s.sent ++ [cstr cmd] := by
  rw [callSendCommandWithFeedbackPtr_eq, sendRawCommandTimeout_sent]

theorem authenticateWithMethodPlain_sent (E : ErrorCodes) (s : SMTPClientBase) (c : Credential)
    (hc : s.mCredential = some c) :
    ∃ r, authenticateWithMethodPlain E s = some r ∧ r.2.sent = s.sent ++ [authPlainCommand c] := by
  have e1 : (addCommunicationLogItem "AUTH PLAIN ***************\r\n".toList "c".toList
      s).mCredential = some c := hc
  have hcmd : NulFree (authPlainCommand c) :=
    NulFree_append (NulFree_append (by decide) (b64EncodeBytes_NulFree _)) (by decide)
  have hauth : authenticateWithMethodPlain E s
      = some (callSendCommandWithFeedbackPtr (authPlainCommand c)
          E.CLIENT_AUTHENTICATE_ERROR E.CLIENT_AUTHENTICATE_TIMEOUT
          (addCommunicationLogItem "AUTH PLAIN ***************\r\n".toList "c".toList s)) := by
    unfold authenticateWithMethodPlain
    simp only [e1]
    rfl
  refine ⟨_, hauth, ?_⟩
  rw [feedback_sent, cstr_of_NulFree hcmd]
  rfl

theorem authenticateWithMethodLogin_sent (E : ErrorCodes) (s : SMTPClientBase) (c : Credential)
    (hc : s.mCredential = some c) :
    ∃ r rest, authenticateWithMethodLogin E s = some r
      ∧ r.2.sent = s.sent ++ "AUTH LOGIN\r\n".toList :: rest := by
  have hlit : cstr "AUTH LOGIN\r\n".toList = "AUTH LOGIN\r\n".toList := by decide
  have k1 := feedback_sent "AUTH LOGIN\r\n".toList
    E.CLIENT_AUTHENTICATE_ERROR E.CLIENT_AUTHENTICATE_TIMEOUT
    (addCommunicationLogItem "AUTH LOGIN ***************\r\n".toList "c".toList s)
  have m1 := feedback_mCredential "AUTH LOGIN\r\n".toList
    E.CLIENT_AUTHENTICATE_ERROR E.CLIENT_AUTHENTICATE_TIMEOUT
    (addCommunicationLogItem "AUTH LOGIN ***************\r\n".toList "c".toList s)
  rw [addCommunicationLogItem_mCredential, hc] at m1
  rw [addCommunicationLogItem_sent, hlit] at k1
  unfold authenticateWithMethodLogin
  simp only []
  generalize callSendCommandWithFeedbackPtr "AUTH LOGIN\r\n".toList
    E.CLIENT_AUTHENTICATE_ERROR E.CLIENT_AUTHENTICATE_TIMEOUT
    (addCommunicationLogItem "AUTH LOGIN ***************\r\n".toList "c".toList s) = ra at k1 m1
  by_cases hA : ra.1 ≠ STATUS_CODE_SERVER_CHALLENGE
  · rw [if_pos hA]
    exact ⟨_, [], rfl, k1⟩
  · rw [if_neg hA]
    simp only [m1]
    have k2 := feedback_sent (Base64.Encode c.getUsername (strlen c.getUsername) ++ "\r\n".toList)
      E.CLIENT_AUTHENTICATE_ERROR E.CLIENT_AUTHENTICATE_TIMEOUT ra.2
    have m2 := feedback_mCredential
      (Base64.Encode c.getUsername (strlen c.getUsername) ++ "\r\n".toList)
      E.CLIENT_AUTHENTICATE_ERROR E.CLIENT_AUTHENTICATE_TIMEOUT ra.2
    rw [m1] at m2
    rw [k1] at k2
    generalize callSendCommandWithFeedbackPtr
      (Base64.Encode c.getUsername (strlen c.getUsername) ++ "\r\n".toList)
      E.CLIENT_AUTHENTICATE_ERROR E.CLIENT_AUTHENTICATE_TIMEOUT ra.2 = rb at k2 m2
    by_cases hB : rb.1 ≠ STATUS_CODE_SERVER_CHALLENGE
    · rw [if_pos hB]
      exact ⟨_, [cstr (Base64.Encode c.getUsername (strlen c.getUsername) ++ "\r\n".toList)],
        rfl, by rw [k2]; simp⟩
    · rw [if_neg hB]
      simp only [m2]
      have k3 := feedback_sent
        (Base64.Encode c.getPassword (strlen c.getPassword) ++ "\r\n".toList)
        E.CLIENT_AUTHENTICATE_ERROR E.CLIENT_AUTHENTICATE_TIMEOUT rb.2
      rw [k2] at k3
      exact ⟨_, [cstr (Base64.Encode c.getUsername (strlen c.getUsername) ++ "\r\n".toList),
        cstr (Base64.Encode c.getPassword (strlen c.getPassword) ++ "\r\n".toList)],
        rfl, by rw [k3]; simp⟩

/-- C8: with a capability set present, `authenticateClient` returns the
no-need sentinel and leaves the client untouched (nothing sent) when no
credentials are set; with credentials it runs `authenticateWithMethodPlain`
whenever Plain is offered (also when Login is offered too), which sends the
`AUTH PLAIN` command; it runs `authenticateWithMethodLogin` when Login is
offered and Plain is not, which sends `AUTH LOGIN` first; and it returns
method-not-supported with the client untouched when neither is offered,
whatever the other flags are. -/
theorem authenticateClient_selects_method (E : ErrorCodes) (s : SMTPClientBase)
    (opts : ServerAuthOptions) (ho : s.mAuthOptions = some opts) :
    (s.mCredential = none → authenticateClient E s = some (E.CLIENT_AUTHENTICATE_NONEED, s))
      ∧ ∀ c, s.mCredential = some c →
          (opts.Plain = true →
            authenticateClient E s = authenticateWithMethodPlain E s
              ∧ ∃ r, authenticateClient E s = some r ∧ r.2.sent = s.sent ++ [authPlainCommand c])
          ∧ (opts.Plain = false → opts.Login = true →
            authenticateClient E s = authenticateWithMethodLogin E s
              ∧ ∃ r rest, authenticateClient E s = some r
                  ∧ r.2.sent = s.sent ++ "AUTH LOGIN\r\n".toList :: rest)
          ∧ (opts.Plain = false → opts.Login = false →
            authenticateClient E s
              = some (E.CLIENT_AUTHENTICATION_METHOD_NOTSUPPORTED, s)) := by
  constructor
  · intro hn
    unfold authenticateClient
    rw [hn]
  · intro c hc
    rw [authenticateClient_with_credential E s c opts hc ho]
    refine ⟨?_, ?_, ?_⟩
    · intro hp
      rw [if_pos hp]
      exact ⟨rfl, authenticateWithMethodPlain_sent E s c hc⟩
    · intro hp hl
      rw [if_neg (by rw [hp]; exact Bool.false_ne_true), if_pos hl]
      exact ⟨rfl, authenticateWithMethodLogin_sent E s c hc⟩
    · intro hp hl
      rw [if_neg (by rw [hp]; exact Bool.false_ne_true),
        if_neg (by rw [hl]; exact Bool.false_ne_true)]

theorem authenticateClient_selects_method_witness :
    aliceClient.mAuthOptions = some ⟨true, false, false, false, false, false⟩
      ∧ authenticateClient sampleCodes aliceClient
          = authenticateWithMethodPlain sampleCodes aliceClient :=
  ⟨rfl,
   (((authenticateClient_selects_method sampleCodes aliceClient
      ⟨true, false, false, false, false, false⟩ rfl).2 aliceCredential rfl).1 rfl).1⟩
/-! ### The status code of a reply -/

/-- C9: `extractReturnCode` returns -1 for a null reply and for every reply
shorter than three bytes, and for every reply whose first three bytes are the
ASCII digits `d1 d2 d3` it returns `100*d1 + 10*d2 + d3`, whatever follows;
the `std::string` wrappers of the C++ facades forward to it. -/
theorem extractReturnCode_leading_digits :
    extractReturnCode none = -1
      ∧ (∀ buf : List Char, strlen buf < 3 → extractReturnCode (some buf) = -1)
      ∧ (∀ (c1 c2 c3 : Char) (rest : List Char),
          isdigit c1 = true → isdigit c2 = true → isdigit c3 = true →
          extractReturnCode (some (c1 :: c2 :: c3 :: rest))
            = 100 * ((c1.toNat : Int) - 48) + 10 * ((c2.toNat : Int) - 48)
                + ((c3.toNat : Int) - 48))
      ∧ (∀ pOutput : List Char, cppExtractReturnCode pOutput = extractReturnCode (some pOutput)) := by
  refine ⟨rfl, ?_, ?_, fun _ => rfl⟩
  · intro buf h
    show (if strlen buf ≥ 3 then _ else (-1 : Int)) = -1
    rw [if_neg (by omega)]
  · intro c1 c2 c3 rest h1 h2 h3
    have hc : cstr (c1 :: c2 :: c3 :: rest) = c1 :: c2 :: c3 :: cstr rest := by
      rw [cstr_cons_ne _ _ (isdigit_ne_NUL h1), cstr_cons_ne _ _ (isdigit_ne_NUL h2),
        cstr_cons_ne _ _ (isdigit_ne_NUL h3)]
    have hl : strlen (c1 :: c2 :: c3 :: rest) ≥ 3 := by
      unfold strlen; rw [hc]; simp
    show (if strlen (c1 :: c2 :: c3 :: rest) ≥ 3 then
        (match stoi ((cstr (c1 :: c2 :: c3 :: rest)).take 3) with
          | some v => v
          | none => -1)
      else (-1 : Int)) = _
    rw [if_pos hl, hc]
    simp only [List.take_succ_cons, List.take_zero, stoi_three_digits h1 h2 h3]

theorem extractReturnCode_leading_digits_witness :
    extractReturnCode (some "250 OK\r\n".toList) = 250
      ∧ extractReturnCode (some "xy".toList) = -1
      ∧ extractReturnCode (some []) = -1 :=
  ⟨extractReturnCode_leading_digits.2.2.1 '2' '5' '0' " OK\r\n".toList
      (by decide) (by decide) (by decide),
   extractReturnCode_leading_digits.2.1 "xy".toList (by decide),
   extractReturnCode_leading_digits.2.1 [] (by decide)⟩

/-- C10 (the code on replies whose first three bytes are not all digits):
`std::stoi` skips leading white space, accepts a sign and stops at the first
non-digit, so `extractReturnCode` returns 2 for `2xy`, 25 for ` 25` and for
`+25`, -12 for `-12` and 7 for `7 x`, not -1. It returns -1 through its catch
branch only when `std::stoi` finds no digit to read, as for `abc` and `x25`. -/
theorem extractReturnCode_accepts_partial_numbers :
    extractReturnCode (some "2xy".toList) = 2
      ∧ extractReturnCode (some " 25 ok".toList) = 25
      ∧ extractReturnCode (some "+25".toList) = 25
      ∧ extractReturnCode (some "-12".toList) = -12
      ∧ extractReturnCode (some "7 x".toList) = 7
      ∧ extractReturnCode (some "abc".toList) = -1
      ∧ extractReturnCode (some "x25".toList) = -1 := by
  decide
/-! ### Runs on which the code leaves the specified behaviour -/

set_option maxRecDepth 100000 in
/-- C1 (the code on a reply with status 0): the server answers `000 ?` to
`MAIL FROM`; `extractReturnCode` gives 0, which `setMailRecipients` returns as
the step result, so no `RCPT TO` is issued, yet all three steps and `sendMail`
return 0. The log then holds `MAIL FROM`, `DATA`, the end-of-data marker and
`QUIT` but no `RCPT TO` entry, although the message has a recipient. -/
theorem sendMail_zero_status_skips_recipients :
    (setMailRecipients sampleCodes sampleMessage zeroStatusClient).1 = 0
      ∧ (setMailHeaders sampleCodes sampleMessage
          (setMailRecipients sampleCodes sampleMessage zeroStatusClient).2).1 = 0
      ∧ (setMailBody sampleCodes sampleMessage
          (setMailHeaders sampleCodes sampleMessage
            (setMailRecipients sampleCodes sampleMessage zeroStatusClient).2).2).1 = 0
      ∧ (sendMail sampleCodes alreadyConnected sampleMessage zeroStatusClient).1 = 0
      ∧ (sendMail sampleCodes alreadyConnected sampleMessage zeroStatusClient).2.mCommunicationLog
          = ("\nc: MAIL FROM: <a@x.org>\\r\\n\ns: 000 ?\r\nc: DATA\\r\\n\ns: 354 go\r"
              ++ "\nc: From: \"\" <a@x.org>\\r\\n\nc: To: b@y.org\\r\\n\nc: Subject: Hi\\r\\n"
              ++ "\nc: Content-Type: multipart/mixed; boundary=sep\\r\\n\\r\\n"
              ++ "\nc: --sep\\r\\nContent-Type: text/plain; charset=UTF-8\\r\\n\\r\\nHello\\r\\n"
              ++ "\nc: \\r\\n.\\r\\n\ns: 250 queued\r\nc: QUIT\\r\\n").toList := by
  decide

set_option maxRecDepth 100000 in
/-- C3 (the code after a rejected recipient): with two To recipients and the
replies 250 to `MAIL FROM`, 550 to the first `RCPT TO` and 250 to the second,
`sendMail` returns 550 and sends no `DATA`, but the `std::for_each` of
`addMailRecipients` still sends the second `RCPT TO` after the 550 reply. When
the second reply is a rejection too (551), the code returned is 551, that of
the last rejection. -/
theorem sendMail_keeps_sending_recipients_after_rejection :
    (sendMail sampleCodes alreadyConnected twoRecipientsMessage rejectingFirstClient).1 = 550
      ∧ (sendMail sampleCodes alreadyConnected twoRecipientsMessage rejectingFirstClient).2.sent
          = ["MAIL FROM: <a@x.org>\r\n".toList, "RCPT TO: <b@y.org>\r\n".toList,
             "RCPT TO: <c@y.org>\r\n".toList]
      ∧ (sendMail sampleCodes alreadyConnected twoRecipientsMessage rejectingBothClient).1 = 551
      ∧ (sendMail sampleCodes alreadyConnected twoRecipientsMessage rejectingBothClient).2.sent
          = ["MAIL FROM: <a@x.org>\r\n".toList, "RCPT TO: <b@y.org>\r\n".toList,
             "RCPT TO: <c@y.org>\r\n".toList] := by
  decide

/-- C4 (the code when the server rejects a command): the server answers 550 to
`MAIL FROM`; `sendMail` returns 550 through an early return that does not call
`cleanup`, so the socket handle is still the open handle 3. On the sibling
paths the handle is cleared: after a run that succeeds and after a reply that
times out. -/
theorem sendMail_rejected_reply_skips_cleanup :
    (sendMail sampleCodes alreadyConnected sampleMessage rejectingSenderClient).1 = 550
      ∧ (sendMail sampleCodes alreadyConnected sampleMessage rejectingSenderClient).2.mSock = 3
      ∧ (sendMail sampleCodes alreadyConnected sampleMessage acceptingClient).1 = 0
      ∧ (sendMail sampleCodes alreadyConnected sampleMessage acceptingClient).2.mSock = 0
      ∧ (sendMail sampleCodes alreadyConnected sampleMessage silentClient).1
          = sampleCodes.CLIENT_SENDMAIL_MAILFROM_TIMEOUT
      ∧ (sendMail sampleCodes alreadyConnected sampleMessage silentClient).2.mSock = 0 := by
  decide
/-! ### Runs that see the same replies -/

theorem SameSends.nothing {s1 s2 : SMTPClientBase} (h : SameReplies s1 s2) : SameSends s1 s2 s1 s2 :=
  ⟨h, [], by simp, by simp⟩

theorem SameSends.append {s1 s2 t1 t2 u1 u2 : SMTPClientBase}
    (h1 : SameSends s1 s2 t1 t2) (h2 : SameSends t1 t2 u1 u2) : SameSends s1 s2 u1 u2 := by
  obtain ⟨_, c1, a1, a2⟩ := h1
  obtain ⟨r, c2, b1, b2⟩ := h2
  exact ⟨r, c1 ++ c2, by rw [b1, a1, List.append_assoc], by rw [b2, a2, List.append_assoc]⟩

theorem sendRawCommand_fail (cmd : List Char) (e err : Int) (s : SMTPClientBase)
    (h : s.sendResult s.sendCalls = some err) :
    sendRawCommand cmd e s
      = (e, cleanup (setLastSocketErrNo err
          { s with sendCalls := s.sendCalls + 1, sent := s.sent ++ [cstr cmd] })) := by
  unfold sendRawCommand
  simp only [h, take_strlen]

theorem sendRawCommand_same (cmd : List Char) (e : Int) (s1 s2 : SMTPClientBase)
    (h : SameReplies s1 s2) :
    (sendRawCommand cmd e s1).1 = (sendRawCommand cmd e s2).1
      ∧ SameSends s1 s2 (sendRawCommand cmd e s1).2 (sendRawCommand cmd e s2).2 := by
  obtain ⟨hT, hS, hR⟩ := h
  have h0 : s1.sendResult s1.sendCalls = s2.sendResult s2.sendCalls := by
    have := hS 0; simpa using this
  have hS1 : ∀ i, s1.sendResult (s1.sendCalls + 1 + i) = s2.sendResult (s2.sendCalls + 1 + i) := by
    intro i
    have := hS (1 + i)
    rw [← Nat.add_assoc, ← Nat.add_assoc] at this
    exact this
  cases hres : s2.sendResult s2.sendCalls with
  | none =>
    rw [sendRawCommand_ok cmd e s1 (h0.trans hres), sendRawCommand_ok cmd e s2 hres]
    exact ⟨rfl, ⟨hT, hS1, hR⟩, [cstr cmd], rfl, rfl⟩
  | some err =>
    rw [sendRawCommand_fail cmd e err s1 (h0.trans hres), sendRawCommand_fail cmd e err s2 hres]
    exact ⟨rfl, ⟨hT, hS1, hR⟩, [cstr cmd], rfl, rfl⟩

theorem recvLoop_shift (r1 r2 : Nat → List Char) (T : Nat) :
    ∀ (n1 n2 : Nat), (∀ i, r1 (n1 + i) = r2 (n2 + i)) →
      ∃ k, recvLoop r1 T n1 = ((recvLoop r2 T n2).1, n1 + k) ∧ (recvLoop r2 T n2).2 = n2 + k := by
  induction T with
  | zero => intro n1 n2 _; exact ⟨1, rfl, rfl⟩
  | succ T ih =>
    intro n1 n2 h
    have h0 : r1 n1 = r2 n2 := by have := h 0; simpa using this
    by_cases he : (r2 n2).length = 0
    · have hstep1 : recvLoop r1 (T + 1) n1 = recvLoop r1 T (n1 + 1) := by
        show (if (r1 n1).length = 0 then _ else _) = _
        rw [h0, if_pos he]
      have hstep2 : recvLoop r2 (T + 1) n2 = recvLoop r2 T (n2 + 1) := by
        show (if (r2 n2).length = 0 then _ else _) = _
        rw [if_pos he]
      obtain ⟨k, k1, k2⟩ := ih (n1 + 1) (n2 + 1) (by
        intro i
        have := h (1 + i)
        rw [← Nat.add_assoc, ← Nat.add_assoc] at this
        exact this)
      refine ⟨1 + k, ?_, ?_⟩
      · rw [hstep1, hstep2, k1, Nat.add_assoc]
      · rw [hstep2, k2, Nat.add_assoc]
    · have hstep1 : recvLoop r1 (T + 1) n1 = (some (r1 n1), n1 + 1) := by
        show (if (r1 n1).length = 0 then _ else _) = _
        rw [h0, if_neg he]
      have hstep2 : recvLoop r2 (T + 1) n2 = (some (r2 n2), n2 + 1) := by
        show (if (r2 n2).length = 0 then _ else _) = _
        rw [if_neg he]
      exact ⟨1, by rw [hstep1, hstep2, h0], by rw [hstep2]⟩

theorem awaitReply_some (t : Int) (s : SMTPClientBase) (bytes : List Char) (m : Nat)
    (h : recvLoop s.recvResult s.mCommandTimeOut s.recvCalls = (some bytes, m)) :
    awaitReply t s
      = (extractReturnCode (some (bytes.set (bytes.length - 1) NUL)),
         addCommunicationLogItem (bytes.set (bytes.length - 1) NUL) "s".toList
           (setLastServerResponse (bytes.set (bytes.length - 1) NUL)
             { s with recvCalls := m })) := by
  unfold awaitReply
  simp only [h]

theorem awaitReply_none (t : Int) (s : SMTPClientBase) (m : Nat)
    (h : recvLoop s.recvResult s.mCommandTimeOut s.recvCalls = (none, m)) :
    awaitReply t s = (t, cleanup { s with recvCalls := m }) := by
  unfold awaitReply
  simp only [h]

theorem awaitReply_same (t : Int) (s1 s2 : SMTPClientBase) (h : SameReplies s1 s2) :
    (awaitReply t s1).1 = (awaitReply t s2).1
      ∧ SameSends s1 s2 (awaitReply t s1).2 (awaitReply t s2).2 := by
  obtain ⟨hT, hS, hR⟩ := h
  obtain ⟨k, k1, k2⟩ := recvLoop_shift s1.recvResult s2.recvResult s1.mCommandTimeOut
    s1.recvCalls s2.recvCalls hR
  have hR1 : ∀ i, s1.recvResult (s1.recvCalls + k + i) = s2.recvResult (s2.recvCalls + k + i) := by
    intro i
    have := hR (k + i)
    rw [← Nat.add_assoc, ← Nat.add_assoc] at this
    exact this
  cases hp : (recvLoop s2.recvResult s1.mCommandTimeOut s2.recvCalls).1 with
  | none =>
    have e2 : recvLoop s2.recvResult s2.mCommandTimeOut s2.recvCalls = (none, s2.recvCalls + k) := by
      rw [← hT, ← k2, ← hp]
    have e1 : recvLoop s1.recvResult s1.mCommandTimeOut s1.recvCalls = (none, s1.recvCalls + k) := by
      rw [k1, hp]
    rw [awaitReply_none t s1 _ e1, awaitReply_none t s2 _ e2]
    exact ⟨rfl, ⟨hT, hS, hR1⟩, [], by simp [cleanup, clearSocketFileDescriptor],
      by simp [cleanup, clearSocketFileDescriptor]⟩
  | some bytes =>
    have e2 : recvLoop s2.recvResult s2.mCommandTimeOut s2.recvCalls
        = (some bytes, s2.recvCalls + k) := by
      rw [← hT, ← k2, ← hp]
    have e1 : recvLoop s1.recvResult s1.mCommandTimeOut s1.recvCalls
        = (some bytes, s1.recvCalls + k) := by
      rw [k1, hp]
    rw [awaitReply_some t s1 _ _ e1, awaitReply_some t s2 _ _ e2]
    exact ⟨rfl, ⟨hT, hS, hR1⟩, [], by simp [setLastServerResponse],
      by simp [setLastServerResponse]⟩
theorem feedback_same (cmd : List Char) (e t : Int) (s1 s2 : SMTPClientBase)
    (h : SameReplies s1 s2) :
    (callSendCommandWithFeedbackPtr cmd e t s1).1 = (callSendCommandWithFeedbackPtr cmd e t s2).1
      ∧ SameSends s1 s2 (callSendCommandWithFeedbackPtr cmd e t s1).2
          (callSendCommandWithFeedbackPtr cmd e t s2).2 := by
  rw [callSendCommandWithFeedbackPtr_eq, callSendCommandWithFeedbackPtr_eq,
    sendRawCommandTimeout_eq, sendRawCommandTimeout_eq]
  obtain ⟨g1, g2⟩ := sendRawCommand_same cmd e s1 s2 h
  rw [g1]
  split
  · exact ⟨rfl, g2⟩
  · obtain ⟨k1, k2⟩ := awaitReply_same t _ _ g2.1
    exact ⟨k1, g2.append k2⟩

theorem send_same (cmd : List Char) (e : Int) (s1 s2 : SMTPClientBase)
    (h : SameReplies s1 s2) :
    (callSendCommandPtr cmd e s1).1 = (callSendCommandPtr cmd e s2).1
      ∧ SameSends s1 s2 (callSendCommandPtr cmd e s1).2 (callSendCommandPtr cmd e s2).2 := by
  rw [callSendCommandPtr_eq, callSendCommandPtr_eq]
  exact sendRawCommand_same cmd e s1 s2 h

theorem logged_feedback_same (item cmd : List Char) (e t : Int) (s1 s2 : SMTPClientBase)
    (h : SameReplies s1 s2) :
    (callSendCommandWithFeedbackPtr cmd e t (addCommunicationLogItem item "c".toList s1)).1
        = (callSendCommandWithFeedbackPtr cmd e t (addCommunicationLogItem item "c".toList s2)).1
      ∧ SameSends s1 s2
          (callSendCommandWithFeedbackPtr cmd e t (addCommunicationLogItem item "c".toList s1)).2
          (callSendCommandWithFeedbackPtr cmd e t (addCommunicationLogItem item "c".toList s2)).2 :=
  feedback_same cmd e t (addCommunicationLogItem item "c".toList s1)
    (addCommunicationLogItem item "c".toList s2) h

theorem logged_send_same (item cmd : List Char) (e : Int) (s1 s2 : SMTPClientBase)
    (h : SameReplies s1 s2) :
    (callSendCommandPtr cmd e (addCommunicationLogItem item "c".toList s1)).1
        = (callSendCommandPtr cmd e (addCommunicationLogItem item "c".toList s2)).1
      ∧ SameSends s1 s2
          (callSendCommandPtr cmd e (addCommunicationLogItem item "c".toList s1)).2
          (callSendCommandPtr cmd e (addCommunicationLogItem item "c".toList s2)).2 :=
  send_same cmd e (addCommunicationLogItem item "c".toList s1)
    (addCommunicationLogItem item "c".toList s2) h

theorem addMailHeader_same (field value : List Char) (e : Int) (s1 s2 : SMTPClientBase)
    (h : SameReplies s1 s2) :
    (addMailHeader field value e s1).1 = (addMailHeader field value e s2).1
      ∧ SameSends s1 s2 (addMailHeader field value e s1).2 (addMailHeader field value e s2).2 :=
  logged_send_same _ _ e s1 s2 h

theorem setMailHeadersForEach_same (E : ErrorCodes) (field : List Char)
    (list : List MessageAddress) :
    ∀ (s1 s2 : SMTPClientBase), SameReplies s1 s2 →
      SameSends s1 s2 (setMailHeadersForEach E field list s1)
        (setMailHeadersForEach E field list s2) := by
  induction list with
  | nil => intro s1 s2 h; exact SameSends.nothing h
  | cons a l ih =>
    intro s1 s2 h
    obtain ⟨_, g⟩ := addMailHeader_same field a.getEmailAddress
      E.CLIENT_SENDMAIL_HEADERTOANDCC_ERROR s1 s2 h
    exact g.append (ih _ _ g.1)

theorem setMailHeadersLoop_same (E : ErrorCodes)
    (items : List (Option (List MessageAddress) × List Char)) :
    ∀ (s1 s2 : SMTPClientBase), SameReplies s1 s2 →
      SameSends s1 s2 (setMailHeadersLoop E items s1) (setMailHeadersLoop E items s2) := by
  induction items with
  | nil => intro s1 s2 h; exact SameSends.nothing h
  | cons item rest ih =>
    intro s1 s2 h
    obtain ⟨list, field⟩ := item
    cases list with
    | none => exact ih s1 s2 h
    | some l =>
      have g := setMailHeadersForEach_same E field l s1 s2 h
      exact g.append (ih _ _ g.1)

theorem setMailHeaders_same (E : ErrorCodes) (pMsg : Message) (s1 s2 : SMTPClientBase)
    (h : SameReplies s1 s2) :
    (setMailHeaders E pMsg s1).1 = (setMailHeaders E pMsg s2).1
      ∧ SameSends s1 s2 (setMailHeaders E pMsg s1).2 (setMailHeaders E pMsg s2).2 := by
  unfold setMailHeaders
  simp only []
  obtain ⟨d1, d2⟩ := logged_feedback_same "DATA\r\n".toList "DATA\r\n".toList
    E.CLIENT_SENDMAIL_DATA_ERROR E.CLIENT_SENDMAIL_DATA_TIMEOUT s1 s2 h
  generalize callSendCommandWithFeedbackPtr "DATA\r\n".toList E.CLIENT_SENDMAIL_DATA_ERROR
    E.CLIENT_SENDMAIL_DATA_TIMEOUT (addCommunicationLogItem "DATA\r\n".toList "c".toList s1) = ra
    at d1 d2
  generalize callSendCommandWithFeedbackPtr "DATA\r\n".toList E.CLIENT_SENDMAIL_DATA_ERROR
    E.CLIENT_SENDMAIL_DATA_TIMEOUT (addCommunicationLogItem "DATA\r\n".toList "c".toList s2) = rb
    at d1 d2
  rw [d1]
  by_cases hA : rb.1 ≠ STATUS_CODE_START_MAIL_INPUT
  · rw [if_pos hA, if_pos hA]; exact ⟨d1, d2⟩
  · rw [if_neg hA, if_neg hA]
    obtain ⟨f1, f2⟩ := addMailHeader_same "From".toList
      ("\"".toList ++ pMsg.getFrom.getDisplayName ++ "\" <".toList
        ++ pMsg.getFrom.getEmailAddress ++ ">".toList)
      E.CLIENT_SENDMAIL_HEADERFROM_ERROR ra.2 rb.2 d2.1
    generalize addMailHeader "From".toList
      ("\"".toList ++ pMsg.getFrom.getDisplayName ++ "\" <".toList
        ++ pMsg.getFrom.getEmailAddress ++ ">".toList)
      E.CLIENT_SENDMAIL_HEADERFROM_ERROR ra.2 = rc at f1 f2
    generalize addMailHeader "From".toList
      ("\"".toList ++ pMsg.getFrom.getDisplayName ++ "\" <".toList
        ++ pMsg.getFrom.getEmailAddress ++ ">".toList)
      E.CLIENT_SENDMAIL_HEADERFROM_ERROR rb.2 = rd at f1 f2
    rw [f1]
    by_cases hB : rd.1 ≠ 0
    · rw [if_pos hB, if_pos hB]; exact ⟨f1, d2.append f2⟩
    · rw [if_neg hB, if_neg hB]
      have l := setMailHeadersLoop_same E
        [(pMsg.getTo, "To".toList), (pMsg.getCc, "Cc".toList)] rc.2 rd.2 f2.1
      generalize setMailHeadersLoop E [(pMsg.getTo, "To".toList), (pMsg.getCc, "Cc".toList)]
        rc.2 = sc at l
      generalize setMailHeadersLoop E [(pMsg.getTo, "To".toList), (pMsg.getCc, "Cc".toList)]
        rd.2 = sd at l
      obtain ⟨u1, u2⟩ := logged_send_same
        ("Subject: ".toList ++ pMsg.getSubject ++ "\r\n".toList)
        ("Subject: ".toList ++ pMsg.getSubject ++ "\r\n".toList)
        E.CLIENT_SENDMAIL_HEADERSUBJECT_ERROR sc sd l.1
      generalize callSendCommandPtr ("Subject: ".toList ++ pMsg.getSubject ++ "\r\n".toList)
        E.CLIENT_SENDMAIL_HEADERSUBJECT_ERROR
        (addCommunicationLogItem ("Subject: ".toList ++ pMsg.getSubject ++ "\r\n".toList)
          "c".toList sc) = re at u1 u2
      generalize callSendCommandPtr ("Subject: ".toList ++ pMsg.getSubject ++ "\r\n".toList)
        E.CLIENT_SENDMAIL_HEADERSUBJECT_ERROR
        (addCommunicationLogItem ("Subject: ".toList ++ pMsg.getSubject ++ "\r\n".toList)
          "c".toList sd) = rf at u1 u2
      have su : SameSends s1 s2 re.2 rf.2 := ((d2.append f2).append l).append u2
      rw [u1]
      by_cases hC : rf.1 ≠ 0
      · rw [if_pos hC, if_pos hC]; exact ⟨u1, su⟩
      · rw [if_neg hC, if_neg hC]
        obtain ⟨c1, c2⟩ := logged_send_same
          "Content-Type: multipart/mixed; boundary=sep\r\n\r\n".toList
          "Content-Type: multipart/mixed; boundary=sep\r\n\r\n".toList
          E.CLIENT_SENDMAIL_HEADERCONTENTTYPE_ERROR re.2 rf.2 u2.1
        generalize callSendCommandPtr
          "Content-Type: multipart/mixed; boundary=sep\r\n\r\n".toList
          E.CLIENT_SENDMAIL_HEADERCONTENTTYPE_ERROR
          (addCommunicationLogItem "Content-Type: multipart/mixed; boundary=sep\r\n\r\n".toList
            "c".toList re.2) = rg at c1 c2
        generalize callSendCommandPtr
          "Content-Type: multipart/mixed; boundary=sep\r\n\r\n".toList
          E.CLIENT_SENDMAIL_HEADERCONTENTTYPE_ERROR
          (addCommunicationLogItem "Content-Type: multipart/mixed; boundary=sep\r\n\r\n".toList
            "c".toList rf.2) = rh at c1 c2
        rw [c1]
        by_cases hD : rh.1 ≠ 0
        · rw [if_pos hD, if_pos hD]; exact ⟨c1, su.append c2⟩
        · rw [if_neg hD, if_neg hD]; exact ⟨rfl, su.append c2⟩
theorem setMailBodyChunks_same (E : ErrorCodes) (body_real : List Char) (starts : List Nat) :
    ∀ (s1 s2 : SMTPClientBase), SameReplies s1 s2 →
      (setMailBodyChunks E body_real starts s1).1 = (setMailBodyChunks E body_real starts s2).1
        ∧ SameSends s1 s2 (setMailBodyChunks E body_real starts s1).2
            (setMailBodyChunks E body_real starts s2).2 := by
  induction starts with
  | nil => intro s1 s2 h; exact ⟨rfl, SameSends.nothing h⟩
  | cons i0 rest ih =>
    intro s1 s2 h
    obtain ⟨g1, g2⟩ := send_same
      (substr body_real i0
        (if i0 + CHUNK_MAXLENGTH > body_real.length - 1 then body_real.length - i0
         else CHUNK_MAXLENGTH))
      E.CLIENT_SENDMAIL_BODYPART_ERROR s1 s2 h
    unfold setMailBodyChunks
    simp only []
    generalize callSendCommandPtr (substr body_real i0
        (if i0 + CHUNK_MAXLENGTH > body_real.length - 1 then body_real.length - i0
         else CHUNK_MAXLENGTH)) E.CLIENT_SENDMAIL_BODYPART_ERROR s1 = ra at g1 g2
    generalize callSendCommandPtr (substr body_real i0
        (if i0 + CHUNK_MAXLENGTH > body_real.length - 1 then body_real.length - i0
         else CHUNK_MAXLENGTH)) E.CLIENT_SENDMAIL_BODYPART_ERROR s2 = rb at g1 g2
    rw [g1]
    by_cases hA : rb.1 ≠ 0
    · rw [if_pos hA, if_pos hA]; exact ⟨g1, g2⟩
    · rw [if_neg hA, if_neg hA]
      obtain ⟨k1, k2⟩ := ih ra.2 rb.2 g2.1
      exact ⟨k1, g2.append k2⟩

theorem setMailBody_same (E : ErrorCodes) (pMsg : Message) (s1 s2 : SMTPClientBase)
    (h : SameReplies s1 s2) :
    (setMailBody E pMsg s1).1 = (setMailBody E pMsg s2).1
      ∧ SameSends s1 s2 (setMailBody E pMsg s1).2 (setMailBody E pMsg s2).2 := by
  have hpay : ∀ (t1 t2 : SMTPClientBase), SameReplies t1 t2 →
      (if (bodyReal pMsg).length > CHUNK_MAXLENGTH then
          setMailBodyChunks E (bodyReal pMsg) (chunkStarts (bodyReal pMsg).length) t1
        else callSendCommandPtr (bodyReal pMsg) E.CLIENT_SENDMAIL_BODY_ERROR t1).1
        = (if (bodyReal pMsg).length > CHUNK_MAXLENGTH then
          setMailBodyChunks E (bodyReal pMsg) (chunkStarts (bodyReal pMsg).length) t2
        else callSendCommandPtr (bodyReal pMsg) E.CLIENT_SENDMAIL_BODY_ERROR t2).1
      ∧ SameSends t1 t2
          (if (bodyReal pMsg).length > CHUNK_MAXLENGTH then
              setMailBodyChunks E (bodyReal pMsg) (chunkStarts (bodyReal pMsg).length) t1
            else callSendCommandPtr (bodyReal pMsg) E.CLIENT_SENDMAIL_BODY_ERROR t1).2
          (if (bodyReal pMsg).length > CHUNK_MAXLENGTH then
              setMailBodyChunks E (bodyReal pMsg) (chunkStarts (bodyReal pMsg).length) t2
            else callSendCommandPtr (bodyReal pMsg) E.CLIENT_SENDMAIL_BODY_ERROR t2).2 := by
    intro t1 t2 ht
    split
    · exact setMailBodyChunks_same E _ _ t1 t2 ht
    · exact send_same _ _ t1 t2 ht
  obtain ⟨p1, p2⟩ := hpay
    (addCommunicationLogItem ("--sep\r\nContent-Type: ".toList ++ pMsg.getMimeType
      ++ "; charset=UTF-8\r\n\r\n".toList ++ pMsg.getBody ++ "\r\n".toList) "c".toList s1)
    (addCommunicationLogItem ("--sep\r\nContent-Type: ".toList ++ pMsg.getMimeType
      ++ "; charset=UTF-8\r\n\r\n".toList ++ pMsg.getBody ++ "\r\n".toList) "c".toList s2) h
  have p2s : SameSends s1 s2 _ _ := p2
  unfold setMailBody
  simp only []
  generalize (if (bodyReal pMsg).length > CHUNK_MAXLENGTH then
      setMailBodyChunks E (bodyReal pMsg) (chunkStarts (bodyReal pMsg).length)
        (addCommunicationLogItem ("--sep\r\nContent-Type: ".toList ++ pMsg.getMimeType
          ++ "; charset=UTF-8\r\n\r\n".toList ++ pMsg.getBody ++ "\r\n".toList) "c".toList s1)
    else callSendCommandPtr (bodyReal pMsg) E.CLIENT_SENDMAIL_BODY_ERROR
        (addCommunicationLogItem ("--sep\r\nContent-Type: ".toList ++ pMsg.getMimeType
          ++ "; charset=UTF-8\r\n\r\n".toList ++ pMsg.getBody ++ "\r\n".toList) "c".toList s1))
    = ra at p1 p2s
  generalize (if (bodyReal pMsg).length > CHUNK_MAXLENGTH then
      setMailBodyChunks E (bodyReal pMsg) (chunkStarts (bodyReal pMsg).length)
        (addCommunicationLogItem ("--sep\r\nContent-Type: ".toList ++ pMsg.getMimeType
          ++ "; charset=UTF-8\r\n\r\n".toList ++ pMsg.getBody ++ "\r\n".toList) "c".toList s2)
    else callSendCommandPtr (bodyReal pMsg) E.CLIENT_SENDMAIL_BODY_ERROR
        (addCommunicationLogItem ("--sep\r\nContent-Type: ".toList ++ pMsg.getMimeType
          ++ "; charset=UTF-8\r\n\r\n".toList ++ pMsg.getBody ++ "\r\n".toList) "c".toList s2))
    = rb at p1 p2s
  rw [p1]
  by_cases hA : rb.1 ≠ 0
  · rw [if_pos hA, if_pos hA]; exact ⟨p1, p2s⟩
  · rw [if_neg hA, if_neg hA]
    obtain ⟨d1, d2⟩ := logged_feedback_same "\r\n.\r\n".toList "\r\n.\r\n".toList
      E.CLIENT_SENDMAIL_END_DATA_ERROR E.CLIENT_SENDMAIL_END_DATA_TIMEOUT ra.2 rb.2 p2s.1
    generalize callSendCommandWithFeedbackPtr "\r\n.\r\n".toList
      E.CLIENT_SENDMAIL_END_DATA_ERROR E.CLIENT_SENDMAIL_END_DATA_TIMEOUT
      (addCommunicationLogItem "\r\n.\r\n".toList "c".toList ra.2) = rc at d1 d2
    generalize callSendCommandWithFeedbackPtr "\r\n.\r\n".toList
      E.CLIENT_SENDMAIL_END_DATA_ERROR E.CLIENT_SENDMAIL_END_DATA_TIMEOUT
      (addCommunicationLogItem "\r\n.\r\n".toList "c".toList rb.2) = rd at d1 d2
    rw [d1]
    by_cases hB : rd.1 ≠ STATUS_CODE_REQUESTED_MAIL_ACTION_OK_OR_COMPLETED
    · rw [if_pos hB, if_pos hB]; exact ⟨d1, p2s.append d2⟩
    · rw [if_neg hB, if_neg hB]
      obtain ⟨q1, q2⟩ := logged_send_same "QUIT\r\n".toList "QUIT\r\n".toList
        E.CLIENT_SENDMAIL_QUIT_ERROR rc.2 rd.2 d2.1
      generalize callSendCommandPtr "QUIT\r\n".toList E.CLIENT_SENDMAIL_QUIT_ERROR
        (addCommunicationLogItem "QUIT\r\n".toList "c".toList rc.2) = re at q1 q2
      generalize callSendCommandPtr "QUIT\r\n".toList E.CLIENT_SENDMAIL_QUIT_ERROR
        (addCommunicationLogItem "QUIT\r\n".toList "c".toList rd.2) = rf at q1 q2
      rw [q1]
      by_cases hC : rf.1 ≠ 0
      · rw [if_pos hC, if_pos hC]; exact ⟨q1, (p2s.append d2).append q2⟩
      · rw [if_neg hC, if_neg hC]; exact ⟨rfl, (p2s.append d2).append q2⟩
theorem setMailRecipientsLoop_last_sent (E : ErrorCodes) (item : Option (List MessageAddress))
    (s : SMTPClientBase) :
    (setMailRecipientsLoop E 250 [item] s).2.sent
      = s.sent ++ (addresses item).map rcptToCommand := by
  cases item with
  | none => simp [setMailRecipientsLoop, addresses]
  | some list =>
    have h := addMailRecipients_sent E 250 list 250 s
    unfold setMailRecipientsLoop
    simp only []
    split
    · exact h
    · exact h

set_option maxRecDepth 100000 in
/-- After their envelopes, a client that sent `sampleMessage` (one To and one
Bcc recipient) and one that sent it without the blind copy see the same
replies from then on, at different positions of their scripts. -/
theorem sameReplies_after_envelopes :
    SameReplies (setMailRecipients sampleCodes sampleMessage acceptingClient).2
      (setMailRecipients sampleCodes sampleMessageNoBcc acceptingClientOneRecipient).2 := by
  refine ⟨by decide, fun _ => rfl, ?_⟩
  intro i
  have h1 : (setMailRecipients sampleCodes sampleMessage acceptingClient).2.recvCalls = 3 := by
    decide
  have h2 : (setMailRecipients sampleCodes sampleMessageNoBcc
      acceptingClientOneRecipient).2.recvCalls = 2 := by decide
  have r1 : (setMailRecipients sampleCodes sampleMessage acceptingClient).2.recvResult
      = acceptingClient.recvResult :=
    (setMailRecipients_good sampleCodes sampleMessage acceptingClient [354, 250]
      (fun _ => rfl) (by decide)).2.1.recvResult
  have r2 : (setMailRecipients sampleCodes sampleMessageNoBcc
      acceptingClientOneRecipient).2.recvResult = acceptingClientOneRecipient.recvResult :=
    (setMailRecipients_good sampleCodes sampleMessageNoBcc acceptingClientOneRecipient
      [354, 250] (fun _ => rfl) (by decide)).2.1.recvResult
  rw [h1, h2, r1, r2]
  rcases i with _ | _ | i
  · rfl
  · rfl
  · show List.getD _ (3 + (i + 2)) [] = List.getD _ (2 + (i + 2)) []
    rw [List.getD_eq_default _ _ (by simp; omega), List.getD_eq_default _ _ (by simp; omega)]

/-- C6: two messages that differ only in their Bcc list, sent by clients that
see the same replies, get the same result from `setMailHeaders` and from
`setMailBody` and the same bytes are sent in the same order, so no header line
and no part of the DATA payload depends on the Bcc list; while
`setMailRecipients`, when the replies to `MAIL FROM` and to the To and Cc
recipients are 250, sends one `RCPT TO` command for each Bcc address after
those of To and Cc. -/
theorem bcc_in_envelope_only (E : ErrorCodes) (pMsg : Message)
    (bcc1 bcc2 : Option (List MessageAddress)) (s1 s2 : SMTPClientBase)
    (h : SameReplies s1 s2) :
    ((setMailHeaders E { pMsg with mBcc := bcc1 } s1).1
        = (setMailHeaders E { pMsg with mBcc := bcc2 } s2).1
      ∧ SameSends s1 s2 (setMailHeaders E { pMsg with mBcc := bcc1 } s1).2
          (setMailHeaders E { pMsg with mBcc := bcc2 } s2).2)
    ∧ ((setMailBody E { pMsg with mBcc := bcc1 } s1).1
        = (setMailBody E { pMsg with mBcc := bcc2 } s2).1
      ∧ SameSends s1 s2 (setMailBody E { pMsg with mBcc := bcc1 } s1).2
          (setMailBody E { pMsg with mBcc := bcc2 } s2).2)
    ∧ ∀ s : SMTPClientBase,
        (∀ i, i < 1 + (addresses pMsg.getTo ++ addresses pMsg.getCc).length →
          s.sendResult (s.sendCalls + i) = none) →
        repliesAre s.recvResult s.mCommandTimeOut s.recvCalls
          (250 :: List.replicate (addresses pMsg.getTo ++ addresses pMsg.getCc).length 250)
          = true →
        (setMailRecipients E { pMsg with mBcc := bcc1 } s).2.sent
          = s.sent ++ [mailFromCommand pMsg]
            ++ (addresses pMsg.getTo ++ addresses pMsg.getCc).map rcptToCommand
            ++ (addresses bcc1).map rcptToCommand := by
  refine ⟨setMailHeaders_same E { pMsg with mBcc := bcc1 } s1 s2 h,
    setMailBody_same E { pMsg with mBcc := bcc1 } s1 s2 h, ?_⟩
  intro s hs hr
  have hr2 : repliesAre s.recvResult s.mCommandTimeOut s.recvCalls
      (250 :: List.replicate ([pMsg.getTo, pMsg.getCc].flatMap addresses).length 250 ++ [])
      = true := by
    rw [flatMap_two, List.append_nil]; exact hr
  obtain ⟨t, k1, _, k3, _, _⟩ := setMailRecipients_prefix E { pMsg with mBcc := bcc1 } s
    [pMsg.getTo, pMsg.getCc] [bcc1] [] rfl (by rw [flatMap_two]; exact hs) hr2
  rw [k1, setMailRecipientsLoop_last_sent, k3, flatMap_two]
  rfl

theorem bcc_in_envelope_only_witness :
    SameReplies (setMailRecipients sampleCodes sampleMessage acceptingClient).2
        (setMailRecipients sampleCodes sampleMessageNoBcc acceptingClientOneRecipient).2
      ∧ (setMailHeaders sampleCodes { sampleMessage with mBcc := some [addr "c@z.org"] }
            (setMailRecipients sampleCodes sampleMessage acceptingClient).2).1
          = (setMailHeaders sampleCodes { sampleMessage with mBcc := none }
              (setMailRecipients sampleCodes sampleMessageNoBcc
                acceptingClientOneRecipient).2).1
      ∧ SameSends (setMailRecipients sampleCodes sampleMessage acceptingClient).2
          (setMailRecipients sampleCodes sampleMessageNoBcc acceptingClientOneRecipient).2
          (setMailHeaders sampleCodes { sampleMessage with mBcc := some [addr "c@z.org"] }
            (setMailRecipients sampleCodes sampleMessage acceptingClient).2).2
          (setMailHeaders sampleCodes { sampleMessage with mBcc := none }
            (setMailRecipients sampleCodes sampleMessageNoBcc
              acceptingClientOneRecipient).2).2 :=
  ⟨sameReplies_after_envelopes,
   (bcc_in_envelope_only sampleCodes sampleMessage (some [addr "c@z.org"]) none _ _
      sameReplies_after_envelopes).1⟩

/-! ### The authentication options of an EHLO reply -/

theorem splitCRLF_ne_nil (s : List Char) : splitCRLF s ≠ [] := by
  induction s using splitCRLF.induct with
  | case1 => simp [splitCRLF]
  | case2 c => simp [splitCRLF]
  | case3 c d rest h ih => simp [splitCRLF, h]
  | case4 c d rest h ih =>
    rw [splitCRLF, if_neg h]
    cases hs : splitCRLF (d :: rest) <;> simp
  | case5 c d rest h l ls hs ih =>
    rw [splitCRLF, if_neg h]
    cases hs : splitCRLF (d :: rest) <;> simp

theorem find_crlf_cons (c d : Char) (rest : List Char) :
    find (c :: d :: rest) "\r\n".toList
      = if c = '\r' ∧ d = '\n' then some 0
        else (find (d :: rest) "\r\n".toList).map (· + 1) := by
  rw [find]
  by_cases h : c = '\r' ∧ d = '\n'
  · rw [if_pos h, if_pos]
    obtain ⟨rfl, rfl⟩ := h
    simp [List.isPrefixOf]
  · rw [if_neg h, if_neg]
    intro hp
    apply h
    simp [List.isPrefixOf] at hp
    exact ⟨hp.1.symm, hp.2.symm⟩

theorem find_crlf_none (s : List Char) (h : find s "\r\n".toList = none) : splitCRLF s = [s] := by
  induction s using splitCRLF.induct with
  | case1 => rfl
  | case2 c => rfl
  | case3 c d rest hc ih =>
    rw [find_crlf_cons, if_pos hc] at h
    cases h
  | case4 c d rest hc hs ih =>
    exact absurd hs (splitCRLF_ne_nil _)
  | case5 c d rest hc l ls hs ih =>
    rw [find_crlf_cons, if_neg hc] at h
    have h2 : find (d :: rest) "\r\n".toList = none := by
      cases hf : find (d :: rest) "\r\n".toList with
      | none => rfl
      | some i => rw [hf] at h; cases h
    have := ih h2
    rw [hs] at this
    rw [splitCRLF, if_neg hc, hs]
    simp only [List.cons.injEq] at this
    obtain ⟨rfl, rfl⟩ := this
    rfl

theorem find_crlf_some (s : List Char) (i : Nat) (h : find s "\r\n".toList = some i) :
    splitCRLF s = s.take i :: splitCRLF (s.drop (i + 2)) ∧ i + 2 ≤ s.length := by
  induction s using splitCRLF.induct generalizing i with
  | case1 => simp [find, List.isPrefixOf] at h
  | case2 c => simp [find, List.isPrefixOf] at h
  | case3 c d rest hc ih =>
    rw [find_crlf_cons, if_pos hc] at h
    cases h
    rw [splitCRLF, if_pos hc]
    simp
  | case4 c d rest hc hs ih =>
    exact absurd hs (splitCRLF_ne_nil _)
  | case5 c d rest hc l ls hs ih =>
    rw [find_crlf_cons, if_neg hc] at h
    cases hf : find (d :: rest) "\r\n".toList with
    | none => rw [hf] at h; cases h
    | some j =>
      rw [hf] at h
      cases h
      obtain ⟨h1, h2⟩ := ih j hf
      rw [hs] at h1
      rw [splitCRLF, if_neg hc, hs]
      simp only [List.cons.injEq] at h1
      refine ⟨?_, by simp only [List.length_cons] at h2 ⊢; omega⟩
      simp only [List.take_succ_cons, List.drop_succ_cons, List.cons.injEq, true_and]
      exact ⟨h1.1, h1.2⟩

theorem spaceTokens_ne_nil (s : List Char) : spaceTokens s ≠ [] := by
  cases s with
  | nil => simp [spaceTokens]
  | cons c rest =>
    rw [spaceTokens]
    by_cases h : c = ' '
    · rw [if_pos h]; simp
    · rw [if_neg h]
      cases hs : spaceTokens rest <;> simp

theorem find_space_cons (c : Char) (rest : List Char) :
    find (c :: rest) [' '] = if c = ' ' then some 0 else (find rest [' ']).map (· + 1) := by
  rw [find]
  by_cases h : c = ' '
  · rw [if_pos h, if_pos]
    subst h
    simp [List.isPrefixOf]
  · rw [if_neg h, if_neg]
    intro hp
    apply h
    simp [List.isPrefixOf] at hp
    exact hp.symm

theorem find_space_none (s : List Char) (h : find s [' '] = none) : spaceTokens s = [s] := by
  induction s with
  | nil => rfl
  | cons c rest ih =>
    rw [find_space_cons] at h
    by_cases hc : c = ' '
    · rw [if_pos hc] at h; cases h
    · rw [if_neg hc] at h
      have h2 : find rest [' '] = none := by
        cases hf : find rest [' '] with
        | none => rfl
        | some i => rw [hf] at h; cases h
      rw [spaceTokens, if_neg hc, ih h2]

theorem find_space_some (s : List Char) (i : Nat) (h : find s [' '] = some i) :
    spaceTokens s = s.take i :: spaceTokens (s.drop (i + 1)) ∧ i + 1 ≤ s.length := by
  induction s generalizing i with
  | nil => simp [find, List.isPrefixOf] at h
  | cons c rest ih =>
    rw [find_space_cons] at h
    by_cases hc : c = ' '
    · rw [if_pos hc] at h
      cases h
      rw [spaceTokens, if_pos hc]
      simp
    · rw [if_neg hc] at h
      cases hf : find rest [' '] with
      | none => rw [hf] at h; cases h
      | some j =>
        rw [hf] at h
        cases h
        obtain ⟨h1, h2⟩ := ih j hf
        rw [spaceTokens, if_neg hc, h1]
        exact ⟨rfl, by simp only [List.length_cons]; omega⟩

theorem splitOptions_eq (fuel : Nat) (line : List Char) (options : List (List Char))
    (h : line.length < fuel) :
    splitOptions fuel line options = some (options ++ spaceTokens line) := by
  induction fuel generalizing line options with
  | zero => omega
  | succ fuel ih =>
    rw [splitOptions]
    cases hf : find line [' '] with
    | none => rw [find_space_none line hf]
    | some i =>
      obtain ⟨h1, h2⟩ := find_space_some line i hf
      show splitOptions fuel (erase line (i + 1)) (options ++ [substr line 0 i]) = _
      rw [ih _ _ (by simp only [erase, List.length_drop]; omega), h1]
      simp [erase, substr]

theorem foldl_matchOption (options : List (List Char)) (r : ServerAuthOptions) :
    options.foldl matchOption r =
      { Plain := r.Plain || decide ("PLAIN".toList ∈ options)
        Login := r.Login || decide ("LOGIN".toList ∈ options)
        XOAuth2 := r.XOAuth2 || decide ("XOAUTH2".toList ∈ options)
        Plain_ClientToken := r.Plain_ClientToken || decide ("PLAIN-CLIENTTOKEN".toList ∈ options)
        OAuthBearer := r.OAuthBearer || decide ("OAUTHBEARER".toList ∈ options)
        XOAuth := r.XOAuth || decide ("XOAUTH".toList ∈ options) } := by
  induction options generalizing r with
  | nil => cases r; simp
  | cons o rest ih =>
    rw [List.foldl_cons, ih]
    unfold matchOption
    split_ifs with h1 h2 h3 h4 h5 h6
    · subst h1; simp
    · subst h2; simp
    · subst h3; simp
    · subst h4; simp
    · subst h5; simp
    · subst h6; simp
    · have e1 : ("PLAIN".toList = o) = False := eq_false (fun h => h1 h.symm)
      have e2 : ("LOGIN".toList = o) = False := eq_false (fun h => h2 h.symm)
      have e3 : ("XOAUTH2".toList = o) = False := eq_false (fun h => h3 h.symm)
      have e4 : ("PLAIN-CLIENTTOKEN".toList = o) = False := eq_false (fun h => h4 h.symm)
      have e5 : ("OAUTHBEARER".toList = o) = False := eq_false (fun h => h5 h.symm)
      have e6 : ("XOAUTH".toList = o) = False := eq_false (fun h => h6 h.symm)
      simp only [List.mem_cons, e1, e2, e3, e4, e5, e6, false_or]

theorem crlfLines_of_find_none (s : List Char) (h : find s "\r\n".toList = none) :
    crlfLines s = [] := by
  rw [crlfLines, find_crlf_none s h]; rfl

theorem crlfLines_of_find_some (s : List Char) (i : Nat) (h : find s "\r\n".toList = some i) :
    crlfLines s = s.take i :: crlfLines (s.drop (i + 2)) := by
  rw [crlfLines, (find_crlf_some s i h).1, crlfLines]
  cases hs : splitCRLF (List.drop (i + 2) s) with
  | nil => exact absurd hs (splitCRLF_ne_nil _)
  | cons l ls => rfl

theorem substr_prefix_iff (line : List Char) :
    substr line 0 AUTH_LINE_PREFIX.length = AUTH_LINE_PREFIX
      ↔ "250-AUTH".toList.isPrefixOf line = true := by
  rw [List.isPrefixOf_iff_prefix, List.prefix_iff_eq_take]
  exact eq_comm

theorem offeredBy_eq (line : List Char) :
    (spaceTokens line).foldl matchOption ServerAuthOptions.new = offeredBy line := by
  rw [foldl_matchOption]
  simp [ServerAuthOptions.new, offeredBy]

theorem extractAuthenticationOptionsLoop_eq (fuel : Nat) (s : List Char) (h : s.length < fuel) :
    extractAuthenticationOptionsLoop fuel s = some ((firstAuthLine s).map offeredBy) := by
  induction fuel generalizing s with
  | zero => omega
  | succ fuel ih =>
    rw [extractAuthenticationOptionsLoop]
    cases hf : find s "\r\n".toList with
    | none =>
      rw [firstAuthLine, crlfLines_of_find_none s hf]; rfl
    | some i =>
      obtain ⟨-, h2⟩ := find_crlf_some s i hf
      have hl : firstAuthLine s
          = if "250-AUTH".toList.isPrefixOf (s.take i) = true then some (s.take i)
            else firstAuthLine (s.drop (i + 2)) := by
        rw [firstAuthLine, crlfLines_of_find_some s i hf, List.find?_cons]
        cases hp : "250-AUTH".toList.isPrefixOf (s.take i) <;> simp [firstAuthLine]
      show (if substr (substr s 0 i) 0 AUTH_LINE_PREFIX.length = AUTH_LINE_PREFIX then
          (match splitOptions ((substr s 0 i).length + 1) (substr s 0 i) [] with
            | some options => some (some (options.foldl matchOption ServerAuthOptions.new))
            | none => none)
          else extractAuthenticationOptionsLoop fuel (erase s (i + "\r\n".toList.length))) = _
      have hsub : substr s 0 i = s.take i := rfl
      rw [hsub, hl]
      by_cases hp : "250-AUTH".toList.isPrefixOf (s.take i) = true
      · rw [if_pos ((substr_prefix_iff _).2 hp), if_pos hp,
          splitOptions_eq _ _ _ (Nat.lt_succ_self _)]
        show some (some ((spaceTokens (s.take i)).foldl matchOption ServerAuthOptions.new)) = _
        rw [offeredBy_eq]; rfl
      · rw [if_neg (fun h => hp ((substr_prefix_iff _).1 h)), if_neg hp]
        have h2len : "\r\n".toList.length = 2 := rfl
        exact ih _ (by simp only [erase, List.length_drop, h2len]; omega)

/-- C11: `extractAuthenticationOptions` returns the null pointer for the null
pointer. For every EHLO reply text, read as a C string, its loop ends within
the passes it is given and the result is decided by the first CRLF-terminated
line that begins with `250-AUTH`: without such a line (in particular when no
line at all begins with `250-AUTH`) the result is the null pointer, and with
one the result is an object in which each of the flags Plain, Login, XOAuth2,
Plain_ClientToken, OAuthBearer and XOAuth is true exactly when PLAIN, LOGIN,
XOAUTH2, PLAIN-CLIENTTOKEN, OAUTHBEARER or XOAUTH, respectively, is one of the
space-separated tokens of that line; other tokens set nothing. -/
theorem extractAuthenticationOptions_first_auth_line :
    extractAuthenticationOptions none = none
      ∧ ∀ text : List Char,
          extractAuthenticationOptionsLoop ((cstr text).length + 1) (cstr text)
              = some ((firstAuthLine (cstr text)).map offeredBy)
            ∧ extractAuthenticationOptions (some text)
              = (firstAuthLine (cstr text)).map offeredBy
            ∧ ((∀ line ∈ crlfLines (cstr text), ¬ "250-AUTH".toList <+: line) →
                extractAuthenticationOptions (some text) = none)
            ∧ (∀ before line after,
                crlfLines (cstr text) = before ++ line :: after →
                "250-AUTH".toList <+: line →
                (∀ l ∈ before, ¬ "250-AUTH".toList <+: l) →
                ∃ r, extractAuthenticationOptions (some text) = some r
                  ∧ (r.Plain = true ↔ "PLAIN".toList ∈ spaceTokens line)
                  ∧ (r.Login = true ↔ "LOGIN".toList ∈ spaceTokens line)
                  ∧ (r.XOAuth2 = true ↔ "XOAUTH2".toList ∈ spaceTokens line)
                  ∧ (r.Plain_ClientToken = true
                      ↔ "PLAIN-CLIENTTOKEN".toList ∈ spaceTokens line)
                  ∧ (r.OAuthBearer = true ↔ "OAUTHBEARER".toList ∈ spaceTokens line)
                  ∧ (r.XOAuth = true ↔ "XOAUTH".toList ∈ spaceTokens line)) := by
  refine ⟨rfl, fun text => ?_⟩
  have hloop := extractAuthenticationOptionsLoop_eq ((cstr text).length + 1) (cstr text)
    (Nat.lt_succ_self _)
  have hres : extractAuthenticationOptions (some text)
      = (firstAuthLine (cstr text)).map offeredBy := by
    show (match extractAuthenticationOptionsLoop ((cstr text).length + 1) (cstr text) with
      | some retVal => retVal
      | none => none) = _
    rw [hloop]
  refine ⟨hloop, hres, ?_, ?_⟩
  · intro hno
    rw [hres, firstAuthLine]
    have : List.find? (fun line => "250-AUTH".toList.isPrefixOf line) (crlfLines (cstr text))
        = none := by
      rw [List.find?_eq_none]
      intro l hl
      have := hno l hl
      simpa [List.isPrefixOf_iff_prefix] using this
    rw [this]; rfl
  · intro before line after hsplit hline hbefore
    have hfirst : firstAuthLine (cstr text) = some line := by
      rw [firstAuthLine, hsplit, List.find?_append]
      have hb : List.find? (fun line => "250-AUTH".toList.isPrefixOf line) before = none := by
        rw [List.find?_eq_none]
        intro l hl
        simpa [List.isPrefixOf_iff_prefix] using hbefore l hl
      have : "250-AUTH".toList.isPrefixOf line = true := List.isPrefixOf_iff_prefix.2 hline
      rw [hb, List.find?_cons, this]
      rfl
    refine ⟨offeredBy line, by rw [hres, hfirst]; rfl, ?_⟩
    simp [offeredBy]

/-- C12 (the code on an AUTH line that ends the reply): the last line of an
EHLO reply begins with `250 `, with a space, and `extractAuthenticationOptions`
looks for the prefix `250-AUTH` only. For the reply
`250-localhost\r\n250 AUTH PLAIN LOGIN\r\n`, and for `250 AUTH PLAIN\r\n`, it
returns the null pointer, whereas the same mechanisms on a line that is not the
last give an object with Plain and Login set. -/
theorem extractAuthenticationOptions_misses_last_line :
    extractAuthenticationOptions (some "250-localhost\r\n250 AUTH PLAIN LOGIN\r\n".toList) = none
      ∧ extractAuthenticationOptions (some "250 AUTH PLAIN\r\n".toList) = none
      ∧ extractAuthenticationOptions (some "250-AUTH PLAIN LOGIN\r\n250 localhost\r\n".toList)
        = some { Plain := true, Login := true, XOAuth2 := false, Plain_ClientToken := false,
                 OAuthBearer := false, XOAuth := false } := by
  decide

/-! ### The sends of `setMailBody` -/

theorem recvLoop_calls (r : Nat → List Char) (T n : Nat) : n < (recvLoop r T n).2 := by
  induction T generalizing n with
  | zero => exact Nat.lt_succ_self n
  | succ T ih =>
    rw [recvLoop]
    split
    · exact Nat.lt_trans (Nat.lt_succ_self n) (ih (n + 1))
    · exact Nat.lt_succ_self n

theorem awaitReply_recvCalls (t : Int) (s : SMTPClientBase) :
    (awaitReply t s).2.recvCalls = (recvLoop s.recvResult s.mCommandTimeOut s.recvCalls).2 := by
  cases hp : recvLoop s.recvResult s.mCommandTimeOut s.recvCalls with
  | mk a m =>
    cases a with
    | none => rw [awaitReply_none t s m hp]; rfl
    | some bytes => rw [awaitReply_some t s bytes m hp]; rfl

theorem feedback_polls (cmd : List Char) (e t : Int) (s : SMTPClientBase)
    (h : s.sendResult s.sendCalls = none) :
    s.recvCalls < (callSendCommandWithFeedbackPtr cmd e t s).2.recvCalls := by
  rw [callSendCommandWithFeedbackPtr_eq, sendRawCommandTimeout_eq, sendRawCommand_ok cmd e s h,
    if_neg (fun h => h rfl), awaitReply_recvCalls]
  exact recvLoop_calls _ _ _

set_option maxRecDepth 100000 in
/-- C14 (the code on a message without attachments): `setMailBody` appends the
text of `createAttachmentsText`, which ends with the closing boundary, only
when the message has an attachment. For every message without attachments the
framed text is the body part alone and does not end with `\r\n--sep--`; on
`sampleMessage` the sends are the body part, the end-of-data marker and
`QUIT`. With the attachment of `attachedMessage` the framed text ends with the
closing boundary. -/
theorem setMailBody_without_attachments_omits_closing_boundary :
    (∀ pMsg : Message,
        bodyReal { pMsg with mAttachments := [] }
            = "--sep\r\nContent-Type: ".toList ++ pMsg.getMimeType
              ++ "; charset=UTF-8\r\n\r\n".toList ++ pMsg.getBody ++ "\r\n".toList
          ∧ ¬ "\r\n--sep--".toList <:+ bodyReal { pMsg with mAttachments := [] })
      ∧ (setMailBody sampleCodes sampleMessage bodyAcceptingClient).1 = 0
      ∧ (setMailBody sampleCodes sampleMessage bodyAcceptingClient).2.sent
          = ["--sep\r\nContent-Type: text/plain; charset=UTF-8\r\n\r\nHello\r\n".toList,
             "\r\n.\r\n".toList, "QUIT\r\n".toList]
      ∧ "\r\n--sep--".toList <:+ bodyReal attachedMessage := by
  refine ⟨fun pMsg => ⟨rfl, ?_⟩, by decide, by decide, ?_⟩
  · intro h
    have hb : bodyReal { pMsg with mAttachments := [] }
        = ("--sep\r\nContent-Type: ".toList ++ pMsg.getMimeType
            ++ "; charset=UTF-8\r\n\r\n".toList ++ pMsg.getBody ++ ['\r']) ++ ['\n'] := by
      have h0 : bodyReal { pMsg with mAttachments := [] }
          = "--sep\r\nContent-Type: ".toList ++ pMsg.getMimeType
            ++ "; charset=UTF-8\r\n\r\n".toList ++ pMsg.getBody ++ "\r\n".toList := rfl
      rw [h0, List.append_assoc _ ['\r'] ['\n']]
      rfl
    rw [hb] at h
    obtain ⟨t, ht⟩ := h
    have e : "\r\n--sep--".toList = "\r\n--sep-".toList ++ ['-'] := rfl
    rw [e, ← List.append_assoc] at ht
    have := List.append_inj_right' ht rfl
    exact absurd this (by decide)
  · decide

/-! ### The entries of the communication log -/

theorem replaceCRLF_head (d : Char) (rest r : List Char)
    (h : replaceCRLF (d :: rest) = '\n' :: r) : d = '\n' := by
  cases rest with
  | nil =>
    rw [replaceCRLF] at h
    exact (List.cons.inj h).1
  | cons e rest =>
    rw [replaceCRLF] at h
    split at h
    · exact absurd (List.cons.inj h).1 (by decide)
    · exact (List.cons.inj h).1

theorem replaceCRLF_no_CRLF (s : List Char) : ¬ "\r\n".toList <:+: replaceCRLF s := by
  induction s using replaceCRLF.induct with
  | case1 =>
    intro h
    have := List.IsInfix.length_le h
    simp [replaceCRLF] at this
  | case2 c =>
    intro h
    have := List.IsInfix.length_le h
    simp [replaceCRLF] at this
  | case3 c d rest hcd ih =>
    rw [replaceCRLF, if_pos hcd]
    intro h
    apply ih
    have e : "\r\n".toList = ['\r', '\n'] := rfl
    rw [e] at h ⊢
    simp only [List.infix_cons_iff, List.cons_prefix_cons] at h
    rcases h with h | h | h | h | h
    · exact absurd h.1 (by decide)
    · exact absurd h.1 (by decide)
    · exact absurd h.1 (by decide)
    · exact absurd h.1 (by decide)
    · exact h
  | case4 c d rest hcd ih =>
    rw [replaceCRLF, if_neg hcd]
    intro h
    have e : "\r\n".toList = ['\r', '\n'] := rfl
    rw [e] at h ih
    rw [List.infix_cons_iff] at h
    rcases h with h | h
    · rw [List.cons_prefix_cons] at h
      obtain ⟨h1, t, ht⟩ := h
      exact hcd ⟨h1.symm, replaceCRLF_head d rest t (by simpa using ht.symm)⟩
    · exact ih h

theorem replaceCRLF_eq_intercalate (s : List Char) :
    replaceCRLF s = List.intercalate "\\r\\n".toList (splitCRLF s) := by
  induction s using splitCRLF.induct with
  | case1 => rfl
  | case2 c => rfl
  | case3 c d rest hcd ih =>
    rw [replaceCRLF, if_pos hcd, splitCRLF, if_pos hcd, ih]
    cases hs : splitCRLF rest with
    | nil => exact absurd hs (splitCRLF_ne_nil _)
    | cons l ls => simp [List.intercalate, List.intersperse]
  | case4 c d rest hcd hs ih => exact absurd hs (splitCRLF_ne_nil _)
  | case5 c d rest hcd l ls hs ih =>
    rw [replaceCRLF, if_neg hcd, splitCRLF, if_neg hcd, hs, ih, hs]
    cases ls <;> simp [List.intercalate, List.intersperse]

theorem replaceCRLF_of_find_none (s : List Char) (h : find s "\r\n".toList = none) :
    replaceCRLF s = s := by
  rw [replaceCRLF_eq_intercalate, find_crlf_none s h]
  simp [List.intercalate, List.intersperse]

theorem replaceCRLF_of_find_some (s : List Char) (i : Nat) (h : find s "\r\n".toList = some i) :
    replaceCRLF s = s.take i ++ "\\r\\n".toList ++ replaceCRLF (s.drop (i + 2)) := by
  rw [replaceCRLF_eq_intercalate, (find_crlf_some s i h).1, replaceCRLF_eq_intercalate]
  cases hs : splitCRLF (s.drop (i + 2)) with
  | nil => exact absurd hs (splitCRLF_ne_nil _)
  | cons l ls => simp [List.intercalate, List.intersperse]

theorem replaceCRLFLoop_eq (fuel : Nat) (done rest : List Char) (h : rest.length < fuel) :
    replaceCRLFLoop fuel (done ++ rest) done.length = some (done ++ replaceCRLF rest) := by
  induction fuel generalizing done rest with
  | zero => omega
  | succ fuel ih =>
    rw [replaceCRLFLoop]
    have hfrom : findFrom (done ++ rest) "\r\n".toList done.length
        = (find rest "\r\n".toList).map (· + done.length) := by
      unfold findFrom
      rw [if_pos (by simp), List.drop_left]
    rw [hfrom]
    cases hf : find rest "\r\n".toList with
    | none =>
      rw [replaceCRLF_of_find_none rest hf]; rfl
    | some i =>
      obtain ⟨-, hi⟩ := find_crlf_some rest i hf
      have h2 : "\r\n".toList.length = 2 := rfl
      have h4 : "\\r\\n".toList.length = 4 := rfl
      show replaceCRLFLoop fuel
        (replace (done ++ rest) (i + done.length) "\r\n".toList.length "\\r\\n".toList)
        (i + done.length + "\\r\\n".toList.length) = _
      have hrep : replace (done ++ rest) (i + done.length) "\r\n".toList.length "\\r\\n".toList
          = (done ++ rest.take i ++ "\\r\\n".toList) ++ rest.drop (i + 2) := by
        unfold replace
        rw [h2, Nat.add_comm i done.length, List.take_append, Nat.add_assoc, List.drop_append]
      have hpos : i + done.length + "\\r\\n".toList.length
          = (done ++ rest.take i ++ "\\r\\n".toList).length := by
        simp only [List.length_append, List.length_take, h4]
        omega
      rw [hrep, hpos, ih _ _ (by rw [List.length_drop]; omega),
        replaceCRLF_of_find_some rest i hf]
      simp only [List.append_assoc]

/-- C15: on an initialised log `L`, `addCommunicationLogItem(s, p)` leaves the
log `L ++ "\n" ++ p ++ ": " ++ s'`, with `p` and `s` read as C strings, where
`s'` is `s` when `p` is not `c` and, when `p` is `c`, `s` with every CRLF pair
replaced by backslash, `r`, backslash, `n` (the pieces of `s` between its CRLF
pairs, joined by these four characters; the loop of the source, followed pass
by pass, ends within the passes it is given with this text). This holds in
both branches of the reallocation test, whose outcome only decides the new
buffer size. The log stays initialised, the previous log is a prefix of the
new one, and a client-channel entry contains no CRLF pair. -/
theorem addCommunicationLogItem_appends_entry (pItem pPrefix : List Char) (s : SMTPClientBase)
    (h : LogOk s) :
    (addCommunicationLogItem pItem pPrefix s).mCommunicationLog
        = s.mCommunicationLog ++ "\n".toList ++ cstr pPrefix ++ ": ".toList
          ++ (if cstr pPrefix = "c".toList then
                List.intercalate "\\r\\n".toList (splitCRLF (cstr pItem))
              else cstr pItem)
      ∧ (addCommunicationLogItem pItem pPrefix s).mCommunicationLogSize
        = (if s.mCommunicationLogSize - s.mCommunicationLog.length
              ≤ 1 + strlen pPrefix + 2
                + (if cstr pPrefix = "c".toList then replaceCRLF (cstr pItem)
                   else cstr pItem).length + 1
           then s.mCommunicationLog.length
              + (1 + strlen pPrefix + 2
                + (if cstr pPrefix = "c".toList then replaceCRLF (cstr pItem)
                   else cstr pItem).length + 1) + INITIAL_COMM_LOG_LENGTH
           else s.mCommunicationLogSize)
      ∧ replaceCRLFLoop ((cstr pItem).length + 1) (cstr pItem) 0
        = some (List.intercalate "\\r\\n".toList (splitCRLF (cstr pItem)))
      ∧ LogOk (addCommunicationLogItem pItem pPrefix s)
      ∧ s.mCommunicationLog <+: (addCommunicationLogItem pItem pPrefix s).mCommunicationLog
      ∧ (cstr pPrefix = "c".toList →
          ∃ entry, (addCommunicationLogItem pItem pPrefix s).mCommunicationLog
              = s.mCommunicationLog ++ entry
            ∧ ¬ "\r\n".toList <:+: entry) := by
  obtain ⟨h1, h2⟩ := addCommunicationLogItem_log pItem pPrefix s h
  refine ⟨?_, rfl, ?_, h2, ?_, ?_⟩
  · rw [h1, logEntry, replaceCRLF_eq_intercalate]
    simp only [List.append_assoc]
  · rw [← replaceCRLF_eq_intercalate]
    exact replaceCRLFLoop_eq _ [] (cstr pItem) (Nat.lt_succ_self _)
  · rw [h1]
    exact List.prefix_append _ _
  · intro hc
    refine ⟨_, h1, ?_⟩
    rw [if_pos hc, hc]
    intro hin
    apply replaceCRLF_no_CRLF (cstr pItem)
    have e : "\r\n".toList = ['\r', '\n'] := rfl
    have e2 : logEntry "c".toList (replaceCRLF (cstr pItem))
        = '\n' :: 'c' :: ':' :: ' ' :: replaceCRLF (cstr pItem) := rfl
    rw [e, e2] at hin
    rw [e]
    simp only [List.infix_cons_iff, List.cons_prefix_cons] at hin
    rcases hin with hin | hin | hin | hin | hin
    · exact absurd hin.1 (by decide)
    · exact absurd hin.1 (by decide)
    · exact absurd hin.1 (by decide)
    · exact absurd hin.1 (by decide)
    · exact hin

theorem addCommunicationLogItem_appends_entry_witness :
    LogOk fullLogClient
      ∧ (addCommunicationLogItem "a\r\nb\r\n".toList "c".toList fullLogClient).mCommunicationLog
          = "old\nc: a\\r\\nb\\r\\n".toList
      ∧ (addCommunicationLogItem "a\r\nb\r\n".toList "c".toList
          fullLogClient).mCommunicationLogSize = 4114 :=
  ⟨by decide,
   (addCommunicationLogItem_appends_entry "a\r\nb\r\n".toList "c".toList fullLogClient
      (by decide)).1,
   (addCommunicationLogItem_appends_entry "a\r\nb\r\n".toList "c".toList fullLogClient
      (by decide)).2.1⟩

/-! ### Error messages -/

theorem cstr_append_NUL (x r : List Char) (h : NulFree x) : cstr (x ++ NUL :: r) = x := by
  induction x with
  | nil => simp [cstr]
  | cons c x ih =>
    have hc : c ≠ NUL := h c (by simp)
    rw [List.cons_append, cstr_cons_ne _ _ hc, ih (fun d hd => h d (by simp [hd]))]

theorem toInt_small (n : Nat) (h : n < 2 ^ 31) : toInt n = n := by
  unfold toInt
  have h1 : n % 2 ^ 32 = n := Nat.mod_eq_of_lt (by omega)
  rw [h1, if_pos h]

theorem strncpy_terminated (buffer m : List Char) (k : Nat) (hk : k ≤ (cstr m).length)
    (hcap : k < buffer.length) :
    (strncpy buffer m k).set k NUL = (cstr m).take k ++ NUL :: buffer.drop (k + 1) := by
  unfold strncpy strlen
  have h0 : k - (cstr m).length = 0 := by omega
  have hl : ((cstr m).take k).length = k := by rw [List.length_take]; omega
  rw [h0, List.replicate_zero, List.append_nil, List.set_append, if_neg (by omega), hl,
    Nat.sub_self]
  congr 1
  cases hd : buffer.drop k with
  | nil =>
    have := congrArg List.length hd
    rw [List.length_drop] at this
    simp only [List.length_nil] at this
    omega
  | cons b rest =>
    rw [List.set_cons_zero]
    congr 1
    have : buffer.drop (k + 1) = (buffer.drop k).drop 1 := by rw [List.drop_drop]
    rw [this, hd]; rfl

/-- C16: with `m` the message resolved for the error code, read as a C string.
`getErrorMessage_r` returns -1 and leaves the buffer as it is when the buffer
is null or `maxLength` is 0. On a buffer of at least `maxLength` bytes, with
`maxLength - 1` a value of `int`: when `m` has more than `maxLength - 1` bytes
the buffer then holds the first `maxLength - 1` bytes of `m` followed by NUL,
so the C string stored is that cut, and the result is `maxLength - 1`;
otherwise the buffer holds `m` followed by NUL, so the C string stored is `m`,
and the result is 0. The bytes of the buffer behind the NUL are untouched. The
`std::string` variant, which passes a fresh array of 1024 bytes, returns 1023
and the first 1023 bytes of `m`, or 0 and `m`. -/
theorem getErrorMessage_r_stores_message (getErrorMessage : Int → List Char) (errorCode : Int)
    (buffer : List Char) (maxLength : Nat)
    (hcap : maxLength ≤ buffer.length) (hint : maxLength ≤ 2 ^ 31) :
    getErrorMessage_r getErrorMessage errorCode none maxLength = (-1, none)
      ∧ getErrorMessage_r getErrorMessage errorCode (some buffer) 0 = (-1, some buffer)
      ∧ (0 < maxLength → maxLength - 1 < strlen (getErrorMessage errorCode) →
          getErrorMessage_r getErrorMessage errorCode (some buffer) maxLength
              = (((maxLength - 1 : Nat) : Int),
                 some ((cstr (getErrorMessage errorCode)).take (maxLength - 1)
                   ++ NUL :: buffer.drop maxLength))
            ∧ cstr ((cstr (getErrorMessage errorCode)).take (maxLength - 1)
                   ++ NUL :: buffer.drop maxLength)
                = (cstr (getErrorMessage errorCode)).take (maxLength - 1))
      ∧ (0 < maxLength → strlen (getErrorMessage errorCode) ≤ maxLength - 1 →
          getErrorMessage_r getErrorMessage errorCode (some buffer) maxLength
              = (0, some (cstr (getErrorMessage errorCode)
                   ++ NUL :: buffer.drop (strlen (getErrorMessage errorCode) + 1)))
            ∧ cstr (cstr (getErrorMessage errorCode)
                   ++ NUL :: buffer.drop (strlen (getErrorMessage errorCode) + 1))
                = cstr (getErrorMessage errorCode))
      ∧ (buffer.length = 1024 →
          cppGetErrorMessage_r getErrorMessage errorCode buffer
            = (if 1023 < strlen (getErrorMessage errorCode) then
                (1023, (cstr (getErrorMessage errorCode)).take 1023)
               else (0, cstr (getErrorMessage errorCode)))) := by
  have hcut : ∀ k, cstr ((cstr (getErrorMessage errorCode)).take k ++ NUL :: buffer.drop (k + 1))
      = (cstr (getErrorMessage errorCode)).take k := fun k =>
    cstr_append_NUL _ _ (NulFree_sublist (List.take_sublist _ _) (NulFree_cstr _))
  have hlong : ∀ n, 0 < n → n ≤ buffer.length → n ≤ 2 ^ 31 →
      n - 1 < strlen (getErrorMessage errorCode) →
      getErrorMessage_r getErrorMessage errorCode (some buffer) n
        = (((n - 1 : Nat) : Int),
           some ((cstr (getErrorMessage errorCode)).take (n - 1) ++ NUL :: buffer.drop n)) := by
    intro n h0 hc hi hlt
    show (if n = 0 then _ else if strlen (getErrorMessage errorCode) > n - 1 then _ else _) = _
    rw [if_neg (by omega), if_pos hlt, toInt_small _ (by omega),
      strncpy_terminated buffer _ (n - 1) (by unfold strlen at hlt; omega) (by omega)]
    have : n - 1 + 1 = n := by omega
    rw [this]
  have hshort : ∀ n, 0 < n → n ≤ buffer.length →
      strlen (getErrorMessage errorCode) ≤ n - 1 →
      getErrorMessage_r getErrorMessage errorCode (some buffer) n
        = (0, some (cstr (getErrorMessage errorCode)
             ++ NUL :: buffer.drop (strlen (getErrorMessage errorCode) + 1))) := by
    intro n h0 hc hle
    show (if n = 0 then _ else if strlen (getErrorMessage errorCode) > n - 1 then _ else _) = _
    rw [if_neg (by omega), if_neg (by omega)]
    show (0, some ((strncpy buffer (getErrorMessage errorCode)
      (strlen (getErrorMessage errorCode))).set (strlen (getErrorMessage errorCode)) NUL)) = _
    have hs : strlen (getErrorMessage errorCode) = (cstr (getErrorMessage errorCode)).length := rfl
    rw [strncpy_terminated buffer (getErrorMessage errorCode)
      (strlen (getErrorMessage errorCode)) (le_of_eq hs) (by omega), hs, List.take_length]
  refine ⟨rfl, rfl, ?_, ?_, ?_⟩
  · intro h0 hlt
    refine ⟨hlong maxLength h0 hcap hint hlt, ?_⟩
    have := hcut (maxLength - 1)
    rwa [show maxLength - 1 + 1 = maxLength by omega] at this
  · intro h0 hle
    refine ⟨hshort maxLength h0 hcap hle, ?_⟩
    exact cstr_append_NUL _ _ (NulFree_cstr _)
  · intro h1024
    unfold cppGetErrorMessage_r
    by_cases hlt : 1023 < strlen (getErrorMessage errorCode)
    · rw [if_pos hlt]
      simp only []
      rw [hlong 1024 (by omega) (by omega) (by norm_num) hlt]
      have := hcut 1023
      simp only [Option.getD_some]
      rw [this]
      rfl
    · rw [if_neg hlt]
      simp only []
      rw [hshort 1024 (by omega) (by omega) (by omega)]
      simp only [Option.getD_some]
      rw [cstr_append_NUL _ _ (NulFree_cstr _)]

theorem getErrorMessage_r_stores_message_witness :
    getErrorMessage_r (fun _ => "Timeout".toList) (-5) (some "xxxxxxxxxx".toList) 4
        = (3, some ['T', 'i', 'm', NUL, 'x', 'x', 'x', 'x', 'x', 'x'])
      ∧ getErrorMessage_r (fun _ => "Timeout".toList) (-5) (some "xxxxxxxxxx".toList) 8
        = (0, some ['T', 'i', 'm', 'e', 'o', 'u', 't', NUL, 'x', 'x']) :=
  ⟨((getErrorMessage_r_stores_message (fun _ => "Timeout".toList) (-5) "xxxxxxxxxx".toList 4
      (by decide) (by decide)).2.2.1 (by decide) (by decide)).1,
   ((getErrorMessage_r_stores_message (fun _ => "Timeout".toList) (-5) "xxxxxxxxxx".toList 8
      (by decide) (by decide)).2.2.2.1 (by decide) (by decide)).1⟩

/-! ### The server name -/

theorem trim_eq_nil_iff (s : List Char) : trim s = [] ↔ ∀ c ∈ s, isspace c = true := by
  unfold trim
  rw [List.reverse_eq_nil_iff, List.dropWhile_eq_nil_iff]
  constructor
  · intro h
    cases hd : s.dropWhile isspace with
    | nil => exact List.dropWhile_eq_nil_iff.1 hd
    | cons b rest =>
      have hb : isspace b = true := h b (by rw [hd]; simp)
      have := List.head_dropWhile_not isspace s (by rw [hd]; simp)
      simp only [hd, List.head_cons] at this
      rw [hb] at this
      cases this
  · intro h
    rw [List.dropWhile_eq_nil_iff.2 h]
    simp

theorem rejected_iff (p : List Char) :
    (cstr p = [] ∨ (trim (cstr p)).isEmpty = true) ↔ blankHost (some p) := by
  rw [List.isEmpty_iff, trim_eq_nil_iff]
  constructor
  · rintro (h | h)
    · intro c hc; rw [h] at hc; cases hc
    · exact h
  · intro h
    exact Or.inr h

theorem setServerName_ok (p : List Char) (s : SMTPClientBase) (h : ¬ blankHost (some p)) :
    setServerName (some p) s = Except.ok { s with mServerName := cstr p } := by
  show (if cstr p = [] ∨ (trim (cstr p)).isEmpty = true then _ else _) = _
  rw [if_neg (fun hr => h ((rejected_iff p).1 hr)), take_strlen]

theorem setServerName_error (h : Option (List Char)) (s : SMTPClientBase) (hb : blankHost h) :
    setServerName h s
      = Except.error (Exception.invalid_argument "Server name cannot be null or empty".toList) := by
  cases h with
  | none => rfl
  | some p =>
    show (if cstr p = [] ∨ (trim (cstr p)).isEmpty = true then _ else _) = _
    rw [if_pos ((rejected_iff p).2 hb)]

theorem new_ok (p : List Char) (pPort : Nat) (storage : SMTPClientBase)
    (h : ¬ blankHost (some p)) :
    ∃ s, SMTPClientBase.SMTPClientBase (some p) pPort storage = Except.ok s
      ∧ s.mServerName = cstr p ∧ s.mPort = pPort := by
  unfold SMTPClientBase.SMTPClientBase
  simp only []
  rw [if_neg (fun hr => h ((rejected_iff p).1 hr))]
  exact ⟨_, rfl, take_strlen p, rfl⟩

theorem new_error (h : Option (List Char)) (pPort : Nat) (storage : SMTPClientBase)
    (hb : blankHost h) :
    SMTPClientBase.SMTPClientBase h pPort storage
      = Except.error (Exception.invalid_argument "Server name cannot be null or empty".toList) := by
  cases h with
  | none => rfl
  | some p =>
    show (if cstr p = [] ∨ (trim (cstr p)).isEmpty = true then _ else _) = _
    rw [if_pos ((rejected_iff p).2 hb)]

theorem setServerNames_keeps (names : List (Option (List Char))) (s : SMTPClientBase)
    (h : trim s.mServerName ≠ []) : trim (setServerNames names s).mServerName ≠ [] := by
  induction names generalizing s with
  | nil => exact h
  | cons n names ih =>
    show trim (setServerNames names
      (match setServerName n s with
        | Except.ok s1 => s1
        | Except.error _ => s)).mServerName ≠ []
    apply ih
    by_cases hb : blankHost n
    · rw [setServerName_error n s hb]
      exact h
    · cases n with
      | none => exact absurd trivial hb
      | some p =>
        rw [setServerName_ok p s hb]
        show trim (cstr p) ≠ []
        intro ht
        apply hb
        intro c hc
        exact (trim_eq_nil_iff _).1 ht c hc

/-- C17: the constructor and `setServerName` throw `invalid_argument` exactly
when the host is null, empty or whitespace-only, that is null or with an empty
`trim`. A call of `setServerName` that throws leaves the object as it was; a
call that does not throw stores the host and changes no other member, and the
constructor that does not throw stores the host and the port. So after the
constructor and any sequence of `setServerName` calls the stored host is not
empty and not whitespace-only. -/
theorem serverName_never_blank :
    (∀ h pPort storage,
        (∃ e, SMTPClientBase.SMTPClientBase h pPort storage
            = Except.error (Exception.invalid_argument e))
          ↔ blankHost h)
      ∧ (∀ h s, (∃ e, setServerName h s = Except.error (Exception.invalid_argument e))
          ↔ blankHost h)
      ∧ (∀ p, blankHost (some p) ↔ trim (cstr p) = [])
      ∧ (∀ h s, blankHost h → setServerNames [h] s = s)
      ∧ (∀ p s, ¬ blankHost (some p) →
          setServerName (some p) s = Except.ok { s with mServerName := cstr p })
      ∧ (∀ p pPort storage, ¬ blankHost (some p) →
          ∃ s, SMTPClientBase.SMTPClientBase (some p) pPort storage = Except.ok s
            ∧ s.mServerName = cstr p ∧ s.mPort = pPort)
      ∧ (∀ h pPort storage s names, SMTPClientBase.SMTPClientBase h pPort storage = Except.ok s →
          (setServerNames names s).mServerName ≠ []
            ∧ ¬ ∀ c ∈ (setServerNames names s).mServerName, isspace c = true) := by
  refine ⟨?_, ?_, ?_, ?_, ?_, ?_, ?_⟩
  · intro h pPort storage
    constructor
    · rintro ⟨e, he⟩
      by_contra hb
      cases h with
      | none => exact hb trivial
      | some p =>
        obtain ⟨s, hs, -⟩ := new_ok p pPort storage hb
        rw [hs] at he
        cases he
    · intro hb
      exact ⟨_, new_error h pPort storage hb⟩
  · intro h s
    constructor
    · rintro ⟨e, he⟩
      by_contra hb
      cases h with
      | none => exact hb trivial
      | some p =>
        rw [setServerName_ok p s hb] at he
        cases he
    · intro hb
      exact ⟨_, setServerName_error h s hb⟩
  · intro p
    exact (trim_eq_nil_iff _).symm
  · intro h s hb
    show (match setServerName h s with
      | Except.ok s1 => s1
      | Except.error _ => s) = s
    rw [setServerName_error h s hb]
  · intro p s hb
    exact setServerName_ok p s hb
  · intro p pPort storage hb
    exact new_ok p pPort storage hb
  · intro h pPort storage s names hs
    have hinit : trim s.mServerName ≠ [] := by
      cases h with
      | none => cases hs
      | some p =>
        by_cases hb : blankHost (some p)
        · rw [new_error _ pPort storage hb] at hs
          cases hs
        · obtain ⟨s1, h1, h2, -⟩ := new_ok p pPort storage hb
          rw [h1] at hs
          cases hs
          rw [h2]
          intro ht
          exact hb ((trim_eq_nil_iff _).1 ht)
    have := setServerNames_keeps names s hinit
    constructor
    · intro h0
      rw [h0] at this
      exact this rfl
    · intro hall
      exact this ((trim_eq_nil_iff _).2 hall)

/-- C18 (the code on a client with credentials and no capability object):
`authenticateClient` reads `mAuthOptions->Plain` without a test of the
pointer, so on every client with credentials whose `mAuthOptions` is null the
call dereferences the null pointer (`none`) and returns nothing. This is the
state after an EHLO reply without `250-AUTH` line, for which
`extractAuthenticationOptions` gives the null pointer. -/
theorem authenticateClient_reads_absent_options :
    (∀ (E : ErrorCodes) (s : SMTPClientBase) (c : Credential),
        authenticateClient E { s with mCredential := some c, mAuthOptions := none } = none)
      ∧ extractAuthenticationOptions (some "250 localhost\r\n".toList) = none
      ∧ authenticateClient sampleCodes
          (connectedClient (some aliceCredential)
            (extractAuthenticationOptions (some "250 localhost\r\n".toList)) []) = none :=
  ⟨fun _ _ _ => rfl, by decide, rfl⟩

/-! ### AUTH LOGIN -/

theorem loginUsernameCommand_NulFree (c : Credential) : NulFree (loginUsernameCommand c) :=
  NulFree_append (b64EncodeBytes_NulFree _) (by decide)

theorem loginPasswordCommand_NulFree (c : Credential) : NulFree (loginPasswordCommand c) :=
  NulFree_append (b64EncodeBytes_NulFree _) (by decide)

theorem loginExchange_sent (E : ErrorCodes) (s : SMTPClientBase) :
    (loginExchange E s).2.sent = s.sent ++ ["AUTH LOGIN\r\n".toList] := by
  unfold loginExchange
  rw [feedback_sent, addCommunicationLogItem_sent]
  rfl

theorem usernameExchange_sent (E : ErrorCodes) (c : Credential) (s : SMTPClientBase) :
    (usernameExchange E c s).2.sent
      = s.sent ++ ["AUTH LOGIN\r\n".toList, loginUsernameCommand c] := by
  unfold usernameExchange
  rw [feedback_sent, loginExchange_sent, cstr_of_NulFree (loginUsernameCommand_NulFree c)]
  simp

theorem passwordExchange_sent (E : ErrorCodes) (c : Credential) (s : SMTPClientBase) :
    (passwordExchange E c s).2.sent
      = s.sent ++ ["AUTH LOGIN\r\n".toList, loginUsernameCommand c, loginPasswordCommand c] := by
  unfold passwordExchange
  rw [feedback_sent, usernameExchange_sent, cstr_of_NulFree (loginPasswordCommand_NulFree c)]
  simp

theorem authenticateWithMethodLogin_eq (E : ErrorCodes) (s : SMTPClientBase) (c : Credential)
    (hc : s.mCredential = some c) :
    authenticateWithMethodLogin E s
      = if (loginExchange E s).1 ≠ STATUS_CODE_SERVER_CHALLENGE then
          some (E.CLIENT_AUTHENTICATE_ERROR, (loginExchange E s).2)
        else if (usernameExchange E c s).1 ≠ STATUS_CODE_SERVER_CHALLENGE then
          some (E.CLIENT_AUTHENTICATE_ERROR, (usernameExchange E c s).2)
        else some (passwordExchange E c s) := by
  have m1 := feedback_mCredential "AUTH LOGIN\r\n".toList
    E.CLIENT_AUTHENTICATE_ERROR E.CLIENT_AUTHENTICATE_TIMEOUT
    (addCommunicationLogItem "AUTH LOGIN ***************\r\n".toList "c".toList s)
  rw [addCommunicationLogItem_mCredential, hc] at m1
  unfold passwordExchange usernameExchange loginExchange loginPasswordCommand
    loginUsernameCommand authenticateWithMethodLogin
  simp only []
  generalize callSendCommandWithFeedbackPtr "AUTH LOGIN\r\n".toList
    E.CLIENT_AUTHENTICATE_ERROR E.CLIENT_AUTHENTICATE_TIMEOUT
    (addCommunicationLogItem "AUTH LOGIN ***************\r\n".toList "c".toList s) = ra at m1
  by_cases hA : ra.1 ≠ STATUS_CODE_SERVER_CHALLENGE
  · rw [if_pos hA, if_pos hA]
  · rw [if_neg hA, if_neg hA]
    simp only [m1]
    have m2 := feedback_mCredential
      (Base64.Encode c.getUsername (strlen c.getUsername) ++ "\r\n".toList)
      E.CLIENT_AUTHENTICATE_ERROR E.CLIENT_AUTHENTICATE_TIMEOUT ra.2
    rw [m1] at m2
    generalize callSendCommandWithFeedbackPtr
      (Base64.Encode c.getUsername (strlen c.getUsername) ++ "\r\n".toList)
      E.CLIENT_AUTHENTICATE_ERROR E.CLIENT_AUTHENTICATE_TIMEOUT ra.2 = rb at m2
    by_cases hB : rb.1 ≠ STATUS_CODE_SERVER_CHALLENGE
    · rw [if_pos hB, if_pos hB]
    · rw [if_neg hB, if_neg hB]
      simp only [m2]

theorem loginExchange_step (E : ErrorCodes) (s : SMTPClientBase) (c1 : Int) (cs : List Int)
    (hs : ∀ i, s.sendResult i = none)
    (hr : repliesAre s.recvResult s.mCommandTimeOut s.recvCalls (c1 :: cs) = true) :
    (loginExchange E s).1 = c1
      ∧ SameSession s (loginExchange E s).2
      ∧ repliesAre s.recvResult s.mCommandTimeOut (loginExchange E s).2.recvCalls cs = true := by
  obtain ⟨g1, g2, _, _, g5⟩ := feedback_step "AUTH LOGIN\r\n".toList
    E.CLIENT_AUTHENTICATE_ERROR E.CLIENT_AUTHENTICATE_TIMEOUT
    (addCommunicationLogItem "AUTH LOGIN ***************\r\n".toList "c".toList s) c1 cs
    (hs _) hr
  exact ⟨g1, (addCommunicationLogItem_same _ _ s).andThen g2, g5⟩

theorem usernameExchange_step (E : ErrorCodes) (c : Credential) (s : SMTPClientBase)
    (c1 c2 : Int) (cs : List Int)
    (hs : ∀ i, s.sendResult i = none)
    (hr : repliesAre s.recvResult s.mCommandTimeOut s.recvCalls (c1 :: c2 :: cs) = true) :
    (usernameExchange E c s).1 = c2
      ∧ SameSession s (usernameExchange E c s).2
      ∧ repliesAre s.recvResult s.mCommandTimeOut (usernameExchange E c s).2.recvCalls cs
          = true := by
  obtain ⟨_, a2, a3⟩ := loginExchange_step E s c1 (c2 :: cs) hs hr
  obtain ⟨g1, g2, _, _, g5⟩ := feedback_step (loginUsernameCommand c)
    E.CLIENT_AUTHENTICATE_ERROR E.CLIENT_AUTHENTICATE_TIMEOUT (loginExchange E s).2 c2 cs
    (a2.sends_ok hs _) (by rw [a2.recvResult, a2.mCommandTimeOut]; exact a3)
  rw [a2.recvResult, a2.mCommandTimeOut] at g5
  exact ⟨g1, a2.andThen g2, g5⟩

theorem passwordExchange_step (E : ErrorCodes) (c : Credential) (s : SMTPClientBase)
    (c1 c2 c3 : Int) (cs : List Int)
    (hs : ∀ i, s.sendResult i = none)
    (hr : repliesAre s.recvResult s.mCommandTimeOut s.recvCalls (c1 :: c2 :: c3 :: cs) = true) :
    (passwordExchange E c s).1 = c3 := by
  obtain ⟨_, a2, a3⟩ := usernameExchange_step E c s c1 c2 (c3 :: cs) hs hr
  obtain ⟨g1, _⟩ := feedback_step (loginPasswordCommand c)
    E.CLIENT_AUTHENTICATE_ERROR E.CLIENT_AUTHENTICATE_TIMEOUT (usernameExchange E c s).2 c3 cs
    (a2.sends_ok hs _) (by rw [a2.recvResult, a2.mCommandTimeOut]; exact a3)
  exact g1

/-- C19: with credentials set, `authenticateWithMethodLogin` sends
`AUTH LOGIN` first. When the result of that exchange is not 334 it returns the
authentication-error code and has sent nothing else. When it is 334 the
command `base64(username)` CRLF is sent next; when the result of this
exchange is not 334 the function returns the authentication-error code and has
sent these two commands only. When both results are 334 the command
`base64(password)` CRLF is sent third and the function returns the result of
that exchange. On a socket that accepts every send: a first reply with a
status other than 334 gives the authentication-error code after one command,
replies 334 and then another status give it after two commands, and replies
334, 334 and then a status `c3` give the result `c3` after three commands. -/
theorem authenticateWithMethodLogin_challenges (E : ErrorCodes) (s : SMTPClientBase)
    (c : Credential) (hc : s.mCredential = some c) :
    (loginExchange E s).2.sent = s.sent ++ ["AUTH LOGIN\r\n".toList]
      ∧ (usernameExchange E c s).2.sent
          = s.sent ++ ["AUTH LOGIN\r\n".toList, loginUsernameCommand c]
      ∧ (passwordExchange E c s).2.sent
          = s.sent ++ ["AUTH LOGIN\r\n".toList, loginUsernameCommand c, loginPasswordCommand c]
      ∧ ((loginExchange E s).1 ≠ STATUS_CODE_SERVER_CHALLENGE →
          authenticateWithMethodLogin E s
            = some (E.CLIENT_AUTHENTICATE_ERROR, (loginExchange E s).2))
      ∧ ((loginExchange E s).1 = STATUS_CODE_SERVER_CHALLENGE →
          (usernameExchange E c s).1 ≠ STATUS_CODE_SERVER_CHALLENGE →
          authenticateWithMethodLogin E s
            = some (E.CLIENT_AUTHENTICATE_ERROR, (usernameExchange E c s).2))
      ∧ ((loginExchange E s).1 = STATUS_CODE_SERVER_CHALLENGE →
          (usernameExchange E c s).1 = STATUS_CODE_SERVER_CHALLENGE →
          authenticateWithMethodLogin E s = some (passwordExchange E c s))
      ∧ ((∀ i, s.sendResult i = none) →
          (∀ c1 cs, repliesAre s.recvResult s.mCommandTimeOut s.recvCalls (c1 :: cs) = true →
            c1 ≠ 334 →
            ∃ t, authenticateWithMethodLogin E s = some (E.CLIENT_AUTHENTICATE_ERROR, t)
              ∧ t.sent = s.sent ++ ["AUTH LOGIN\r\n".toList])
          ∧ (∀ c2 cs,
              repliesAre s.recvResult s.mCommandTimeOut s.recvCalls (334 :: c2 :: cs) = true →
              c2 ≠ 334 →
              ∃ t, authenticateWithMethodLogin E s = some (E.CLIENT_AUTHENTICATE_ERROR, t)
                ∧ t.sent = s.sent ++ ["AUTH LOGIN\r\n".toList, loginUsernameCommand c])
          ∧ (∀ c3 cs,
              repliesAre s.recvResult s.mCommandTimeOut s.recvCalls (334 :: 334 :: c3 :: cs)
                = true →
              ∃ t, authenticateWithMethodLogin E s = some (c3, t)
                ∧ t.sent = s.sent ++ ["AUTH LOGIN\r\n".toList, loginUsernameCommand c,
                    loginPasswordCommand c])) := by
  have heq := authenticateWithMethodLogin_eq E s c hc
  have k1 : (loginExchange E s).1 ≠ STATUS_CODE_SERVER_CHALLENGE →
      authenticateWithMethodLogin E s
        = some (E.CLIENT_AUTHENTICATE_ERROR, (loginExchange E s).2) := by
    intro h; rw [heq, if_pos h]
  have k2 : (loginExchange E s).1 = STATUS_CODE_SERVER_CHALLENGE →
      (usernameExchange E c s).1 ≠ STATUS_CODE_SERVER_CHALLENGE →
      authenticateWithMethodLogin E s
        = some (E.CLIENT_AUTHENTICATE_ERROR, (usernameExchange E c s).2) := by
    intro h1 h2; rw [heq, if_neg (fun h => h h1), if_pos h2]
  have k3 : (loginExchange E s).1 = STATUS_CODE_SERVER_CHALLENGE →
      (usernameExchange E c s).1 = STATUS_CODE_SERVER_CHALLENGE →
      authenticateWithMethodLogin E s = some (passwordExchange E c s) := by
    intro h1 h2; rw [heq, if_neg (fun h => h h1), if_neg (fun h => h h2)]
  refine ⟨loginExchange_sent E s, usernameExchange_sent E c s, passwordExchange_sent E c s,
    k1, k2, k3, fun hs => ⟨?_, ?_, ?_⟩⟩
  · intro c1 cs hr h1
    obtain ⟨g1, _, _⟩ := loginExchange_step E s c1 cs hs hr
    exact ⟨_, k1 (by rw [g1]; exact h1), loginExchange_sent E s⟩
  · intro c2 cs hr h2
    obtain ⟨g1, _, _⟩ := loginExchange_step E s 334 (c2 :: cs) hs hr
    obtain ⟨g2, _, _⟩ := usernameExchange_step E c s 334 c2 cs hs hr
    exact ⟨_, k2 g1 (by rw [g2]; exact h2), usernameExchange_sent E c s⟩
  · intro c3 cs hr
    obtain ⟨g1, _, _⟩ := loginExchange_step E s 334 (334 :: c3 :: cs) hs hr
    obtain ⟨g2, _, _⟩ := usernameExchange_step E c s 334 334 (c3 :: cs) hs hr
    have g3 := passwordExchange_step E c s 334 334 c3 cs hs hr
    refine ⟨(passwordExchange E c s).2, ?_, passwordExchange_sent E c s⟩
    rw [k3 g1 g2, ← g3]

set_option maxRecDepth 100000 in
theorem authenticateWithMethodLogin_challenges_witness :
    aliceLoginClient.mCredential = some aliceCredential
      ∧ (∃ t, authenticateWithMethodLogin sampleCodes aliceLoginClient = some (235, t)
          ∧ t.sent = aliceLoginClient.sent
              ++ ["AUTH LOGIN\r\n".toList, "YWxpY2U=\r\n".toList, "czNjcmV0\r\n".toList])
      ∧ (∃ t, authenticateWithMethodLogin sampleCodes aliceLoginRefusedClient
            = some (sampleCodes.CLIENT_AUTHENTICATE_ERROR, t)
          ∧ t.sent = aliceLoginRefusedClient.sent
              ++ ["AUTH LOGIN\r\n".toList, "YWxpY2U=\r\n".toList]) :=
  ⟨rfl,
   ((authenticateWithMethodLogin_challenges sampleCodes aliceLoginClient aliceCredential
      rfl).2.2.2.2.2.2 (fun _ => rfl)).2.2 235 [] (by decide),
   ((authenticateWithMethodLogin_challenges sampleCodes aliceLoginRefusedClient aliceCredential
      rfl).2.2.2.2.2.2 (fun _ => rfl)).2.1 535 [235] (by decide) (by decide)⟩

/-! ### The polling loop at the end of the waiting time -/

set_option maxRecDepth 100000 in
/-- C20 (the code on a reply that arrives when the waiting time is used up):
after the polling loop the code tests `waitTime < mCommandTimeOut`, not whether
`recv` returned data. With command timeout 0 every command that awaits a reply
returns the timeout code on a socket that accepts the send, whatever `recv`
returns: on `zeroTimeoutClient` the one call of `recv` returns `250 ok`, yet
the result is the timeout code and the socket handle is cleared. With the
default timeout of 5 the reply that the sixth call of `recv` returns is
dropped in the same way. `checkServerGreetings` drops the greeting `220 ready`
likewise, returns the connect-timeout code and does not clean up (the handle
stays 3). -/
theorem sendRawCommand_drops_reply_at_timeout :
    (∀ (cmd : List Char) (e t : Int) (s : SMTPClientBase),
        (sendRawCommandTimeout cmd e t
          { s with mCommandTimeOut := 0, sendResult := fun _ => none }).1 = t)
      ∧ zeroTimeoutClient.recvResult 0 = "250 ok\r\n".toList
      ∧ (sendRawCommandTimeout "NOOP\r\n".toList (-1) (-2) zeroTimeoutClient).1 = -2
      ∧ (sendRawCommandTimeout "NOOP\r\n".toList (-1) (-2) zeroTimeoutClient).2.recvCalls = 1
      ∧ (sendRawCommandTimeout "NOOP\r\n".toList (-1) (-2) zeroTimeoutClient).2.mSock = 0
      ∧ lateReplyClient.recvResult 5 = "250 ok\r\n".toList
      ∧ (sendRawCommandTimeout "NOOP\r\n".toList (-1) (-2) lateReplyClient).1 = -2
      ∧ (sendRawCommandTimeout "NOOP\r\n".toList (-1) (-2) lateReplyClient).2.recvCalls = 6
      ∧ (checkServerGreetings sampleCodes zeroTimeoutGreetedClient).1
          = sampleCodes.SOCKET_INIT_SESSION_CONNECT_TIMEOUT
      ∧ (checkServerGreetings sampleCodes zeroTimeoutGreetedClient).2.recvCalls = 1
      ∧ (checkServerGreetings sampleCodes zeroTimeoutGreetedClient).2.mSock = 3 := by
  refine ⟨fun cmd e t s => rfl, by decide, by decide, by decide, by decide, by decide, by decide,
    by decide, by decide, by decide, by decide⟩

/-! ### A To or Cc header whose send fails -/

set_option maxRecDepth 100000 in
/-- C21 (the code on a To header whose send fails): `setMailHeaders` sends the
To and Cc headers inside `std::for_each`, which discards the value that the
lambda returns, so the result of `addMailHeader` is never tested. On
`toHeaderFailingClient` the send of the first To header fails (the errno is
stored and the socket handle cleared), yet the second To header, the Subject
and the Content-Type header are sent, `setMailHeaders` returns 0 and `sendMail`
returns 0; the same holds after `setKeepUsingBaseSendCommands(true)`. When
every later send fails as well, the later headers are still attempted and the
result is the subject error code, not the header-to-cc error code. -/
theorem setMailHeaders_ignores_failed_to_header :
    (setMailRecipients sampleCodes twoRecipientsMessage toHeaderFailingClient).1 = 0
      ∧ (setMailHeaders sampleCodes twoRecipientsMessage
          (setMailRecipients sampleCodes twoRecipientsMessage toHeaderFailingClient).2).1 = 0
      ∧ (setMailHeaders sampleCodes twoRecipientsMessage
          (setMailRecipients sampleCodes twoRecipientsMessage toHeaderFailingClient).2).2.sent
          = ["MAIL FROM: <a@x.org>\r\n".toList, "RCPT TO: <b@y.org>\r\n".toList,
             "RCPT TO: <c@y.org>\r\n".toList, "DATA\r\n".toList,
             "From: \"\" <a@x.org>\r\n".toList, "To: b@y.org\r\n".toList,
             "To: c@y.org\r\n".toList, "Subject: Hi\r\n".toList,
             "Content-Type: multipart/mixed; boundary=sep\r\n\r\n".toList]
      ∧ (setMailHeaders sampleCodes twoRecipientsMessage
          (setMailRecipients sampleCodes twoRecipientsMessage
            toHeaderFailingClient).2).2.mLastSocketErrNo = 32
      ∧ (setMailHeaders sampleCodes twoRecipientsMessage
          (setMailRecipients sampleCodes twoRecipientsMessage toHeaderFailingClient).2).2.mSock = 0
      ∧ (sendMail sampleCodes alreadyConnected twoRecipientsMessage toHeaderFailingClient).1 = 0
      ∧ (sendMail sampleCodes alreadyConnected twoRecipientsMessage
          (setKeepUsingBaseSendCommands true toHeaderFailingClient)).1 = 0
      ∧ (sendMail sampleCodes alreadyConnected twoRecipientsMessage brokenAtToHeaderClient).1
          = sampleCodes.CLIENT_SENDMAIL_HEADERSUBJECT_ERROR
      ∧ (sendMail sampleCodes alreadyConnected twoRecipientsMessage brokenAtToHeaderClient).2.sent
          = ["MAIL FROM: <a@x.org>\r\n".toList, "RCPT TO: <b@y.org>\r\n".toList,
             "RCPT TO: <c@y.org>\r\n".toList, "DATA\r\n".toList,
             "From: \"\" <a@x.org>\r\n".toList, "To: b@y.org\r\n".toList,
             "To: c@y.org\r\n".toList, "Subject: Hi\r\n".toList]
      ∧ sampleCodes.CLIENT_SENDMAIL_HEADERSUBJECT_ERROR
          ≠ sampleCodes.CLIENT_SENDMAIL_HEADERTOANDCC_ERROR := by
  refine ⟨by decide, by decide, by decide, by decide, by decide, by decide, by decide, by decide,
    by decide, by decide⟩

/-! ### The send pointers after `setKeepUsingBaseSendCommands` -/

theorem sendRawCommandTimeout_timeout (cmd : List Char) (e t : Int) (s : SMTPClientBase)
    (h : s.sendResult s.sendCalls = none)
    (hr : nextReply s.recvResult s.mCommandTimeOut s.recvCalls = none) :
    (sendRawCommandTimeout cmd e t s).1 = t ∧ (sendRawCommandTimeout cmd e t s).2.mSock = 0 := by
  rw [sendRawCommandTimeout_eq, sendRawCommand_ok cmd e s h, if_neg (fun h => h rfl)]
  unfold nextReply at hr
  cases hp : recvLoop s.recvResult s.mCommandTimeOut s.recvCalls with
  | mk a m =>
    cases a with
    | some bytes => rw [hp] at hr; cases hr
    | none =>
      have := awaitReply_none t
        { s with sendCalls := s.sendCalls + 1, sent := s.sent ++ [cstr cmd] } m hp
      show (awaitReply t
          { s with sendCalls := s.sendCalls + 1, sent := s.sent ++ [cstr cmd] }).1 = t
        ∧ (awaitReply t
          { s with sendCalls := s.sendCalls + 1, sent := s.sent ++ [cstr cmd] }).2.mSock = 0
      rw [this]
      exact ⟨rfl, rfl⟩

/-- C22 (what the code does instead): after `setKeepUsingBaseSendCommands(true)`
a command issued through `sendCommandWithFeedbackPtr` still awaits its reply.
On `rawRejectingClient` the send succeeds, one call of `recv` is made, the
reply `550 denied` is stored as last server response and the result is 550,
not 0. On `rawSilentClient` the send succeeds, `recv` is polled six times, and
the result is the timeout code with the socket handle cleared. -/
theorem keepUsingBaseSendCommands_still_awaits_reply :
    rawRejectingClient.sendResult rawRejectingClient.sendCalls = none
      ∧ (callSendCommandWithFeedbackPtr "MAIL FROM: <a@x.org>\r\n".toList (-11) (-12)
          rawRejectingClient).1 = 550
      ∧ (callSendCommandWithFeedbackPtr "MAIL FROM: <a@x.org>\r\n".toList (-11) (-12)
          rawRejectingClient).2.recvCalls = 1
      ∧ (callSendCommandWithFeedbackPtr "MAIL FROM: <a@x.org>\r\n".toList (-11) (-12)
          rawRejectingClient).2.mLastServerResponse = some "550 denied\r".toList
      ∧ (callSendCommandWithFeedbackPtr "MAIL FROM: <a@x.org>\r\n".toList (-11) (-12)
          rawSilentClient).1 = -12
      ∧ (callSendCommandWithFeedbackPtr "MAIL FROM: <a@x.org>\r\n".toList (-11) (-12)
          rawSilentClient).2.recvCalls = 6
      ∧ (callSendCommandWithFeedbackPtr "MAIL FROM: <a@x.org>\r\n".toList (-11) (-12)
          rawSilentClient).2.mSock = 0 := by
  refine ⟨rfl, by decide, by decide, by decide, by decide, by decide, by decide⟩

/-- C22 (amended): `setKeepUsingBaseSendCommands(true)` stores the flag and
points `sendCommandPtr` at `sendRawCommand(pCommand, pErrorCode)` and
`sendCommandWithFeedbackPtr` at
`sendRawCommand(pCommand, pErrorCode, pTimeoutCode)` of the base class, and
changes nothing else. A command issued through `sendCommandWithFeedbackPtr` is
then sent and its reply awaited: when the send succeeds `recv` is called at
least once; the result is the status code of the reply and the reply becomes
the last server response when one arrives within the command timeout, and the
result is the timeout code, with the socket handle cleared, when none does;
the result is the error code, if that is not 0, when the send fails. Only a
command issued through `sendCommandPtr` is a bare send, with result 0 and no
call of `recv` when the send succeeds. `setKeepUsingBaseSendCommands(false)`
stores the flag and points the two pointers back at `sendCommand` and
`sendCommandWithFeedback`. -/
theorem setKeepUsingBaseSendCommands_selects_base_commands (pCommand : List Char)
    (pErrorCode pTimeoutCode : Int) (s : SMTPClientBase) :
    setKeepUsingBaseSendCommands true s
        = { s with mKeepUsingBaseSendCommands := true,
                   sendCommandPtr := SendCommandTarget.sendRawCommand,
                   sendCommandWithFeedbackPtr := SendCommandWithFeedbackTarget.sendRawCommand }
      ∧ callSendCommandWithFeedbackPtr pCommand pErrorCode pTimeoutCode
          (setKeepUsingBaseSendCommands true s)
        = sendRawCommandTimeout pCommand pErrorCode pTimeoutCode
            (setKeepUsingBaseSendCommands true s)
      ∧ callSendCommandPtr pCommand pErrorCode (setKeepUsingBaseSendCommands true s)
        = sendRawCommand pCommand pErrorCode (setKeepUsingBaseSendCommands true s)
      ∧ (s.sendResult s.sendCalls = none →
          s.recvCalls < (callSendCommandWithFeedbackPtr pCommand pErrorCode pTimeoutCode
              (setKeepUsingBaseSendCommands true s)).2.recvCalls
            ∧ (∀ outbuf m,
                nextReply s.recvResult s.mCommandTimeOut s.recvCalls = some (outbuf, m) →
                (callSendCommandWithFeedbackPtr pCommand pErrorCode pTimeoutCode
                    (setKeepUsingBaseSendCommands true s)).1 = extractReturnCode (some outbuf)
                  ∧ (callSendCommandWithFeedbackPtr pCommand pErrorCode pTimeoutCode
                    (setKeepUsingBaseSendCommands true s)).2.mLastServerResponse
                      = some (cstr outbuf))
            ∧ (nextReply s.recvResult s.mCommandTimeOut s.recvCalls = none →
                (callSendCommandWithFeedbackPtr pCommand pErrorCode pTimeoutCode
                    (setKeepUsingBaseSendCommands true s)).1 = pTimeoutCode
                  ∧ (callSendCommandWithFeedbackPtr pCommand pErrorCode pTimeoutCode
                    (setKeepUsingBaseSendCommands true s)).2.mSock = 0)
            ∧ (callSendCommandPtr pCommand pErrorCode (setKeepUsingBaseSendCommands true s)).1
                = 0
            ∧ (callSendCommandPtr pCommand pErrorCode
                (setKeepUsingBaseSendCommands true s)).2.recvCalls = s.recvCalls)
      ∧ (∀ errno, s.sendResult s.sendCalls = some errno → pErrorCode ≠ 0 →
          (callSendCommandWithFeedbackPtr pCommand pErrorCode pTimeoutCode
              (setKeepUsingBaseSendCommands true s)).1 = pErrorCode
            ∧ (callSendCommandWithFeedbackPtr pCommand pErrorCode pTimeoutCode
              (setKeepUsingBaseSendCommands true s)).2.recvCalls = s.recvCalls)
      ∧ setKeepUsingBaseSendCommands false s
        = { s with mKeepUsingBaseSendCommands := false,
                   sendCommandPtr := SendCommandTarget.sendCommand,
                   sendCommandWithFeedbackPtr :=
                     SendCommandWithFeedbackTarget.sendCommandWithFeedback }
      ∧ callSendCommandWithFeedbackPtr pCommand pErrorCode pTimeoutCode
          (setKeepUsingBaseSendCommands false s)
        = sendCommandWithFeedback pCommand pErrorCode pTimeoutCode
            (setKeepUsingBaseSendCommands false s)
      ∧ callSendCommandPtr pCommand pErrorCode (setKeepUsingBaseSendCommands false s)
        = sendCommand pCommand pErrorCode (setKeepUsingBaseSendCommands false s) := by
  refine ⟨rfl, rfl, rfl, ?_, ?_, rfl, rfl, rfl⟩
  · intro hs
    have hs1 : (setKeepUsingBaseSendCommands true s).sendResult
        (setKeepUsingBaseSendCommands true s).sendCalls = none := hs
    refine ⟨feedback_polls pCommand pErrorCode pTimeoutCode _ hs1, ?_, ?_, ?_, ?_⟩
    · intro outbuf m hr
      have hr1 : nextReply (setKeepUsingBaseSendCommands true s).recvResult
          (setKeepUsingBaseSendCommands true s).mCommandTimeOut
          (setKeepUsingBaseSendCommands true s).recvCalls = some (outbuf, m) := hr
      rw [callSendCommandWithFeedbackPtr_eq,
        sendRawCommandTimeout_ok pCommand pErrorCode pTimeoutCode _ outbuf m hs1 hr1]
      exact ⟨rfl, rfl⟩
    · intro hr
      rw [callSendCommandWithFeedbackPtr_eq]
      exact sendRawCommandTimeout_timeout pCommand pErrorCode pTimeoutCode _ hs1 hr
    · rw [callSendCommandPtr_eq, sendRawCommand_ok pCommand pErrorCode _ hs1]
    · rw [callSendCommandPtr_eq, sendRawCommand_ok pCommand pErrorCode _ hs1]
      rfl
  · intro errno hs he
    have hs1 : (setKeepUsingBaseSendCommands true s).sendResult
        (setKeepUsingBaseSendCommands true s).sendCalls = some errno := hs
    rw [callSendCommandWithFeedbackPtr_eq, sendRawCommandTimeout_eq,
      sendRawCommand_fail pCommand pErrorCode errno (setKeepUsingBaseSendCommands true s) hs1,
      if_pos he]
    exact ⟨rfl, rfl⟩

end SMTP
